import Mathlib

/-!
# MapWidget (src/map_widget.cpp): coordinate conversion, dirty rectangles, raster caches

A shallow embedding of the parts of `MapWidget` that convert between view and
viewport coordinates, track the dirty rectangle of each raster cache, redraw the
caches and decide how a pan is repainted.

Conventions of the embedding
* `qreal`, `double` and `float` values are rationals (`ℚ`): arithmetic is exact, except
  where `panView` stores a value in a `float` or computes with `float`s: there the result is
  rounded to the nearest `float` (`toFloat`).
* `int` and `qint64` values are integers (`ℤ`); a conversion from a floating
  value to `int` truncates toward zero (`truncToInt`).
* Qt value types (`QPoint`, `QPointF`, `QRect`, `QRectF`) follow the Qt
  implementation: a `QRect` stores its two corners `x1 y1 x2 y2`, a `QRectF`
  stores `xp yp w h`.
* The view (`MapView`) and the map (`Map`) are collaborators outside this file
  of the program; what the widget reads from them is a field of `MapView`.
* A `QImage` is its size, its format and the sequence of painting operations applied to it.
* `rectIncludeSafe` lives in util.h, outside `map_widget.cpp`; it is modelled from the
  specification of the widget (see its definition).
* Repaint requests (`update(...)`) and timers are recorded in the state.
-/

namespace MapWidgetModel

/-! ## Qt value types -/

/-- Qt `QPoint`: integer point. -/
structure QPoint where
  x : ℤ
  y : ℤ
deriving DecidableEq

/-- Qt `QPointF`: floating point. -/
structure QPointF where
  x : ℚ
  y : ℚ
deriving DecidableEq

/-- Map coordinate `MapCoordF` (a pair of floating values). -/
structure MapCoordF where
  x : ℚ
  y : ℚ
deriving DecidableEq

/-- Qt `QSize`. -/
structure QSize where
  w : ℤ
  h : ℤ
deriving DecidableEq

/-- Qt `QRect`: stored as the two corners, `x2 = x1 + width - 1`. -/
structure QRect where
  x1 : ℤ
  y1 : ℤ
  x2 : ℤ
  y2 : ℤ
deriving DecidableEq

/-- Qt `QRectF`: stored as top-left corner and size. -/
structure QRectF where
  xp : ℚ
  yp : ℚ
  w : ℚ
  h : ℚ
deriving DecidableEq

/-- Conversion of a floating value to `int`: truncation toward zero. -/
def truncToInt (q : ℚ) : ℤ := if 0 ≤ q then ⌊q⌋ else ⌈q⌉

/-- Rounding to the nearest integer, a tie going to the even one. -/
def roundHalfEven (q : ℚ) : ℤ :=
  if q - ⌊q⌋ < 1 / 2 then ⌊q⌋
  else if 1 / 2 < q - ⌊q⌋ then ⌊q⌋ + 1
  else if ⌊q⌋ % 2 = 0 then ⌊q⌋ else ⌊q⌋ + 1

/-- The `float` nearest to a value (IEEE 754 binary32, round to nearest, a tie to even): 24
significant bits, the exponent not below -126. It is what `float px = ...` keeps of a `double`
or an `int`, and what an operation on two `float`s returns of its exact result. Values beyond
the largest `float` are not treated apart. -/
def toFloat (q : ℚ) : ℚ :=
  if q = 0 then 0
  else
    let e := max (Int.log 2 |q|) (-126)
    let ulp : ℚ := 2 ^ (e - 23)
    roundHalfEven (q / ulp) * ulp

/-- Qt 5 `qRound(float d)`:
`d >= 0.0f ? int(d + 0.5f) : int(d - float(int(d-1)) + 0.5f) + int(d-1)`; every sum and
difference is a `float` operation. -/
def qRound (d : ℚ) : ℤ :=
  if 0 ≤ d then truncToInt (toFloat (d + 1 / 2))
  else
    truncToInt (toFloat (toFloat (d - toFloat (truncToInt (toFloat (d - 1)))) + 1 / 2))
      + truncToInt (toFloat (d - 1))

/-- The `double` literal `0.01`: the binary64 value nearest to 1/100. -/
def doubleHundredth : ℚ := 5764607523034235 / 576460752303423488

namespace QRect

/-- Source: `QRect()`: the null rectangle `(0, 0, -1, -1)`. -/
def null : QRect := ⟨0, 0, -1, -1⟩

/-- Source: `QRect(x, y, w, h)`. -/
def mk4 (x y w h : ℤ) : QRect := ⟨x, y, x + w - 1, y + h - 1⟩

def left (r : QRect) : ℤ := r.x1
def top (r : QRect) : ℤ := r.y1
def right (r : QRect) : ℤ := r.x2
def bottom (r : QRect) : ℤ := r.y2
def width (r : QRect) : ℤ := r.x2 - r.x1 + 1
def height (r : QRect) : ℤ := r.y2 - r.y1 + 1

/-- Source: `QRect::isValid()`: `x1 <= x2 && y1 <= y2`. -/
def isValid (r : QRect) : Bool := decide (r.x1 ≤ r.x2) && decide (r.y1 ≤ r.y2)

/-- Source: `QRect::isNull()`: `x2 == x1 - 1 && y2 == y1 - 1`. -/
def isNull (r : QRect) : Bool := decide (r.x2 = r.x1 - 1) && decide (r.y2 = r.y1 - 1)

/-- Source: `QRect::setWidth(w)`: `x2 = x1 + w - 1`. -/
def setWidth (r : QRect) (w : ℤ) : QRect := { r with x2 := r.x1 + w - 1 }

/-- Source: `QRect::adjust(dx1, dy1, dx2, dy2)`. -/
def adjust (r : QRect) (dx1 dy1 dx2 dy2 : ℤ) : QRect :=
  ⟨r.x1 + dx1, r.y1 + dy1, r.x2 + dx2, r.y2 + dy2⟩

/-- Left edge after normalising a possibly negative width (`l1` in Qt). -/
def nl (r : QRect) : ℤ := if r.x2 - r.x1 + 1 < 0 then r.x2 else r.x1
/-- Right edge after normalising (`r1` in Qt). -/
def nr (r : QRect) : ℤ := if r.x2 - r.x1 + 1 < 0 then r.x1 else r.x2
/-- Top edge after normalising (`t1` in Qt). -/
def nt (r : QRect) : ℤ := if r.y2 - r.y1 + 1 < 0 then r.y2 else r.y1
/-- Bottom edge after normalising (`b1` in Qt). -/
def nb (r : QRect) : ℤ := if r.y2 - r.y1 + 1 < 0 then r.y1 else r.y2

/-- Source: `QRect::united` (`operator|`): bounding rectangle of both. -/
def united (a b : QRect) : QRect :=
  if a.isNull then b
  else if b.isNull then a
  else ⟨min a.nl b.nl, min a.nt b.nt, max a.nr b.nr, max a.nb b.nb⟩

/-- Source: `QRect::intersected` (`operator&`). -/
def intersected (a b : QRect) : QRect :=
  if a.isNull || b.isNull then null
  else if a.nl > b.nr || b.nl > a.nr then null
  else if a.nt > b.nb || b.nt > a.nb then null
  else ⟨max a.nl b.nl, max a.nt b.nt, min a.nr b.nr, min a.nb b.nb⟩

/-- Source: `QRect::intersects`. -/
def intersects (a b : QRect) : Bool :=
  if a.isNull || b.isNull then false
  else if a.nl > b.nr || b.nl > a.nr then false
  else if a.nt > b.nb || b.nt > a.nb then false
  else true

/-- Pixel `(x, y)` lies inside the rectangle (edges included). -/
def containsPixel (r : QRect) (x y : ℤ) : Prop :=
  r.x1 ≤ x ∧ x ≤ r.x2 ∧ r.y1 ≤ y ∧ y ≤ r.y2

instance (r : QRect) (x y : ℤ) : Decidable (r.containsPixel x y) := by
  unfold containsPixel; infer_instance

end QRect

namespace QRectF

/-- Source: `QRectF()`: the null rectangle, all fields zero. -/
def null : QRectF := ⟨0, 0, 0, 0⟩

def left (r : QRectF) : ℚ := r.xp
def top (r : QRectF) : ℚ := r.yp
def right (r : QRectF) : ℚ := r.xp + r.w
def bottom (r : QRectF) : ℚ := r.yp + r.h
def width (r : QRectF) : ℚ := r.w
def height (r : QRectF) : ℚ := r.h

/-- Source: `QRectF::isValid()`: `w > 0 && h > 0`. -/
def isValid (r : QRectF) : Bool := decide (0 < r.w) && decide (0 < r.h)

def topLeft (r : QRectF) : QPointF := ⟨r.xp, r.yp⟩
def bottomRight (r : QRectF) : QPointF := ⟨r.xp + r.w, r.yp + r.h⟩
def topRight (r : QRectF) : QPointF := ⟨r.xp + r.w, r.yp⟩
def bottomLeft (r : QRectF) : QPointF := ⟨r.xp, r.yp + r.h⟩

/-- Source: `QRectF::adjust(dx1, dy1, dx2, dy2)`: `xp += dx1; yp += dy1; w += dx2 - dx1; h += dy2 - dy1`. -/
def adjust (r : QRectF) (dx1 dy1 dx2 dy2 : ℚ) : QRectF :=
  ⟨r.xp + dx1, r.yp + dy1, r.w + (dx2 - dx1), r.h + (dy2 - dy1)⟩

/-- The point lies in the closed region between the edges of the rectangle. -/
def covers (r : QRectF) (p : QPointF) : Prop :=
  r.left ≤ p.x ∧ p.x ≤ r.right ∧ r.top ≤ p.y ∧ p.y ≤ r.bottom

instance (r : QRectF) (p : QPointF) : Decidable (r.covers p) := by
  unfold covers; infer_instance

end QRectF

/-! ## The view collaborator -/

/-- What the widget reads from its `MapView` (and, through it, from the `Map`).
The class itself is outside `map_widget.cpp`; every member used there is a field. -/
structure MapView where
  /-- Source: `getRotation()` -/
  getRotation : ℚ
  /-- Source: `mapToView(MapCoordF)` -/
  mapToView : MapCoordF → QPointF
  /-- Source: `viewToMapF(QPointF)` -/
  viewToMapF : QPointF → MapCoordF
  /-- Source: `MapCoordF::rotate(getRotation())` applied to a map offset -/
  rotate : MapCoordF → MapCoordF
  /-- Source: `lengthToPixel(length)` -/
  lengthToPixel : ℚ → ℚ
  /-- Source: `calculateViewedRect(view_rect)` -/
  calculateViewedRect : QRectF → QRectF
  /-- Source: `calculateViewBoundingBox(map_rect)` -/
  calculateViewBoundingBox : QRectF → QRectF
  /-- Source: `getMap()->countObjectsInRect(map_rect, false)`: a number of objects, so never
  negative -/
  countObjectsInRect : QRectF → ℕ
  /-- Source: `getMap()->getFirstFrontTemplate()` -/
  getFirstFrontTemplate : ℤ
  /-- Source: `getMap()->getNumTemplates()` -/
  getNumTemplates : ℤ
  /-- Source: `isGridVisible()` -/
  isGridVisible : Bool
  /-- Source: `isOverprintingSimulationEnabled()` -/
  isOverprintingSimulationEnabled : Bool
  /-- Source: `calculateFinalZoomFactor()` -/
  calculateFinalZoomFactor : ℚ
  /-- Source: `isBelowTemplateVisible()` of the widget, declared in map_widget.h outside this
  file; its value is taken as given while an operation runs -/
  isBelowTemplateVisible : Bool
  /-- Source: `isAboveTemplateVisible()` of the widget, declared in map_widget.h outside this
  file; its value is taken as given while an operation runs -/
  isAboveTemplateVisible : Bool
  /-- Source: `Settings::getInstance().getSettingCached(Settings::MapDisplay_Antialiasing).toBool()` -/
  settingAntialiasing : Bool
  /-- Source: `getMap()->getNumObjects()` -/
  getNumObjects : ℤ := 0
  /-- Source: `getMap()->getNumColors()` -/
  getNumColors : ℤ := 0
  /-- Source: `getMap()->getNumSymbols()` -/
  getNumSymbols : ℤ := 0
  /-- Source: `areAllTemplatesHidden()` -/
  areAllTemplatesHidden : Bool := false
  /-- Source: `getMapVisibility()->visible` -/
  mapVisible : Bool := true
  /-- Source: `getMapVisibility()->opacity` -/
  mapOpacity : ℚ := 1

/-! ## Raster caches -/

/-- Qt `QImage::Format`, the formats with 32 bits per pixel. -/
inductive QImageFormat where
  | Format_RGB32
  | Format_ARGB32
  | Format_ARGB32_Premultiplied
deriving DecidableEq

/-- Qt `QPainter::CompositionMode`, the modes `map_widget.cpp` paints with. -/
inductive CompositionMode where
  /-- the mode of a painter that was given none: the source is blended over the destination -/
  | CompositionMode_SourceOver
  /-- the source replaces the destination -/
  | CompositionMode_Source
  /-- the destination is cleared -/
  | CompositionMode_Clear
deriving DecidableEq

/-- One painting operation on a cache image, with the clip rectangle in force. -/
inductive PaintOp where
  /-- Source: `painter.fillRect(rect, Qt::white)` -/
  | fillWhite (clip rect : QRect)
  /-- Source: `painter.fillRect(rect, Qt::transparent)` in `CompositionMode_Clear` -/
  | clear (clip rect : QRect)
  /-- Source: `map->drawTemplates(&painter, map_view_rect, first, last, view, true)` -/
  | drawTemplates (clip : QRect) (map_view_rect : QRectF) (first last : ℤ)
  /-- Source: `map->draw(...)` or `map->drawOverprintingSimulation(...)` -/
  | drawMap (clip : QRect) (map_view_rect : QRectF) (overprinting antialiasing : Bool) (zoom : ℚ)
  /-- Source: `map->drawGrid(&painter, map_view_rect, true)` -/
  | drawGrid (clip : QRect) (map_view_rect : QRectF)
  /-- Source: `shiftCache`: `painter.setCompositionMode(mode); painter.drawImage(x, y, *cache)`
  on the new image that takes the place of `cache`; the image drawn is the content so far -/
  | drawImage (mode : CompositionMode) (x y : ℤ)
deriving DecidableEq

/-- Clip rectangle of a painting operation (none for the `drawImage` of `shiftCache`, which
sets no clip). -/
def PaintOp.clipRect : PaintOp → Option QRect
  | .fillWhite c _ => some c
  | .clear c _ => some c
  | .drawTemplates c _ _ _ => some c
  | .drawMap c _ _ _ _ => some c
  | .drawGrid c _ => some c
  | .drawImage _ _ _ => none

/-- A `QImage`: its size, what was painted on it, and its format. -/
structure QImage where
  size : QSize
  ops : List PaintOp
  format : QImageFormat
deriving DecidableEq

/-- A repaint request: `update()` for the whole widget or `update(rect)`. -/
inductive UpdateRequest where
  | all
  | rect (r : QRect)
deriving DecidableEq

/-! ## Widget state -/

/-- The members of `MapWidget` read or written by the embedded functions, the widget
geometry (`width()`, `height()`), and the repaint requests and timers issued so far. -/
structure MapWidget where
  width : ℤ
  height : ℤ
  drag_offset : QPoint := ⟨0, 0⟩
  dragging : Bool := false
  drag_start_pos : QPoint := ⟨0, 0⟩
  force_antialiasing : Bool := false
  below_template_cache : Option QImage := none
  above_template_cache : Option QImage := none
  map_cache : Option QImage := none
  below_template_cache_dirty_rect : QRect
  above_template_cache_dirty_rect : QRect
  map_cache_dirty_rect : QRect
  drawing_dirty_rect_old : QRect := QRect.null
  drawing_dirty_rect_new : QRectF := QRectF.null
  drawing_dirty_rect_new_border : ℤ := -1
  activity_dirty_rect_old : QRect := QRect.null
  activity_dirty_rect_new : QRectF := QRectF.null
  activity_dirty_rect_new_border : ℤ := -1
  cached_update_rect : QRect := QRect.null
  /-- repaint requests (`update(...)`) issued, oldest first -/
  updates : List UpdateRequest := []
  /-- number of `QTimer::singleShot` calls issued -/
  timers : ℕ := 0
  /-- the constructor argument `show_help` -/
  show_help : Bool := false
deriving DecidableEq

namespace MapWidget

/-- Source: `QWidget::rect()`: `QRect(0, 0, width(), height())`. -/
def rect (s : MapWidget) : QRect := QRect.mk4 0 0 s.width s.height

/-- Source: `QWidget::size()`. -/
def size (s : MapWidget) : QSize := ⟨s.width, s.height⟩

/-- Source: `QWidget::update(const QRect&)`. -/
def update (s : MapWidget) (r : QRect) : MapWidget :=
  { s with updates := s.updates ++ [UpdateRequest.rect r] }

/-- Source: `QWidget::update()`. -/
def updateAll (s : MapWidget) : MapWidget :=
  { s with updates := s.updates ++ [UpdateRequest.all] }

/-! ### Coordinate conversion (map_widget.cpp 146-210) -/

/-- Source: `viewportToView(const QRect&)` -/
def viewportToViewRect (s : MapWidget) (input : QRect) : QRectF :=
  ⟨(input.left : ℚ) - (1/2) * s.width - s.drag_offset.x,
   (input.top : ℚ) - (1/2) * s.height - s.drag_offset.y, input.width, input.height⟩

/-- Source: `viewportToView(QPoint)` -/
def viewportToViewI (s : MapWidget) (input : QPoint) : QPointF :=
  ⟨(input.x : ℚ) - (1/2) * s.width - s.drag_offset.x,
   (input.y : ℚ) - (1/2) * s.height - s.drag_offset.y⟩

/-- Source: `viewportToView(QPointF)` -/
def viewportToView (s : MapWidget) (input : QPointF) : QPointF :=
  ⟨input.x - (1/2) * s.width - s.drag_offset.x, input.y - (1/2) * s.height - s.drag_offset.y⟩

/-- Source: `viewToViewport(const QRectF&)` -/
def viewToViewportRect (s : MapWidget) (input : QRectF) : QRectF :=
  ⟨input.left + (1/2) * s.width + s.drag_offset.x,
   input.top + (1/2) * s.height + s.drag_offset.y, input.width, input.height⟩

/-- Source: `viewToViewport(QPoint)` -/
def viewToViewportI (s : MapWidget) (input : QPoint) : QPointF :=
  ⟨(input.x : ℚ) + (1/2) * s.width + s.drag_offset.x,
   (input.y : ℚ) + (1/2) * s.height + s.drag_offset.y⟩

/-- Source: `viewToViewport(QPointF)` -/
def viewToViewport (s : MapWidget) (input : QPointF) : QPointF :=
  ⟨input.x + (1/2) * s.width + s.drag_offset.x, input.y + (1/2) * s.height + s.drag_offset.y⟩

/-- Source: `viewportToMapF(QPointF)` -/
def viewportToMapF (s : MapWidget) (v : MapView) (input : QPointF) : MapCoordF :=
  v.viewToMapF (s.viewportToView input)

/-- Source: `mapToViewport(MapCoordF)` -/
def mapToViewport (s : MapWidget) (v : MapView) (input : MapCoordF) : QPointF :=
  s.viewToViewport (v.mapToView input)

/-- Source: `mapToViewport(QPointF)` -/
def mapToViewportP (s : MapWidget) (v : MapView) (input : QPointF) : QPointF :=
  s.viewToViewport (v.mapToView ⟨input.x, input.y⟩)

end MapWidget

/-- Modelled from the spec: `rectIncludeSafe(QRectF&, QPointF)` is declared in util.h, which
is not among the sources. Section 4.1 of the spec calls what the calls in `mapToViewport` build
"the bounding box of all four transformed corners": a rectangle that holds nothing yet (the
`QRectF()` the caller starts from, here `none`) becomes the box of the point alone, and any
other rectangle is enlarged just enough to contain the point. -/
def rectIncludeSafe (rect : Option QRectF) (point : QPointF) : Option QRectF :=
  match rect with
  | none => some ⟨point.x, point.y, 0, 0⟩
  | some r =>
    let l := min r.left point.x
    let t := min r.top point.y
    some ⟨l, t, max r.right point.x - l, max r.bottom point.y - t⟩

namespace MapWidget

/-- Source: `mapToViewport(const QRectF&)`. The `QRectF result;` it starts from holds nothing
yet (`none`); a result that never received a point is returned as `QRectF()`. -/
def mapToViewportRect (s : MapWidget) (v : MapView) (input : QRectF) : QRectF :=
  let result : Option QRectF := none
  let result := rectIncludeSafe result (s.mapToViewportP v input.topLeft)
  let result := rectIncludeSafe result (s.mapToViewportP v input.bottomRight)
  let result :=
    if v.getRotation ≠ 0 then
      let result := rectIncludeSafe result (s.mapToViewportP v input.topRight)
      rectIncludeSafe result (s.mapToViewportP v input.bottomLeft)
    else result
  result.getD QRectF.null

/-! ### Dirty rectangles (map_widget.cpp 225-232, 423-471, 524-574) -/

/-- Source: `moveDirtyRect(QRectF&, qreal, qreal)` -/
def moveDirtyRectF (dirty_rect : QRectF) (x y : ℚ) : QRectF :=
  if !dirty_rect.isValid then dirty_rect
  else dirty_rect.adjust x y x y

/-- Source: `moveDirtyRect(QRect&, qreal, qreal)`: `QRect::adjust` takes `int`, the offsets are
converted. -/
def moveDirtyRect (dirty_rect : QRect) (x y : ℚ) : QRect :=
  if !dirty_rect.isValid then dirty_rect
  else dirty_rect.adjust (truncToInt x) (truncToInt y) (truncToInt x) (truncToInt y)

/-- The `QRect integer_rect = QRect(left - (1+pixel_border), top - (1+pixel_border),
width + 2*(1+pixel_border), height + 2*(1+pixel_border))` built from a viewport rectangle in
`markTemplateCacheDirty` and `calculateViewportBoundingBox`. -/
def integerRect (viewport_rect : QRectF) (pixel_border : ℤ) : QRect :=
  QRect.mk4 (truncToInt (viewport_rect.left - (1 + pixel_border)))
    (truncToInt (viewport_rect.top - (1 + pixel_border)))
    (truncToInt (viewport_rect.width + 2 * (1 + pixel_border)))
    (truncToInt (viewport_rect.height + 2 * (1 + pixel_border)))

/-- Source: `calculateViewportBoundingBox(map_rect, pixel_border)` -/
def calculateViewportBoundingBox (s : MapWidget) (v : MapView) (map_rect : QRectF)
    (pixel_border : ℤ) : QRect :=
  let view_rect := v.calculateViewBoundingBox map_rect
  let viewport_rect := s.viewToViewportRect view_rect
  integerRect viewport_rect pixel_border

/-- Source: `markTemplateCacheDirty(view_rect, pixel_border, front_cache)` -/
def markTemplateCacheDirty (s : MapWidget) (view_rect : QRectF) (pixel_border : ℤ)
    (front_cache : Bool) : MapWidget :=
  let cache_dirty_rect :=
    if front_cache then s.above_template_cache_dirty_rect else s.below_template_cache_dirty_rect
  let viewport_rect := s.viewToViewportRect view_rect
  let integer_rect := integerRect viewport_rect pixel_border
  if !integer_rect.intersects s.rect then s
  else
    let cache_dirty_rect :=
      if cache_dirty_rect.isValid then cache_dirty_rect.united integer_rect else integer_rect
    let s :=
      if front_cache then { s with above_template_cache_dirty_rect := cache_dirty_rect }
      else { s with below_template_cache_dirty_rect := cache_dirty_rect }
    s.update integer_rect

/-- Source: `markObjectAreaDirty(map_rect)` -/
def markObjectAreaDirty (s : MapWidget) (v : MapView) (map_rect : QRectF) : MapWidget :=
  let pixel_border : ℤ := 0
  let viewport_rect := s.calculateViewportBoundingBox v map_rect pixel_border
  if !viewport_rect.intersects s.rect then s
  else
    let s :=
      if s.map_cache_dirty_rect.isValid then
        { s with map_cache_dirty_rect := s.map_cache_dirty_rect.united viewport_rect }
      else { s with map_cache_dirty_rect := viewport_rect }
    s.update viewport_rect

/-- Source: `updateEverything()` -/
def updateEverything (s : MapWidget) : MapWidget :=
  let s := { s with below_template_cache_dirty_rect := s.rect }
  let s := { s with above_template_cache_dirty_rect := s.rect }
  let s := { s with map_cache_dirty_rect := s.rect }
  s.updateAll

/-! ### Cache redraw (map_widget.cpp 1135-1254) -/

/-- What `updateTemplateCache` paints between `painter.begin(cache)` and `painter.end()`:
the clip is set to `dirty_rect`, the rectangle is filled (white, or cleared to transparent) and
the templates are drawn. -/
def templatePainting (s : MapWidget) (v : MapView) (dirty_rect : QRect)
    (first_template last_template : ℤ) (use_background : Bool) : List PaintOp :=
  let fill := if use_background then PaintOp.fillWhite dirty_rect dirty_rect
              else PaintOp.clear dirty_rect dirty_rect
  let map_view_rect := v.calculateViewedRect (s.viewportToViewRect dirty_rect)
  [fill, PaintOp.drawTemplates dirty_rect map_view_rect first_template last_template]

/-- Source: `updateTemplateCache(cache, dirty_rect, first_template, last_template, use_background)`;
the two reference arguments are returned. The `Q_ASSERT` on entry has no effect on the state. -/
def updateTemplateCache (s : MapWidget) (v : MapView) (cache : Option QImage)
    (dirty_rect : QRect) (first_template last_template : ℤ) (use_background : Bool) :
    Option QImage × QRect :=
  let (img, dirty_rect) :=
    match cache with
    | none => ((⟨s.size, [], QImageFormat.Format_ARGB32_Premultiplied⟩ : QImage), s.rect)
    | some c => (c, dirty_rect)
  let dirty_rect := dirty_rect.intersected s.rect
  let img : QImage :=
    { img with ops := img.ops ++
        s.templatePainting v dirty_rect first_template last_template use_background }
  (some img, dirty_rect.setWidth (-1))

/-- What `updateMapCache` paints between `painter.begin(map_cache)` and `painter.end()`: the
clip is set to the dirty rectangle, the rectangle is filled or cleared, the map is drawn and,
if visible, the grid. -/
def mapPainting (s : MapWidget) (v : MapView) (dirty_rect : QRect) (use_background : Bool) :
    List PaintOp :=
  let fill := if use_background then PaintOp.fillWhite dirty_rect dirty_rect
              else PaintOp.clear dirty_rect dirty_rect
  let use_antialiasing := s.force_antialiasing || v.settingAntialiasing
  let map_view_rect := v.calculateViewedRect (s.viewportToViewRect dirty_rect)
  let draw := PaintOp.drawMap dirty_rect map_view_rect v.isOverprintingSimulationEnabled
                use_antialiasing v.calculateFinalZoomFactor
  let grid := if v.isGridVisible then [PaintOp.drawGrid dirty_rect map_view_rect] else []
  [fill, draw] ++ grid

/-- Source: `updateMapCache(use_background)` -/
def updateMapCache (s : MapWidget) (v : MapView) (use_background : Bool) : MapWidget :=
  let (img, dirty) :=
    match s.map_cache with
    | none => ((⟨s.size, [], QImageFormat.Format_ARGB32_Premultiplied⟩ : QImage), s.rect)
    | some c => (c, s.map_cache_dirty_rect)
  let dirty := dirty.intersected s.rect
  let img : QImage := { img with ops := img.ops ++ s.mapPainting v dirty use_background }
  { s with map_cache := some img, map_cache_dirty_rect := dirty.setWidth (-1) }

/-- Source: `updateAllDirtyCaches`, first `if`: redraw of the below-template cache. -/
def updateBelowIfDirty (s : MapWidget) (v : MapView) : MapWidget :=
  if v.isBelowTemplateVisible && s.below_template_cache_dirty_rect.isValid then
    let r := s.updateTemplateCache v s.below_template_cache s.below_template_cache_dirty_rect
               0 (v.getFirstFrontTemplate - 1) true
    { s with below_template_cache := r.1, below_template_cache_dirty_rect := r.2 }
  else s

/-- Source: `updateAllDirtyCaches`, second `if`: redraw of the above-template cache. -/
def updateAboveIfDirty (s : MapWidget) (v : MapView) : MapWidget :=
  if v.isAboveTemplateVisible && s.above_template_cache_dirty_rect.isValid then
    let r := s.updateTemplateCache v s.above_template_cache s.above_template_cache_dirty_rect
               v.getFirstFrontTemplate (v.getNumTemplates - 1) false
    { s with above_template_cache := r.1, above_template_cache_dirty_rect := r.2 }
  else s

/-- Source: `updateAllDirtyCaches`, third `if`: redraw of the map cache. -/
def updateMapIfDirty (s : MapWidget) (v : MapView) : MapWidget :=
  if s.map_cache_dirty_rect.isValid then s.updateMapCache v false else s

/-- Source: `updateAllDirtyCaches()`: its three `if` statements in order. -/
def updateAllDirtyCaches (s : MapWidget) (v : MapView) : MapWidget :=
  let s := s.updateBelowIfDirty v
  let s := s.updateAboveIfDirty v
  s.updateMapIfDirty v

/-- Source: `shiftCache(sx, sy, cache)` -/
def shiftCache (sx sy : ℤ) (cache : Option QImage) : Option QImage :=
  match cache with
  | none => none
  | some c =>
    let new_cache : QImage :=
      ⟨c.size, c.ops ++ [PaintOp.drawImage CompositionMode.CompositionMode_Source sx sy],
        c.format⟩
    some new_cache

/-- Source: `updateEverythingInRect(dirty_rect)` -/
def updateEverythingInRect (s : MapWidget) (v : MapView) (dirty_rect : QRect) : MapWidget :=
  let s := { s with below_template_cache_dirty_rect := dirty_rect }
  let s := { s with above_template_cache_dirty_rect := dirty_rect }
  let s := { s with map_cache_dirty_rect := dirty_rect }
  let s := s.updateAllDirtyCaches v
  s.update dirty_rect

/-! ### Panning (map_widget.cpp 242-320) -/

/-- The values `panView(x, y)` computes before it decides how to repaint. -/
structure PanShift where
  px : ℚ
  py : ℚ
  /-- Source: `ix` after `ix = -ix` -/
  ix : ℤ
  /-- Source: `iy` after `iy = -iy` -/
  iy : ℤ
  int_deviation : ℚ
deriving DecidableEq

/-- Source: `panView`: `screen_offset`, `px`, `ix`, `py`, `iy`, `int_deviation`. `px`, `py` and
`int_deviation` are `float` variables: the `double` pixel length is narrowed to `float`, and
`px - ix` is a `float` subtraction, `ix` converted to `float`. -/
def panShift (v : MapView) (x y : ℤ) : PanShift :=
  let screen_offset := v.rotate ⟨(x : ℚ), (y : ℚ)⟩
  let px := toFloat (v.lengthToPixel screen_offset.x)
  let ix := qRound px
  let py := toFloat (v.lengthToPixel screen_offset.y)
  let iy := qRound py
  let int_deviation := max |toFloat (px - toFloat ix)| |toFloat (py - toFloat iy)|
  ⟨px, py, -ix, -iy, int_deviation⟩

/-- The strip `panView` counts objects in, and later repaints, for the horizontal part of the
shift: none when `ix = 0`. -/
def panStripX (s : MapWidget) (ix iy : ℤ) : Option QRect :=
  if ix > 0 then some (QRect.mk4 0 iy ix (s.height - iy))
  else if ix < 0 then some (QRect.mk4 (s.width + ix) iy (-ix) (s.height - iy))
  else none

/-- The strip for the vertical part of the shift: none when `iy = 0`. -/
def panStripY (s : MapWidget) (iy : ℤ) : Option QRect :=
  if iy > 0 then some (QRect.mk4 0 0 s.width iy)
  else if iy < 0 then some (QRect.mk4 0 (s.height + iy) s.width (-iy))
  else none

/-- Source: `view->getMap()->countObjectsInRect(view->calculateViewedRect(viewportToView(strip)), false)`,
and 0 when there is no strip. -/
def countInStrip (s : MapWidget) (v : MapView) (strip : Option QRect) : ℕ :=
  match strip with
  | none => 0
  | some r => v.countObjectsInRect (v.calculateViewedRect (s.viewportToViewRect r))

/-- Source: `panView`: the final value of `partial_redraw`. In
`int_deviation < 0.01 && qAbs(px) < width() / 3.0f && qAbs(py) < height() / 3.0f` the literal
`0.01` is a `double` and the two quotients are `float` divisions of the size converted to
`float`. -/
def panPartialRedraw (s : MapWidget) (v : MapView) (x y : ℤ) : Bool :=
  let p := panShift v x y
  let partial_redraw := decide (p.int_deviation < doubleHundredth)
    && decide (|p.px| < toFloat (toFloat s.width / 3))
    && decide (|p.py| < toFloat (toFloat s.height / 3))
  if partial_redraw then
    let visible_objects_threshold : ℕ := 200
    let max_visible_objects : ℕ := 0
    let max_visible_objects := max_visible_objects + countInStrip s v (panStripX s p.ix p.iy)
    if max_visible_objects < visible_objects_threshold then
      let max_visible_objects := max_visible_objects + countInStrip s v (panStripY s p.iy)
      if max_visible_objects ≥ visible_objects_threshold then false else true
    else false
  else false

/-- Source: `panView`, the four `moveDirtyRect` calls it starts with. -/
def panMoveDirtyRects (s : MapWidget) (x y : ℤ) : MapWidget :=
  let mx : ℚ := -(x : ℚ)
  let my : ℚ := -(y : ℚ)
  let s := { s with
    above_template_cache_dirty_rect := moveDirtyRect s.above_template_cache_dirty_rect mx my }
  let s := { s with
    below_template_cache_dirty_rect := moveDirtyRect s.below_template_cache_dirty_rect mx my }
  let s := { s with drawing_dirty_rect_old := moveDirtyRect s.drawing_dirty_rect_old mx my }
  { s with activity_dirty_rect_old := moveDirtyRect s.activity_dirty_rect_old mx my }

/-- Source: `panView`, the branch taken when `partial_redraw` holds: the caches are shifted and the
exposed strips updated. -/
def panViewPartial (s : MapWidget) (v : MapView) (ix iy : ℤ) : MapWidget :=
  let s := { s with below_template_cache := shiftCache ix iy s.below_template_cache }
  let s := { s with above_template_cache := shiftCache ix iy s.above_template_cache }
  let s := { s with map_cache := shiftCache ix iy s.map_cache }
  let s := match panStripX s ix iy with
    | some r => s.updateEverythingInRect v r
    | none => s
  match panStripY s iy with
    | some r => s.updateEverythingInRect v r
    | none => s

/-- Source: `panView`, the `else` branch: every cache is marked dirty as a whole and a repaint of the
exposed strips is requested. -/
def panViewFull (s : MapWidget) (ix iy : ℤ) : MapWidget :=
  let s := { s with below_template_cache_dirty_rect := s.rect }
  let s := { s with above_template_cache_dirty_rect := s.rect }
  let s := { s with map_cache_dirty_rect := s.rect }
  let s := match panStripX s ix iy with
    | some r => s.update r
    | none => s
  match panStripY s iy with
    | some r => s.update r
    | none => s

/-- Source: `panView(x, y)` -/
def panView (s : MapWidget) (v : MapView) (x y : ℤ) : MapWidget :=
  let s := s.panMoveDirtyRects x y
  let p := panShift v x y
  if panPartialRedraw s v x y then s.panViewPartial v p.ix p.iy
  else s.panViewFull p.ix p.iy

/-! ### Dynamic overlay regions (map_widget.cpp 473-491, 532-565) -/

/-- The three members `setDynamicBoundingBox` and `clearDynamicBoundingBox` receive by
reference for one overlay: the viewport rectangle drawn last, the pending map rectangle and
its pixel border. -/
structure DynamicBoundingBox where
  dirty_rect_old : QRect
  dirty_rect_new : QRectF
  dirty_rect_new_border : ℤ
deriving DecidableEq

/-- Source: `setDynamicBoundingBox(map_rect, pixel_border, dirty_rect_old, dirty_rect_new,
dirty_rect_new_border, do_update)`; returns the three referenced members and the repaint
requests issued. -/
def setDynamicBoundingBox (s : MapWidget) (v : MapView) (map_rect : QRectF) (pixel_border : ℤ)
    (box : DynamicBoundingBox) (do_update : Bool) : DynamicBoundingBox × List UpdateRequest :=
  let box := { box with dirty_rect_new := map_rect }
  let box := { box with dirty_rect_new_border := pixel_border }
  if !do_update then (box, [])
  else
    let viewport_rect := s.calculateViewportBoundingBox v map_rect pixel_border
    if !viewport_rect.intersects s.rect then
      if box.dirty_rect_old.isValid && box.dirty_rect_old.intersects s.rect then
        (box, [UpdateRequest.rect box.dirty_rect_old])
      else (box, [])
    else if box.dirty_rect_old.isValid then
      (box, [UpdateRequest.rect (box.dirty_rect_old.united viewport_rect)])
    else (box, [UpdateRequest.rect viewport_rect])

/-- Source: `clearDynamicBoundingBox(dirty_rect_old, dirty_rect_new, dirty_rect_new_border)`;
returns the three referenced members and the repaint requests issued. -/
def clearDynamicBoundingBox (s : MapWidget) (box : DynamicBoundingBox) :
    DynamicBoundingBox × List UpdateRequest :=
  if !box.dirty_rect_new.isValid && decide (box.dirty_rect_new_border < 0) then (box, [])
  else
    let box := { box with dirty_rect_new := QRectF.null }
    let box := { box with dirty_rect_new_border := -1 }
    if box.dirty_rect_old.isValid && box.dirty_rect_old.intersects s.rect then
      (box, [UpdateRequest.rect box.dirty_rect_old])
    else (box, [])

/-- The members of the tool-drawing overlay. -/
def drawingBox (s : MapWidget) : DynamicBoundingBox :=
  ⟨s.drawing_dirty_rect_old, s.drawing_dirty_rect_new, s.drawing_dirty_rect_new_border⟩

/-- The members of the activity overlay. -/
def activityBox (s : MapWidget) : DynamicBoundingBox :=
  ⟨s.activity_dirty_rect_old, s.activity_dirty_rect_new, s.activity_dirty_rect_new_border⟩

/-- Writes the referenced members of the tool-drawing overlay back and records the repaint
requests. -/
def storeDrawingBox (s : MapWidget) (r : DynamicBoundingBox × List UpdateRequest) : MapWidget :=
  { s with
    drawing_dirty_rect_old := r.1.dirty_rect_old
    drawing_dirty_rect_new := r.1.dirty_rect_new
    drawing_dirty_rect_new_border := r.1.dirty_rect_new_border
    updates := s.updates ++ r.2 }

/-- Writes the referenced members of the activity overlay back and records the repaint
requests. -/
def storeActivityBox (s : MapWidget) (r : DynamicBoundingBox × List UpdateRequest) : MapWidget :=
  { s with
    activity_dirty_rect_old := r.1.dirty_rect_old
    activity_dirty_rect_new := r.1.dirty_rect_new
    activity_dirty_rect_new_border := r.1.dirty_rect_new_border
    updates := s.updates ++ r.2 }

/-- Source: `setDrawingBoundingBox(map_rect, pixel_border, do_update)` -/
def setDrawingBoundingBox (s : MapWidget) (v : MapView) (map_rect : QRectF) (pixel_border : ℤ)
    (do_update : Bool) : MapWidget :=
  s.storeDrawingBox (s.setDynamicBoundingBox v map_rect pixel_border s.drawingBox do_update)

/-- Source: `clearDrawingBoundingBox()` -/
def clearDrawingBoundingBox (s : MapWidget) : MapWidget :=
  s.storeDrawingBox (s.clearDynamicBoundingBox s.drawingBox)

/-- Source: `setActivityBoundingBox(map_rect, pixel_border, do_update)` -/
def setActivityBoundingBox (s : MapWidget) (v : MapView) (map_rect : QRectF) (pixel_border : ℤ)
    (do_update : Bool) : MapWidget :=
  s.storeActivityBox (s.setDynamicBoundingBox v map_rect pixel_border s.activityBox do_update)

/-- Source: `clearActivityBoundingBox()` -/
def clearActivityBoundingBox (s : MapWidget) : MapWidget :=
  s.storeActivityBox (s.clearDynamicBoundingBox s.activityBox)

/-! ### Deferred repaint (map_widget.cpp 501-522) -/

end MapWidget

/-- Modelled from the spec: `rectIncludeSafe(QRect&, const QRect&)` is declared in util.h,
which is not among the sources. The spec describes the pending rectangle of the deferred
repaint as "an explicit pending invalidation value unioned on each request", and a tracked
rectangle as one that a new rectangle "unions with any existing Valid rect, else sets it": a
Valid rectangle becomes its union with the other one, any other rectangle becomes the other
one. -/
def rectIncludeSafeQRect (rect other : QRect) : QRect :=
  if rect.isValid then rect.united other else other

namespace MapWidget

/-- Source: `updateDrawingLater(map_rect, pixel_border)`; `QTimer::singleShot` is counted in
`timers`. -/
def updateDrawingLater (s : MapWidget) (v : MapView) (map_rect : QRectF) (pixel_border : ℤ) :
    MapWidget :=
  let viewport_rect := s.calculateViewportBoundingBox v map_rect pixel_border
  if viewport_rect.intersects s.rect then
    let s := if !s.cached_update_rect.isValid then { s with timers := s.timers + 1 } else s
    { s with cached_update_rect := rectIncludeSafeQRect s.cached_update_rect viewport_rect }
  else s

/-- Source: `updateDrawingLaterSlot()` -/
def updateDrawingLaterSlot (s : MapWidget) : MapWidget :=
  let s := s.update s.cached_update_rect
  { s with cached_update_rect := QRect.null }

/-! ### Resizing (map_widget.cpp 876-897) -/

/-- Source: `resizeEvent`, first `if`: the below-template cache. -/
def resizeEventBelow (s : MapWidget) (event_size : QSize) : MapWidget :=
  match s.below_template_cache with
  | some c =>
    if c.size ≠ event_size then
      { s with below_template_cache := none, below_template_cache_dirty_rect := s.rect }
    else s
  | none => s

/-- Source: `resizeEvent`, second `if`: the above-template cache. -/
def resizeEventAbove (s : MapWidget) (event_size : QSize) : MapWidget :=
  match s.above_template_cache with
  | some c =>
    if c.size ≠ event_size then
      { s with above_template_cache := none, above_template_cache_dirty_rect := s.rect }
    else s
  | none => s

/-- Source: `resizeEvent`, third `if`: the map cache. -/
def resizeEventMap (s : MapWidget) (event_size : QSize) : MapWidget :=
  match s.map_cache with
  | some c =>
    if c.size ≠ event_size then
      { s with map_cache := none, map_cache_dirty_rect := s.rect }
    else s
  | none => s

/-- Source: `resizeEvent(event)`, with `event_size = event->size()`: its three `if` statements in
order. -/
def resizeEvent (s : MapWidget) (event_size : QSize) : MapWidget :=
  let s := s.resizeEventBelow event_size
  let s := s.resizeEventAbove event_size
  s.resizeEventMap event_size

/-- A resize of the widget as Qt delivers it: the widget already has its new geometry when
`resizeEvent` runs, and `event->size()` is that geometry. -/
def resized (s : MapWidget) (new_size : QSize) : MapWidget :=
  resizeEvent { s with width := new_size.w, height := new_size.h } new_size

end MapWidget

/-! ## Pixels of a cache buffer -/

/-- Qt `QRgb`: the value of one pixel. -/
abbrev QRgb := ℕ

/-- The content of a buffer: the value of each pixel, `none` where the pixel was never
written (a `QImage` is created uninitialised). -/
abbrev Pixels := ℤ → ℤ → Option QRgb

/-- The pixel `(x, y)` lies inside an image of the given size. -/
def QSize.containsPixel (size : QSize) (x y : ℤ) : Prop :=
  0 ≤ x ∧ x < size.w ∧ 0 ≤ y ∧ y < size.h

instance (size : QSize) (x y : ℤ) : Decidable (size.containsPixel x y) := by
  unfold QSize.containsPixel; infer_instance

/-- What the drawing code outside the widget (`Map::draw`, `Map::drawTemplates`,
`Map::drawGrid`) writes: the new value of pixel `(x, y)` for a drawing operation, given the
value before. -/
structure Renderer where
  paint : PaintOp → ℤ → ℤ → Option QRgb → Option QRgb
  /-- the value Qt blends of a source pixel over a destination pixel -/
  blend : Option QRgb → Option QRgb → Option QRgb

/-- Qt: the value a composition mode gives a pixel, from the source and destination values. -/
def compose (R : Renderer) (mode : CompositionMode) (src dst : Option QRgb) : Option QRgb :=
  match mode with
  | .CompositionMode_SourceOver => R.blend src dst
  | .CompositionMode_Source => src
  | .CompositionMode_Clear => some 0

/-- Qt `QPainter::drawImage(x0, y0, image)` without clip: every pixel `(x, y)` of the
destination for which `(x - x0, y - y0)` is a pixel of the image is composed with that pixel of
the image; the other pixels of the destination keep their value. -/
def drawImagePixels (R : Renderer) (mode : CompositionMode) (dst_size : QSize) (x0 y0 : ℤ)
    (src_size : QSize) (src dst : Pixels) : Pixels :=
  fun x y =>
    if dst_size.containsPixel x y ∧ src_size.containsPixel (x - x0) (y - y0) then
      compose R mode (src (x - x0) (y - y0)) (dst x y)
    else dst x y

/-- The pixels of a `QImage` that was created and not yet painted on: none has a value. -/
def uninitialised : Pixels := fun _ _ => none

/-- The effect of one painting operation on the pixels of a buffer of the given size. A fill
writes opaque white (`0xFFFFFFFF`) or transparent (`0`) inside its rectangle and the clip; a
drawing operation writes inside the clip what the renderer says; the `drawImage` of
`shiftCache` draws the old image, which has the same size, on the new, uninitialised one. -/
def PaintOp.apply (R : Renderer) (size : QSize) (op : PaintOp) (before : Pixels) : Pixels :=
  fun x y =>
    match op with
    | .drawImage mode x0 y0 => drawImagePixels R mode size x0 y0 size before uninitialised x y
    | .fillWhite clip rect =>
      if size.containsPixel x y ∧ clip.containsPixel x y ∧ rect.containsPixel x y then
        some 0xFFFFFFFF
      else before x y
    | .clear clip rect =>
      if size.containsPixel x y ∧ clip.containsPixel x y ∧ rect.containsPixel x y then some 0
      else before x y
    | .drawTemplates clip _ _ _ =>
      if size.containsPixel x y ∧ clip.containsPixel x y then R.paint op x y (before x y)
      else before x y
    | .drawMap clip _ _ _ _ =>
      if size.containsPixel x y ∧ clip.containsPixel x y then R.paint op x y (before x y)
      else before x y
    | .drawGrid clip _ =>
      if size.containsPixel x y ∧ clip.containsPixel x y then R.paint op x y (before x y)
      else before x y

/-- The pixels of a buffer: its painting operations applied in order to a fresh image. -/
def QImage.pixelAt (R : Renderer) (img : QImage) : Pixels :=
  img.ops.foldl (fun acc op => op.apply R img.size acc) uninitialised


/-! ## Painting and pointer events (map_widget.cpp 118-132, 719-727, 760-874, 914-933) -/

/-- Qt `Qt::MouseButton`, the buttons of a pointer press. -/
inductive MouseButton where
  | NoButton
  | LeftButton
  | RightButton
  | MiddleButton
deriving DecidableEq

/-- Qt `QPaintEvent`: the damaged rectangle `event->rect()`. -/
structure QPaintEvent where
  rect : QRect
deriving DecidableEq

/-- Qt `QMouseEvent`: position, button and the accepted flag. -/
structure QMouseEvent where
  pos : QPoint
  button : MouseButton
  accepted : Bool
deriving DecidableEq

/-- A `MapEditorTool` as the widget uses it: `usesTouchCursor()` and the answer of
`mousePressEvent(event, map_coord, widget)` (true when the tool handled the event). -/
structure MapEditorTool where
  usesTouchCursor : Bool
  mousePressEvent : QMouseEvent → MapCoordF → Bool

/-- The pointer members of `MapWidget` to objects outside it. `tool` is `none` for a null
pointer; for `activity`, `touch_cursor`, `gps_display`, `compass_display` and
`marker_display` the field says whether the pointer is set. -/
structure Collaborators where
  tool : Option MapEditorTool := none
  activity : Bool := false
  touch_cursor : Bool := false
  gps_display : Bool := false
  compass_display : Bool := false
  marker_display : Bool := false

/-- Source: `setTool(tool)`: `this->tool = tool`. The cursor shape and the redraw request it
hands to the touch cursor are not part of the state. -/
def Collaborators.setTool (c : Collaborators) (tool : Option MapEditorTool) : Collaborators :=
  { c with tool := tool }

/-- The three texts `paintEvent` can pass to `showHelpMessage`. -/
inductive HelpText where
  | emptyMap
  | noSymbols
  | readyToDraw
deriving DecidableEq

/-- The three raster caches. -/
inductive CacheLayer where
  | below
  | map
  | above
deriving DecidableEq

/-- One painting operation of `paintEvent` on the widget, with the clip rectangle in force. -/
inductive WidgetPaintOp where
  /-- Source: `painter.fillRect(rect, QColor(Qt::gray))` -/
  | fillGray (clip rect : QRect)
  /-- Source: `painter->drawText(rect, Qt::AlignCenter, text)` in `showHelpMessage` -/
  | drawText (clip rect : QRect) (text : HelpText)
  /-- Source: `painter.fillRect(rect, Qt::white)` -/
  | fillWhite (clip rect : QRect)
  /-- Source: `painter.drawImage(drag_offset, *cache, rect())` under the given opacity -/
  | drawImage (clip : QRect) (layer : CacheLayer) (pos : QPoint) (image : QImage)
      (source : QRect) (opacity : ℚ)
  /-- Source: `activity->draw(&painter, this)` -/
  | activityDraw (clip : QRect)
  /-- Source: `tool->draw(&painter, this)` -/
  | toolDraw (clip : QRect)
  /-- Source: `marker_display->paint(&painter)` -/
  | markerPaint (clip : QRect)
  /-- Source: `gps_display->paint(&painter)` -/
  | gpsPaint (clip : QRect)
  /-- Source: `touch_cursor->paint(&painter)` -/
  | touchCursorPaint (clip : QRect)
  /-- Source: `compass_display->paint(&painter)` -/
  | compassPaint (clip : QRect)
deriving DecidableEq

/-- What a pointer press handler leaves behind: the widget state, the accepted flag of the
event, and the map coordinate the tool was offered the event with, if it was offered. -/
structure MousePressOutcome where
  state : MapWidget
  accepted : Bool
  offered : Option MapCoordF
deriving DecidableEq

namespace MapWidget

/-- The rectangles `paintEvent` fills with the background colour before anything else: one
for the horizontal and one for the vertical part of the drag offset. -/
def backgroundRects (s : MapWidget) : List QRect :=
  (if s.drag_offset.x > 0 then
      [QRect.mk4 0 s.drag_offset.y s.drag_offset.x (s.height - s.drag_offset.y)]
    else if s.drag_offset.x < 0 then
      [QRect.mk4 (s.width + s.drag_offset.x) s.drag_offset.y (-s.drag_offset.x)
        (s.height - s.drag_offset.y)]
    else [])
  ++
  (if s.drag_offset.y > 0 then [QRect.mk4 0 0 s.width s.drag_offset.y]
    else if s.drag_offset.y < 0 then
      [QRect.mk4 0 (s.height + s.drag_offset.y) s.width (-s.drag_offset.y)]
    else [])

/-- `paintEvent`, the block under "Background color". -/
def paintBackground (s : MapWidget) (clip : QRect) : List WidgetPaintOp :=
  s.backgroundRects.map (WidgetPaintOp.fillGray clip)

/-- Source: `showHelpMessage(painter, text)` -/
def showHelpMessage (s : MapWidget) (clip : QRect) (text : HelpText) : List WidgetPaintOp :=
  [WidgetPaintOp.fillGray clip s.rect,
   WidgetPaintOp.drawText clip (QRect.mk4 0 0 s.width s.height) text]

/-- `paintEvent`: the value of `no_contents`. -/
def noContents (v : MapView) : Bool :=
  decide (v.getNumObjects = 0) && decide (v.getNumTemplates = 0) && !v.isGridVisible

/-- `paintEvent`: the help text chosen in the help branch. -/
def helpText (v : MapView) : HelpText :=
  if v.getNumColors = 0 then HelpText.emptyMap
  else if v.getNumSymbols = 0 then HelpText.noSymbols
  else HelpText.readyToDraw

/-- `paintEvent`, the block under "Draw caches": the below-template cache or a white fill, the
map cache, the above-template cache. -/
def compositeCaches (s : MapWidget) (v : MapView) (clip : QRect) : List WidgetPaintOp :=
  (if !v.areAllTemplatesHidden && v.isBelowTemplateVisible && s.below_template_cache.isSome
        && decide (v.getFirstFrontTemplate > 0) then
      match s.below_template_cache with
      | some img => [WidgetPaintOp.drawImage clip CacheLayer.below s.drag_offset img s.rect 1]
      | none => []
    else
      [WidgetPaintOp.fillWhite clip (QRect.mk4 s.drag_offset.x s.drag_offset.y s.width s.height)])
  ++
  (if s.map_cache.isSome && v.mapVisible then
      match s.map_cache with
      | some img =>
        [WidgetPaintOp.drawImage clip CacheLayer.map s.drag_offset img s.rect
          (if v.mapOpacity < 1 then v.mapOpacity else 1)]
      | none => []
    else [])
  ++
  (if !v.areAllTemplatesHidden && v.isAboveTemplateVisible && s.above_template_cache.isSome
        && decide (v.getNumTemplates - v.getFirstFrontTemplate > 0) then
      match s.above_template_cache with
      | some img => [WidgetPaintOp.drawImage clip CacheLayer.above s.drag_offset img s.rect 1]
      | none => []
    else [])

/-- `paintEvent`, the `if (show_help && view && no_contents) ... else if (view) ...` statement;
the view is present. -/
def paintContents (s : MapWidget) (v : MapView) (clip : QRect) :
    MapWidget × List WidgetPaintOp :=
  if s.show_help && noContents v then (s, s.showHelpMessage clip (helpText v))
  else
    let s := s.updateAllDirtyCaches v
    (s, s.compositeCaches v clip)

/-- `paintEvent`, the block for the activity overlay under "Show current drawings";
`activity->draw` on a null `activity` fails (`none`). -/
def paintActivityOverlay (s : MapWidget) (c : Collaborators) (v : MapView)
    (event : QPaintEvent) : Option (MapWidget × List WidgetPaintOp) :=
  if s.activity_dirty_rect_new.isValid || decide (s.activity_dirty_rect_new_border ≥ 0) then
    let viewport_dirty_rect := s.calculateViewportBoundingBox v s.activity_dirty_rect_new
      s.activity_dirty_rect_new_border
    if viewport_dirty_rect.intersects event.rect then
      if c.activity then
        some ({ s with activity_dirty_rect_old := viewport_dirty_rect },
          [WidgetPaintOp.activityDraw (viewport_dirty_rect.intersected event.rect)])
      else none
    else some ({ s with activity_dirty_rect_old := viewport_dirty_rect }, [])
  else some (s, [])

/-- `paintEvent`, the block for the tool drawing overlay; `tool->draw` on a null `tool` fails
(`none`). -/
def paintDrawingOverlay (s : MapWidget) (c : Collaborators) (v : MapView)
    (event : QPaintEvent) : Option (MapWidget × List WidgetPaintOp) :=
  if s.drawing_dirty_rect_new.isValid || decide (s.drawing_dirty_rect_new_border ≥ 0) then
    let viewport_dirty_rect := s.calculateViewportBoundingBox v s.drawing_dirty_rect_new
      s.drawing_dirty_rect_new_border
    if viewport_dirty_rect.intersects event.rect then
      if c.tool.isSome then
        some ({ s with drawing_dirty_rect_old := viewport_dirty_rect },
          [WidgetPaintOp.toolDraw (viewport_dirty_rect.intersected event.rect)])
      else none
    else some ({ s with drawing_dirty_rect_old := viewport_dirty_rect }, [])
  else some (s, [])

/-- `paintEvent`, the last block: temporary markers, GPS display, touch cursor and compass,
each only if its pointer is set. -/
def paintFreshOverlays (c : Collaborators) (clip : QRect) : List WidgetPaintOp :=
  (if c.marker_display then [WidgetPaintOp.markerPaint clip] else [])
  ++ (if c.gps_display then [WidgetPaintOp.gpsPaint clip] else [])
  ++ (if c.touch_cursor && (match c.tool with
        | some t => t.usesTouchCursor
        | none => false) then [WidgetPaintOp.touchCursorPaint clip] else [])
  ++ (if c.compass_display then [WidgetPaintOp.compassPaint clip] else [])

/-- `paintEvent`, the two overlay blocks in order: activity, then tool drawing. -/
def paintOverlays (s : MapWidget) (c : Collaborators) (v : MapView) (event : QPaintEvent) :
    Option (MapWidget × List WidgetPaintOp) :=
  match s.paintActivityOverlay c v event with
  | none => none
  | some (s, act) =>
    match s.paintDrawingOverlay c v event with
    | none => none
    | some (s, drw) => some (s, act ++ drw)

/-- Source: `paintEvent(event)`: the new widget state and what was painted on the widget, or
`none` when a null pointer is dereferenced on the way. -/
def paintEvent (s : MapWidget) (c : Collaborators) (v : MapView) (event : QPaintEvent) :
    Option (MapWidget × List WidgetPaintOp) :=
  let bg := s.paintBackground event.rect
  let r := s.paintContents v event.rect
  match r.1.paintOverlays c v event with
  | none => none
  | some (s, overlays) =>
    some (s, bg ++ r.2 ++ overlays ++ paintFreshOverlays c event.rect)

/-- Source: `startPanning(cursor_pos)`; the cursor shape is not part of the state. -/
def startPanning (s : MapWidget) (cursor_pos : QPoint) : MapWidget :=
  if s.dragging then s
  else { s with dragging := true, drag_start_pos := cursor_pos }

/-- Source: `_mousePressEvent(event)` -/
def _mousePressEvent (s : MapWidget) (c : Collaborators) (v : MapView) (event : QMouseEvent) :
    MousePressOutcome :=
  if s.dragging then ⟨s, true, none⟩
  else
    let offered : Option MapCoordF :=
      match c.tool with
      | some _ => some (v.viewToMapF (s.viewportToViewI event.pos))
      | none => none
    let handled : Bool :=
      match c.tool with
      | some tool => tool.mousePressEvent event (v.viewToMapF (s.viewportToViewI event.pos))
      | none => false
    if handled then ⟨s, true, offered⟩
    else if event.button = MouseButton.MiddleButton then
      ⟨s.startPanning event.pos, true, offered⟩
    else ⟨s, event.accepted, offered⟩

end MapWidget


open MapWidget

/-! ## Notions used to state the properties -/

/-- Bounding union of a Valid rectangle `a` and a rectangle `b`: the smallest rectangle that
holds both, `b` taken with its edges in order (`nl`, `nt`, `nr`, `nb` are the edges of `b`
themselves whenever `b` has non-negative width and height). -/
def boundingUnion (a b : QRect) : QRect :=
  ⟨min a.x1 b.nl, min a.y1 b.nt, max a.x2 b.nr, max a.y2 b.nb⟩

/-- The number of objects `panView(x, y)` counts in the strips newly exposed by the shift: the
count of the horizontal strip plus the count of the vertical strip. -/
def exposedObjectCount (s : MapWidget) (v : MapView) (x y : ℤ) : ℕ :=
  countInStrip s v (panStripX s (panShift v x y).ix (panShift v x y).iy)
    + countInStrip s v (panStripY s (panShift v x y).iy)

/-- The buffer `b` continues the buffer `a`: if `a` exists, `b` has the same size and the
painting operations of `a` followed by further ones. -/
def continues (a b : Option QImage) : Prop :=
  ∀ c, a = some c → ∃ extra, b = some ⟨c.size, c.ops ++ extra, c.format⟩

/-- The painting operations of a cache buffer, none for a missing buffer. -/
def bufferOps (cache : Option QImage) : List PaintOp :=
  match cache with
  | some c => c.ops
  | none => []


/-- The fields no cache redraw touches. -/
def sameOutsideCaches (s t : MapWidget) : Prop :=
  t.width = s.width ∧ t.height = s.height ∧ t.drag_offset = s.drag_offset ∧
  t.drawing_dirty_rect_old = s.drawing_dirty_rect_old ∧
  t.drawing_dirty_rect_new = s.drawing_dirty_rect_new ∧
  t.drawing_dirty_rect_new_border = s.drawing_dirty_rect_new_border ∧
  t.activity_dirty_rect_old = s.activity_dirty_rect_old ∧
  t.activity_dirty_rect_new = s.activity_dirty_rect_new ∧
  t.activity_dirty_rect_new_border = s.activity_dirty_rect_new_border ∧
  t.updates = s.updates

/-- The operation draws the map or the templates under a clip that holds pixel `(a, b)`. -/
def PaintOp.redraws (op : PaintOp) (a b : ℤ) : Prop :=
  match op with
  | .drawMap clip _ _ _ _ => clip.containsPixel a b
  | .drawTemplates clip _ _ _ => clip.containsPixel a b
  | _ => False

/-- The cache that starts as `before` ends as `after` with further painting that redraws
pixel `(a, b)`. -/
def redrawnAfter (before after : Option QImage) (a b : ℤ) : Prop :=
  ∃ extra, bufferOps after = bufferOps before ++ extra ∧ ∃ op ∈ extra, op.redraws a b


/-- The operation belongs to the "Draw caches" block of `paintEvent`: a cache layer drawn on
the widget, or the white fill that stands in for the below-template layer. -/
def WidgetPaintOp.isCacheDrawing : WidgetPaintOp → Prop
  | .drawImage _ _ _ _ _ _ => True
  | .fillWhite _ _ => True
  | _ => False

/-- The operation draws the given cache layer on the widget. -/
def WidgetPaintOp.drawsLayer (op : WidgetPaintOp) (layer : CacheLayer) : Prop :=
  match op with
  | .drawImage _ l _ _ _ _ => l = layer
  | _ => False

/-- The operation is a drawing of the activity or of the tool. -/
def WidgetPaintOp.isOverlayDrawing : WidgetPaintOp → Prop
  | .activityDraw _ => True
  | .toolDraw _ => True
  | _ => False

/-- The overlay has a pending region: `dirty_rect_new.isValid() || dirty_rect_new_border >= 0`. -/
def overlayPending (dirty_rect_new : QRectF) (dirty_rect_new_border : ℤ) : Prop :=
  dirty_rect_new.isValid = true ∨ 0 ≤ dirty_rect_new_border

/-- The three caches and their dirty rectangles are the same in both states. -/
def sameCaches (s t : MapWidget) : Prop :=
  t.below_template_cache = s.below_template_cache ∧
  t.above_template_cache = s.above_template_cache ∧
  t.map_cache = s.map_cache ∧
  t.below_template_cache_dirty_rect = s.below_template_cache_dirty_rect ∧
  t.above_template_cache_dirty_rect = s.above_template_cache_dirty_rect ∧
  t.map_cache_dirty_rect = s.map_cache_dirty_rect


/-- The two rectangles have a pixel in common. -/
def QRect.sharesPixel (a b : QRect) : Prop :=
  ∃ x y, a.containsPixel x y ∧ b.containsPixel x y

/-- A sequence of `updateDrawingLater(map_rect, pixel_border)` requests, issued in order with
no flush in between. -/
def updateDrawingLaterAll (s : MapWidget) (v : MapView) (requests : List (QRectF × ℤ)) :
    MapWidget :=
  requests.foldl (fun s r => s.updateDrawingLater v r.1 r.2) s


/-- The point lies on a pixel of the integer rectangle: pixel `k` spans `[k, k + 1)` on each
axis. -/
def QRect.coversPoint (r : QRect) (p : QPointF) : Prop :=
  (r.x1 : ℚ) ≤ p.x ∧ p.x < r.x2 + 1 ∧ (r.y1 : ℚ) ≤ p.y ∧ p.y < r.y2 + 1


/-! ## Sample collaborators and widgets -/

/-- A view at zoom 1 and rotation 0 centred on the map origin: map, view and pixel
lengths coincide; the map is empty and both template layers are hidden. -/
def identityView : MapView where
  getRotation := 0
  mapToView := fun m => ⟨m.x, m.y⟩
  viewToMapF := fun p => ⟨p.x, p.y⟩
  rotate := fun m => m
  lengthToPixel := fun l => l
  calculateViewedRect := fun r => r
  calculateViewBoundingBox := fun r => r
  countObjectsInRect := fun _ => 0
  getFirstFrontTemplate := 0
  getNumTemplates := 0
  isGridVisible := false
  isOverprintingSimulationEnabled := false
  calculateFinalZoomFactor := 1
  isBelowTemplateVisible := false
  isAboveTemplateVisible := false
  settingAntialiasing := false

/-- A view turned by a quarter turn (rotation about 1.57 rad) at zoom 1. -/
def quarterTurnView : MapView :=
  { identityView with
    getRotation := 157 / 100
    mapToView := fun m => ⟨-m.y, m.x⟩
    viewToMapF := fun p => ⟨p.y, -p.x⟩
    rotate := fun m => ⟨-m.y, m.x⟩ }

/-- The identity view over a map that reports 200 objects in every rectangle. -/
def crowdedView : MapView :=
  { identityView with countObjectsInRect := fun _ => 200 }

/-- A 640x480 widget as constructed: no cache allocated, every cache fully dirty. -/
def freshWidget : MapWidget where
  width := 640
  height := 480
  below_template_cache_dirty_rect := QRect.mk4 0 0 640 480
  above_template_cache_dirty_rect := QRect.mk4 0 0 640 480
  map_cache_dirty_rect := QRect.mk4 0 0 640 480

/-- The 640x480 widget with a map cache buffer of its size and nothing pending for it. -/
def paintedWidget : MapWidget :=
  { freshWidget with
    map_cache := some ⟨⟨640, 480⟩, [], QImageFormat.Format_ARGB32_Premultiplied⟩
    map_cache_dirty_rect := (QRect.mk4 0 0 640 480).setWidth (-1) }

/-- A renderer that paints every pixel it is asked for in one colour. -/
def flatRenderer : Renderer := ⟨fun _ _ _ _ => some 7, fun _ _ => some 9⟩

/-- A 640x480 buffer filled with white. -/
def whiteBuffer : QImage :=
  ⟨⟨640, 480⟩, [PaintOp.fillWhite (QRect.mk4 0 0 640 480) (QRect.mk4 0 0 640 480)],
    QImageFormat.Format_RGB32⟩


/-- The identity view at a zoom where ten map units are one pixel. -/
def tenthScaleView : MapView :=
  { identityView with lengthToPixel := fun l => l / 10 }

/-- The painted widget after a paint that drew the tool overlay in the viewport rectangle
(100, 100, 50, 50). -/
def overlayWidget : MapWidget :=
  { paintedWidget with drawing_dirty_rect_old := QRect.mk4 100 100 50 50 }


/-- The painted widget with a pending tool overlay region whose last drawing lies at the
viewport rectangle (1000, 1000, 10, 10), outside the widget. -/
def offscreenOverlayWidget : MapWidget :=
  { paintedWidget with
    drawing_dirty_rect_old := QRect.mk4 1000 1000 10 10
    drawing_dirty_rect_new := ⟨0, 0, 10, 10⟩
    drawing_dirty_rect_new_border := 0 }


/-- The painted widget with a pending tool overlay region, border 0, last drawn in the viewport
rectangle (100, 100, 50, 50). -/
def pendingOverlayWidget : MapWidget :=
  { paintedWidget with
    drawing_dirty_rect_old := QRect.mk4 100 100 50 50
    drawing_dirty_rect_new := ⟨0, 0, 10, 10⟩
    drawing_dirty_rect_new_border := 0 }


/-- No collaborator attached: every pointer null. -/
def noCollaborators : Collaborators := {}

/-- Only the compass display attached. -/
def compassOnly : Collaborators := { compass_display := true }

/-- The fresh 640x480 widget constructed with the help flag set. -/
def helpWidget : MapWidget := { freshWidget with show_help := true }

/-- The painted widget while it is dragged by (10, 0). -/
def draggedWidget : MapWidget := { paintedWidget with drag_offset := ⟨10, 0⟩ }

/-- The identity view with the map layer switched off. -/
def hiddenMapView : MapView := { identityView with mapVisible := false }

/-- The identity view over a map with one template, below the map, its layer visible for the
widget, while the view hides all templates. -/
def allTemplatesHiddenView : MapView :=
  { identityView with
    areAllTemplatesHidden := true
    isBelowTemplateVisible := true
    getFirstFrontTemplate := 1
    getNumTemplates := 1 }

/-- A paint event for the whole 640x480 widget. -/
def fullPaintEvent : QPaintEvent := ⟨QRect.mk4 0 0 640 480⟩


/-- A tool that handles presses of the left button only and uses no touch cursor. -/
def leftButtonTool : MapEditorTool := ⟨false, fun e _ => decide (e.button = MouseButton.LeftButton)⟩

/-- An editor with an activity and the left-button tool attached. -/
def drawingCollaborators : Collaborators := { tool := some leftButtonTool, activity := true }

/-- A press of the middle button at (30, 40), not yet accepted. -/
def middlePress : QMouseEvent := ⟨⟨30, 40⟩, MouseButton.MiddleButton, false⟩


/-- The request `updateDrawingLater(QRectF(0, 0, 10, 10), 0)`. -/
def sampleRequest : QRectF × ℤ := (⟨0, 0, 10, 10⟩, 0)


/-- A map rectangle 0.9 units wide and high whose image under the identity view on the 640x480
widget is the viewport rectangle (1.9, 1.9, 0.9, 0.9). -/
def subPixelRect : QRectF := ⟨-3181 / 10, -2381 / 10, 9 / 10, 9 / 10⟩


/-- The painted widget with the part (100, 100, 50, 50) of the map cache still waiting for its
redraw, as left by `markObjectAreaDirty`. -/
def staleWidget : MapWidget :=
  { paintedWidget with map_cache_dirty_rect := QRect.mk4 100 100 50 50 }


/-! ## Arithmetic helpers -/

theorem truncToInt_intCast (z : ℤ) : truncToInt (z : ℚ) = z := by
  unfold truncToInt
  split <;> simp

theorem truncToInt_eq_floor {q : ℚ} (h : 0 ≤ q) : truncToInt q = ⌊q⌋ := by
  simp [truncToInt, h]

theorem truncToInt_eq_ceil {q : ℚ} (h : q < 0) : truncToInt q = ⌈q⌉ := by
  simp [truncToInt, not_le.mpr h]

/-! ## Values stored in a `float` -/

theorem roundHalfEven_intCast (z : ℤ) : roundHalfEven (z : ℚ) = z := by
  simp [roundHalfEven]

/-- A value less than one half away from an integer rounds to it. -/
theorem roundHalfEven_eq {q : ℚ} {n : ℤ} (h1 : (n : ℚ) - 1 / 2 < q) (h2 : q < n + 1 / 2) :
    roundHalfEven q = n := by
  unfold roundHalfEven
  by_cases hq : (n : ℚ) ≤ q
  · have hf : ⌊q⌋ = n := by
      rw [Int.floor_eq_iff]
      constructor
      · exact hq
      · linarith
    rw [hf, if_pos (by linarith)]
  · have hf : ⌊q⌋ = n - 1 := by
      rw [Int.floor_eq_iff]
      push_cast
      constructor <;> linarith
    rw [hf]
    push_cast
    rw [if_neg (by linarith), if_pos (by linarith)]
    ring

theorem log_two_eq {q : ℚ} {e : ℤ} (h1 : (2 : ℚ) ^ e ≤ q) (h2 : q < (2 : ℚ) ^ (e + 1)) :
    Int.log 2 q = e := by
  have hq : 0 < q := lt_of_lt_of_le (by positivity) h1
  have a : e ≤ Int.log 2 q := by
    have := (Int.zpow_le_iff_le_log (R := ℚ) (b := 2) (by norm_num) hq (x := e)).mp
      (by exact_mod_cast h1)
    exact this
  have b : Int.log 2 q < e + 1 := by
    have := (Int.lt_zpow_iff_log_lt (R := ℚ) (b := 2) (by norm_num) hq (x := e + 1)).mp
      (by exact_mod_cast h2)
    exact this
  omega

/-- The `float` of a value between `2 ^ e` and `2 ^ (e + 1)` in magnitude, `e` in the normal
range: the value rounded to a multiple of `2 ^ (e - 23)`. -/
theorem toFloat_eq {q : ℚ} {e n : ℤ} (h1 : (2 : ℚ) ^ e ≤ |q|) (h2 : |q| < (2 : ℚ) ^ (e + 1))
    (he : -126 ≤ e) (hn : roundHalfEven (q / (2 : ℚ) ^ (e - 23)) = n) :
    toFloat q = n * (2 : ℚ) ^ (e - 23) := by
  have hq : q ≠ 0 := by
    intro h
    rw [h, abs_zero] at h1
    exact absurd h1 (not_le.mpr (by positivity))
  have hl := log_two_eq h1 h2
  simp only [toFloat, hq, if_false, hl, max_eq_left he, hn]

theorem toFloat_zero : toFloat 0 = 0 := by simp [toFloat]

theorem toFloat_ten : toFloat 10 = 10 := by
  have h := toFloat_eq (q := 10) (e := 3) (n := 10485760) (by norm_num) (by norm_num)
    (by norm_num) (by
      have e : (10 : ℚ) / (2 : ℚ) ^ ((3 : ℤ) - 23) = ((10485760 : ℤ) : ℚ) := by norm_num
      rw [e, roundHalfEven_intCast])
  rw [h]; norm_num

theorem toFloat_640 : toFloat 640 = 640 := by
  have h := toFloat_eq (q := 640) (e := 9) (n := 10485760) (by norm_num) (by norm_num)
    (by norm_num) (by
      have e : (640 : ℚ) / (2 : ℚ) ^ ((9 : ℤ) - 23) = ((10485760 : ℤ) : ℚ) := by norm_num
      rw [e, roundHalfEven_intCast])
  rw [h]; norm_num

theorem toFloat_480 : toFloat 480 = 480 := by
  have h := toFloat_eq (q := 480) (e := 8) (n := 15728640) (by norm_num) (by norm_num)
    (by norm_num) (by
      have e : (480 : ℚ) / (2 : ℚ) ^ ((8 : ℤ) - 23) = ((15728640 : ℤ) : ℚ) := by norm_num
      rw [e, roundHalfEven_intCast])
  rw [h]; norm_num

theorem toFloat_160 : toFloat 160 = 160 := by
  have h := toFloat_eq (q := 160) (e := 7) (n := 10485760) (by norm_num) (by norm_num)
    (by norm_num) (by
      have e : (160 : ℚ) / (2 : ℚ) ^ ((7 : ℤ) - 23) = ((10485760 : ℤ) : ℚ) := by norm_num
      rw [e, roundHalfEven_intCast])
  rw [h]; norm_num

theorem toFloat_half : toFloat (1 / 2) = 1 / 2 := by
  have h := toFloat_eq (q := 1 / 2) (e := -1) (n := 8388608) (by norm_num [abs_of_pos])
    (by norm_num [abs_of_pos]) (by norm_num) (by
      have e : (1 / 2 : ℚ) / (2 : ℚ) ^ ((-1 : ℤ) - 23) = ((8388608 : ℤ) : ℚ) := by norm_num
      rw [e, roundHalfEven_intCast])
  rw [h]; norm_num

theorem toFloat_ten_and_a_half : toFloat (21 / 2) = 21 / 2 := by
  have h := toFloat_eq (q := 21 / 2) (e := 3) (n := 11010048) (by norm_num [abs_of_pos])
    (by norm_num [abs_of_pos]) (by norm_num) (by
      have e : (21 / 2 : ℚ) / (2 : ℚ) ^ ((3 : ℤ) - 23) = ((11010048 : ℤ) : ℚ) := by norm_num
      rw [e, roundHalfEven_intCast])
  rw [h]; norm_num

theorem qRound_ten : qRound 10 = 10 := by
  have e : (10 : ℚ) + 1 / 2 = 21 / 2 := by norm_num
  rw [qRound, if_pos (by norm_num), e, toFloat_ten_and_a_half, truncToInt,
    if_pos (by norm_num), Int.floor_eq_iff]
  constructor <;> norm_num

theorem qRound_zero : qRound 0 = 0 := by
  rw [qRound, if_pos (le_refl 0), zero_add, toFloat_half, truncToInt, if_pos (by norm_num),
    Int.floor_eq_iff]
  constructor <;> norm_num

/-- The quotient `640 / 3.0f`: 213.3333282470703125. -/
theorem toFloat_640_thirds : toFloat (640 / 3) = 13981013 / 65536 := by
  have h := toFloat_eq (q := 640 / 3) (e := 7) (n := 13981013) (by norm_num [abs_of_pos])
    (by norm_num [abs_of_pos]) (by norm_num) (by
      apply roundHalfEven_eq <;> norm_num)
  rw [h]; norm_num

/-- The `double` 159.999999999 stored in a `float` is 160. -/
theorem toFloat_below_160 : toFloat (159999999999 / 1000000000) = 160 := by
  have h := toFloat_eq (q := 159999999999 / 1000000000) (e := 7) (n := 10485760)
    (by norm_num [abs_of_pos]) (by norm_num [abs_of_pos]) (by norm_num) (by
      apply roundHalfEven_eq <;> norm_num)
  rw [h]; norm_num

/-! ## Coordinate conversion -/

/-- C1: for every widget size, drag offset and point, converting a point from view to viewport
coordinates and back gives the point again, and so does viewport to view and back; the same
holds when the point enters through the integer-point overloads. -/
theorem viewport_view_roundtrip (s : MapWidget) (p : QPointF) (q : QPoint) :
    s.viewportToView (s.viewToViewport p) = p ∧
    s.viewToViewport (s.viewportToView p) = p ∧
    s.viewportToView (s.viewToViewportI q) = ⟨q.x, q.y⟩ ∧
    s.viewToViewport (s.viewportToViewI q) = ⟨q.x, q.y⟩ := by
  obtain ⟨px, py⟩ := p
  refine ⟨?_, ?_, ?_, ?_⟩ <;>
    simp only [MapWidget.viewportToView, MapWidget.viewToViewport, MapWidget.viewToViewportI,
      MapWidget.viewportToViewI, QPointF.mk.injEq] <;>
    constructor <;> ring

/-- C2: `viewportToView` subtracts half the widget size and the drag offset, `mapToViewport`
adds them to the view image of the map point; on a 640x480 widget without drag offset and
with a view that sends map point (0,0) to view point (0,0), map point (0,0) lands on
viewport point (320,240). -/
theorem viewportToView_mapToViewport_formula (s : MapWidget) (v : MapView) (p : QPointF)
    (m : MapCoordF) :
    s.viewportToView p
      = ⟨p.x - (s.width : ℚ) / 2 - s.drag_offset.x, p.y - (s.height : ℚ) / 2 - s.drag_offset.y⟩ ∧
    s.mapToViewport v m
      = ⟨(v.mapToView m).x + ((s.width : ℚ) / 2 + s.drag_offset.x),
         (v.mapToView m).y + ((s.height : ℚ) / 2 + s.drag_offset.y)⟩ ∧
    (s.width = 640 → s.height = 480 → s.drag_offset = ⟨0, 0⟩ →
      v.mapToView ⟨0, 0⟩ = ⟨0, 0⟩ → s.mapToViewport v ⟨0, 0⟩ = ⟨320, 240⟩) := by
  refine ⟨?_, ?_, ?_⟩
  · simp only [MapWidget.viewportToView, QPointF.mk.injEq]
    constructor <;> ring
  · simp only [MapWidget.mapToViewport, MapWidget.viewToViewport, QPointF.mk.injEq]
    constructor <;> ring
  · intro hw hh hd hv
    simp only [MapWidget.mapToViewport, MapWidget.viewToViewport, hv, hw, hh, hd,
      QPointF.mk.injEq]
    constructor <;> norm_num

/-- Witness for C2 on the fresh 640x480 widget and the identity view. -/
theorem viewportToView_mapToViewport_formula_witness :
    freshWidget.width = 640 ∧ freshWidget.height = 480 ∧ freshWidget.drag_offset = ⟨0, 0⟩ ∧
    identityView.mapToView ⟨0, 0⟩ = ⟨0, 0⟩ ∧
    freshWidget.mapToViewport identityView ⟨0, 0⟩ = ⟨320, 240⟩ :=
  ⟨rfl, rfl, rfl, rfl,
    (viewportToView_mapToViewport_formula freshWidget identityView ⟨0, 0⟩ ⟨0, 0⟩).2.2
      rfl rfl rfl rfl⟩

/-- With a rotated view the edges of `mapToViewport(rect)` are the extreme coordinates of the
four corner images. -/
theorem mapToViewportRect_rotated (s : MapWidget) (v : MapView) (input : QRectF)
    (hrot : v.getRotation ≠ 0) :
    (s.mapToViewportRect v input).left
      = min (min (min (s.mapToViewportP v input.topLeft).x (s.mapToViewportP v input.bottomRight).x)
          (s.mapToViewportP v input.topRight).x) (s.mapToViewportP v input.bottomLeft).x ∧
    (s.mapToViewportRect v input).right
      = max (max (max (s.mapToViewportP v input.topLeft).x (s.mapToViewportP v input.bottomRight).x)
          (s.mapToViewportP v input.topRight).x) (s.mapToViewportP v input.bottomLeft).x ∧
    (s.mapToViewportRect v input).top
      = min (min (min (s.mapToViewportP v input.topLeft).y (s.mapToViewportP v input.bottomRight).y)
          (s.mapToViewportP v input.topRight).y) (s.mapToViewportP v input.bottomLeft).y ∧
    (s.mapToViewportRect v input).bottom
      = max (max (max (s.mapToViewportP v input.topLeft).y (s.mapToViewportP v input.bottomRight).y)
          (s.mapToViewportP v input.topRight).y) (s.mapToViewportP v input.bottomLeft).y := by
  simp only [MapWidget.mapToViewportRect, rectIncludeSafe, hrot, ne_eq, not_false_eq_true,
    if_true, Option.getD_some, QRectF.left, QRectF.right, QRectF.top, QRectF.bottom, add_zero]
  refine ⟨trivial, ?_, trivial, ?_⟩ <;> simp only [add_sub_cancel]

/-- C3: for every map rectangle and every view with rotation different from 0,
`mapToViewport(rect)` covers the viewport images of all four corners of the rectangle, and
every rectangle covering the four images reaches at least as far on each side: it is their
bounding box. -/
theorem mapToViewportRect_bounding_box (s : MapWidget) (v : MapView) (input : QRectF)
    (hrot : v.getRotation ≠ 0) :
    ((s.mapToViewportRect v input).covers (s.mapToViewportP v input.topLeft) ∧
     (s.mapToViewportRect v input).covers (s.mapToViewportP v input.topRight) ∧
     (s.mapToViewportRect v input).covers (s.mapToViewportP v input.bottomLeft) ∧
     (s.mapToViewportRect v input).covers (s.mapToViewportP v input.bottomRight)) ∧
    ∀ b : QRectF,
      b.covers (s.mapToViewportP v input.topLeft) → b.covers (s.mapToViewportP v input.topRight) →
      b.covers (s.mapToViewportP v input.bottomLeft) →
      b.covers (s.mapToViewportP v input.bottomRight) →
      b.left ≤ (s.mapToViewportRect v input).left ∧
      (s.mapToViewportRect v input).right ≤ b.right ∧
      b.top ≤ (s.mapToViewportRect v input).top ∧
      (s.mapToViewportRect v input).bottom ≤ b.bottom := by
  obtain ⟨hl, hr, ht, hb⟩ := mapToViewportRect_rotated s v input hrot
  refine ⟨?_, ?_⟩
  · simp only [QRectF.covers, hl, hr, ht, hb]
    simp [le_max_iff, min_le_iff]
  · intro b h1 h2 h3 h4
    simp only [QRectF.covers] at h1 h2 h3 h4
    rw [hl, hr, ht, hb]
    simp only [le_min_iff, max_le_iff]
    tauto
/-- Witness for C3: the quarter-turn view and the map rectangle (0, 0, 10, 20). -/
theorem mapToViewportRect_bounding_box_witness :
    quarterTurnView.getRotation ≠ 0 ∧
    (freshWidget.mapToViewportRect quarterTurnView ⟨0, 0, 10, 20⟩).covers
      (freshWidget.mapToViewportP quarterTurnView (QRectF.topLeft ⟨0, 0, 10, 20⟩)) :=
  ⟨by norm_num [quarterTurnView],
   (mapToViewportRect_bounding_box freshWidget quarterTurnView ⟨0, 0, 10, 20⟩
      (by norm_num [quarterTurnView])).1.1⟩

/-! ## Integer rectangles -/

namespace QRect

theorem isValid_iff (r : QRect) : r.isValid = true ↔ r.x1 ≤ r.x2 ∧ r.y1 ≤ r.y2 := by
  simp [isValid]

theorem isNull_iff (r : QRect) : r.isNull = true ↔ r.x2 = r.x1 - 1 ∧ r.y2 = r.y1 - 1 := by
  simp [isNull]

theorem not_isNull_of_isValid {r : QRect} (h : r.isValid = true) : r.isNull = false := by
  rw [isValid_iff] at h
  cases hn : r.isNull
  · rfl
  · rw [isNull_iff] at hn; omega

theorem not_isNull_of_intersects {a b : QRect} (h : a.intersects b = true) :
    a.isNull = false ∧ b.isNull = false := by
  unfold intersects at h
  split at h
  · exact absurd h (by simp)
  · rename_i hn
    simpa using hn

theorem united_of_isValid {a b : QRect} (ha : a.isValid = true) (hb : b.isNull = false) :
    a.united b = ⟨min a.x1 b.nl, min a.y1 b.nt, max a.x2 b.nr, max a.y2 b.nb⟩ := by
  have hna := not_isNull_of_isValid ha
  rw [isValid_iff] at ha
  simp only [united, hna, hb, Bool.false_eq_true, if_false, nl, nr, nt, nb]
  have h1 : ¬ (a.x2 - a.x1 + 1 < 0) := by omega
  have h2 : ¬ (a.y2 - a.y1 + 1 < 0) := by omega
  simp only [h1, h2, if_false]

theorem united_isValid {a b : QRect} (ha : a.isValid = true) (hb : b.isNull = false) :
    (a.united b).isValid = true := by
  rw [united_of_isValid ha hb, isValid_iff]
  rw [isValid_iff] at ha
  simp only
  omega

theorem united_united {a b : QRect} (ha : a.isValid = true) (hb : b.isNull = false) :
    (a.united b).united b = a.united b := by
  rw [united_of_isValid (united_isValid ha hb) hb, united_of_isValid ha hb]
  simp only [mk.injEq]
  omega

theorem united_self {a : QRect} (ha : a.isValid = true) : a.united a = a := by
  rw [united_of_isValid ha (not_isNull_of_isValid ha)]
  rw [isValid_iff] at ha
  obtain ⟨x1, y1, x2, y2⟩ := a
  simp only [nl, nr, nt, nb, mk.injEq] at *
  have h1 : ¬ (x2 - x1 + 1 < 0) := by omega
  have h2 : ¬ (y2 - y1 + 1 < 0) := by omega
  simp [h1, h2]
end QRect

/-! ## Marking caches dirty -/

/-- C4: let `r` be the viewport rectangle computed by `markObjectAreaDirty` (for the map cache)
or by `markTemplateCacheDirty` (for the above-template cache when `front_cache`, else the
below-template cache). If `r` intersects the widget bounds, the cache's dirty rectangle becomes
the bounding union of the old dirty rectangle and `r` when the old one is Valid, and `r` itself
when the old one is Invalid; if `r` does not intersect the widget bounds nothing changes. -/
theorem markDirty_sets_dirty_rect (s : MapWidget) (v : MapView) (map_rect view_rect : QRectF)
    (pixel_border : ℤ) :
    (∀ r, r = s.calculateViewportBoundingBox v map_rect 0 →
      (r.intersects s.rect = true → s.map_cache_dirty_rect.isValid = true →
        (s.markObjectAreaDirty v map_rect).map_cache_dirty_rect
          = boundingUnion s.map_cache_dirty_rect r) ∧
      (r.intersects s.rect = true → s.map_cache_dirty_rect.isValid = false →
        (s.markObjectAreaDirty v map_rect).map_cache_dirty_rect = r) ∧
      (r.intersects s.rect = false → s.markObjectAreaDirty v map_rect = s)) ∧
    (∀ r, r = integerRect (s.viewToViewportRect view_rect) pixel_border →
      (r.intersects s.rect = true → s.above_template_cache_dirty_rect.isValid = true →
        (s.markTemplateCacheDirty view_rect pixel_border true).above_template_cache_dirty_rect
          = boundingUnion s.above_template_cache_dirty_rect r) ∧
      (r.intersects s.rect = true → s.above_template_cache_dirty_rect.isValid = false →
        (s.markTemplateCacheDirty view_rect pixel_border true).above_template_cache_dirty_rect
          = r) ∧
      (r.intersects s.rect = true → s.below_template_cache_dirty_rect.isValid = true →
        (s.markTemplateCacheDirty view_rect pixel_border false).below_template_cache_dirty_rect
          = boundingUnion s.below_template_cache_dirty_rect r) ∧
      (r.intersects s.rect = true → s.below_template_cache_dirty_rect.isValid = false →
        (s.markTemplateCacheDirty view_rect pixel_border false).below_template_cache_dirty_rect
          = r) ∧
      (r.intersects s.rect = false → ∀ front_cache,
        s.markTemplateCacheDirty view_rect pixel_border front_cache = s)) := by
  refine ⟨?_, ?_⟩
  · rintro r rfl
    refine ⟨?_, ?_, ?_⟩
    · intro hi hv
      have hn := (QRect.not_isNull_of_intersects hi).1
      simp [MapWidget.markObjectAreaDirty, hi, hv, MapWidget.update,
        QRect.united_of_isValid hv hn, boundingUnion]
    · intro hi hv
      simp [MapWidget.markObjectAreaDirty, hi, hv, MapWidget.update]
    · intro hi
      simp [MapWidget.markObjectAreaDirty, hi]
  · rintro r rfl
    refine ⟨?_, ?_, ?_, ?_, ?_⟩
    · intro hi hv
      have hn := (QRect.not_isNull_of_intersects hi).1
      simp [MapWidget.markTemplateCacheDirty, hi, hv, MapWidget.update,
        QRect.united_of_isValid hv hn, boundingUnion]
    · intro hi hv
      simp [MapWidget.markTemplateCacheDirty, hi, hv, MapWidget.update]
    · intro hi hv
      have hn := (QRect.not_isNull_of_intersects hi).1
      simp [MapWidget.markTemplateCacheDirty, hi, hv, MapWidget.update,
        QRect.united_of_isValid hv hn, boundingUnion]
    · intro hi hv
      simp [MapWidget.markTemplateCacheDirty, hi, hv, MapWidget.update]
    · intro hi fc
      simp [MapWidget.markTemplateCacheDirty, hi]


theorem marked_rect_idem (bounds old r : QRect) :
    (if !r.intersects bounds then
        (if !r.intersects bounds then old else if old.isValid then old.united r else r)
      else if (if !r.intersects bounds then old else if old.isValid then old.united r else r).isValid
        then (if !r.intersects bounds then old else if old.isValid then old.united r else r).united r
      else r)
    = (if !r.intersects bounds then old else if old.isValid then old.united r else r) := by
  cases hi : r.intersects bounds
  · simp
  · have hn := (QRect.not_isNull_of_intersects hi).1
    cases hv : old.isValid
    · cases hr : r.isValid
      · simp [hr]
      · simp [hr, QRect.united_self hr]
    · simp [QRect.united_isValid hv hn, QRect.united_united hv hn]

theorem markObjectAreaDirty_dirty_rect (s : MapWidget) (v : MapView) (map_rect : QRectF) :
    (s.markObjectAreaDirty v map_rect).map_cache_dirty_rect
      = (if !(s.calculateViewportBoundingBox v map_rect 0).intersects s.rect then
          s.map_cache_dirty_rect
        else if s.map_cache_dirty_rect.isValid then
          s.map_cache_dirty_rect.united (s.calculateViewportBoundingBox v map_rect 0)
        else s.calculateViewportBoundingBox v map_rect 0) ∧
    (s.markObjectAreaDirty v map_rect).above_template_cache_dirty_rect
      = s.above_template_cache_dirty_rect ∧
    (s.markObjectAreaDirty v map_rect).below_template_cache_dirty_rect
      = s.below_template_cache_dirty_rect ∧
    (s.markObjectAreaDirty v map_rect).rect = s.rect ∧
    (s.markObjectAreaDirty v map_rect).calculateViewportBoundingBox v map_rect 0
      = s.calculateViewportBoundingBox v map_rect 0 := by
  unfold MapWidget.markObjectAreaDirty
  simp only [MapWidget.update]
  cases hi : (s.calculateViewportBoundingBox v map_rect 0).intersects s.rect
  · simp
  · cases hv : s.map_cache_dirty_rect.isValid <;>
      simp [MapWidget.rect, MapWidget.calculateViewportBoundingBox, MapWidget.viewToViewportRect]

theorem markTemplateCacheDirty_dirty_rect (s : MapWidget) (view_rect : QRectF) (pixel_border : ℤ)
    (front_cache : Bool) :
    (s.markTemplateCacheDirty view_rect pixel_border true).above_template_cache_dirty_rect
      = (if !(integerRect (s.viewToViewportRect view_rect) pixel_border).intersects s.rect then
          s.above_template_cache_dirty_rect
        else if s.above_template_cache_dirty_rect.isValid then
          s.above_template_cache_dirty_rect.united
            (integerRect (s.viewToViewportRect view_rect) pixel_border)
        else integerRect (s.viewToViewportRect view_rect) pixel_border) ∧
    (s.markTemplateCacheDirty view_rect pixel_border false).below_template_cache_dirty_rect
      = (if !(integerRect (s.viewToViewportRect view_rect) pixel_border).intersects s.rect then
          s.below_template_cache_dirty_rect
        else if s.below_template_cache_dirty_rect.isValid then
          s.below_template_cache_dirty_rect.united
            (integerRect (s.viewToViewportRect view_rect) pixel_border)
        else integerRect (s.viewToViewportRect view_rect) pixel_border) ∧
    (s.markTemplateCacheDirty view_rect pixel_border true).below_template_cache_dirty_rect
      = s.below_template_cache_dirty_rect ∧
    (s.markTemplateCacheDirty view_rect pixel_border false).above_template_cache_dirty_rect
      = s.above_template_cache_dirty_rect ∧
    (s.markTemplateCacheDirty view_rect pixel_border front_cache).map_cache_dirty_rect
      = s.map_cache_dirty_rect ∧
    (s.markTemplateCacheDirty view_rect pixel_border front_cache).rect = s.rect ∧
    (s.markTemplateCacheDirty view_rect pixel_border front_cache).viewToViewportRect view_rect
      = s.viewToViewportRect view_rect := by
  unfold MapWidget.markTemplateCacheDirty
  simp only [MapWidget.update]
  cases hi : (integerRect (s.viewToViewportRect view_rect) pixel_border).intersects s.rect
  · simp
  · cases front_cache <;> cases hv : s.above_template_cache_dirty_rect.isValid <;>
      cases hw : s.below_template_cache_dirty_rect.isValid <;>
      simp [MapWidget.rect, MapWidget.viewToViewportRect, hv, hw]

/-- C5: marking the same rectangle dirty a second time (`markObjectAreaDirty`, or
`markTemplateCacheDirty` with the same border and cache) leaves all three cache dirty
rectangles as they are after the first marking. -/
theorem markDirty_twice (s : MapWidget) (v : MapView) (map_rect view_rect : QRectF)
    (pixel_border : ℤ) (front_cache : Bool) :
    (((s.markObjectAreaDirty v map_rect).markObjectAreaDirty v map_rect).map_cache_dirty_rect
        = (s.markObjectAreaDirty v map_rect).map_cache_dirty_rect ∧
      ((s.markObjectAreaDirty v map_rect).markObjectAreaDirty v map_rect).above_template_cache_dirty_rect
        = (s.markObjectAreaDirty v map_rect).above_template_cache_dirty_rect ∧
      ((s.markObjectAreaDirty v map_rect).markObjectAreaDirty v map_rect).below_template_cache_dirty_rect
        = (s.markObjectAreaDirty v map_rect).below_template_cache_dirty_rect) ∧
    (((s.markTemplateCacheDirty view_rect pixel_border front_cache).markTemplateCacheDirty
          view_rect pixel_border front_cache).above_template_cache_dirty_rect
        = (s.markTemplateCacheDirty view_rect pixel_border front_cache).above_template_cache_dirty_rect ∧
      ((s.markTemplateCacheDirty view_rect pixel_border front_cache).markTemplateCacheDirty
          view_rect pixel_border front_cache).below_template_cache_dirty_rect
        = (s.markTemplateCacheDirty view_rect pixel_border front_cache).below_template_cache_dirty_rect ∧
      ((s.markTemplateCacheDirty view_rect pixel_border front_cache).markTemplateCacheDirty
          view_rect pixel_border front_cache).map_cache_dirty_rect
        = (s.markTemplateCacheDirty view_rect pixel_border front_cache).map_cache_dirty_rect) := by
  refine ⟨⟨?_, ?_, ?_⟩, ?_⟩
  · obtain ⟨h1, -, -, h4, h5⟩ := markObjectAreaDirty_dirty_rect s v map_rect
    rw [(markObjectAreaDirty_dirty_rect (s.markObjectAreaDirty v map_rect) v map_rect).1,
      h5, h4, h1]
    exact marked_rect_idem _ _ _
  · exact (markObjectAreaDirty_dirty_rect (s.markObjectAreaDirty v map_rect) v map_rect).2.1
  · exact (markObjectAreaDirty_dirty_rect (s.markObjectAreaDirty v map_rect) v map_rect).2.2.1
  · cases front_cache
    · obtain ⟨-, h2, -, h4, h5, h6, h7⟩ := markTemplateCacheDirty_dirty_rect s view_rect pixel_border false
      obtain ⟨-, g2, -, g4, g5, -, -⟩ := markTemplateCacheDirty_dirty_rect
        (s.markTemplateCacheDirty view_rect pixel_border false) view_rect pixel_border false
      refine ⟨g4, ?_, g5⟩
      rw [g2, h7, h6, h2]
      exact marked_rect_idem _ _ _
    · obtain ⟨h1, -, h3, -, h5, h6, h7⟩ := markTemplateCacheDirty_dirty_rect s view_rect pixel_border true
      obtain ⟨g1, -, g3, -, g5, -, -⟩ := markTemplateCacheDirty_dirty_rect
        (s.markTemplateCacheDirty view_rect pixel_border true) view_rect pixel_border true
      refine ⟨?_, g3, g5⟩
      rw [g1, h7, h6, h1]
      exact marked_rect_idem _ _ _
theorem truncToInt_natCast (n : ℕ) : truncToInt (n : ℚ) = n := by
  exact_mod_cast truncToInt_intCast n

theorem truncToInt_half : truncToInt (1 / 2) = 0 := by
  rw [truncToInt_eq_floor (by norm_num), Int.floor_eq_iff]
  constructor <;> norm_num

/-- The viewport rectangle that `markObjectAreaDirty` computes on the fresh widget under the
identity view for the map rectangle (0, 0, 10, 10). -/
theorem sample_viewport_bounding_box :
    freshWidget.calculateViewportBoundingBox identityView ⟨0, 0, 10, 10⟩ 0
      = ⟨319, 239, 330, 250⟩ := by
  have h319 : truncToInt 319 = 319 := by simpa using truncToInt_natCast 319
  have h239 : truncToInt 239 = 239 := by simpa using truncToInt_natCast 239
  have h12 : truncToInt 12 = 12 := by simpa using truncToInt_natCast 12
  simp only [MapWidget.calculateViewportBoundingBox, MapWidget.viewToViewportRect, integerRect,
    identityView, freshWidget, QRectF.left, QRectF.top, QRectF.width, QRectF.height, QRect.mk4]
  norm_num [h319, h239, h12]

/-- The same for the map rectangle (1000, 0, 10, 10), which lies outside the widget. -/
theorem sample_far_viewport_bounding_box :
    freshWidget.calculateViewportBoundingBox identityView ⟨1000, 0, 10, 10⟩ 0
      = ⟨1319, 239, 1330, 250⟩ := by
  have h319 : truncToInt 1319 = 1319 := by simpa using truncToInt_natCast 1319
  have h239 : truncToInt 239 = 239 := by simpa using truncToInt_natCast 239
  have h12 : truncToInt 12 = 12 := by simpa using truncToInt_natCast 12
  simp only [MapWidget.calculateViewportBoundingBox, MapWidget.viewToViewportRect, integerRect,
    identityView, freshWidget, QRectF.left, QRectF.top, QRectF.width, QRectF.height, QRect.mk4]
  norm_num [h319, h239, h12]

/-- Witness for C4: a map rectangle inside the fresh widget, and one far outside it. -/
theorem markDirty_sets_dirty_rect_witness :
    (freshWidget.calculateViewportBoundingBox identityView ⟨0, 0, 10, 10⟩ 0).intersects
      freshWidget.rect = true ∧
    freshWidget.map_cache_dirty_rect.isValid = true ∧
    (freshWidget.markObjectAreaDirty identityView ⟨0, 0, 10, 10⟩).map_cache_dirty_rect
      = boundingUnion freshWidget.map_cache_dirty_rect
          (freshWidget.calculateViewportBoundingBox identityView ⟨0, 0, 10, 10⟩ 0) ∧
    (freshWidget.calculateViewportBoundingBox identityView ⟨1000, 0, 10, 10⟩ 0).intersects
      freshWidget.rect = false ∧
    freshWidget.markObjectAreaDirty identityView ⟨1000, 0, 10, 10⟩ = freshWidget :=
  have h1 : (freshWidget.calculateViewportBoundingBox identityView ⟨0, 0, 10, 10⟩ 0).intersects
      freshWidget.rect = true := by rw [sample_viewport_bounding_box]; decide
  have h2 : freshWidget.map_cache_dirty_rect.isValid = true := by decide
  have h3 : (freshWidget.calculateViewportBoundingBox identityView ⟨1000, 0, 10, 10⟩ 0).intersects
      freshWidget.rect = false := by rw [sample_far_viewport_bounding_box]; decide
  ⟨h1, h2,
   ((markDirty_sets_dirty_rect freshWidget identityView ⟨0, 0, 10, 10⟩ ⟨0, 0, 10, 10⟩ 0).1
      _ rfl).1 h1 h2,
   h3,
   ((markDirty_sets_dirty_rect freshWidget identityView ⟨1000, 0, 10, 10⟩ ⟨0, 0, 10, 10⟩ 0).1
      _ rfl).2.2 h3⟩

/-! ## Moving dirty rectangles -/

/-- C6: an Invalid rectangle is left unchanged (same coordinates, still Invalid) by both
overloads of `moveDirtyRect` for every offset; a Valid `QRectF` is translated by exactly
(dx, dy) with its size unchanged; a Valid `QRect` moved by a whole-number offset (n, m), as in
every call (`panView` passes `-x, -y` of `qint64`), is translated by exactly (n, m) and keeps
its width and height. The offsets of the `QRect` overload pass through `QRect::adjust(int, ..)`:
in general the translation is by (dx, dy) converted to `int`. -/
theorem moveDirtyRect_translates (r : QRect) (f : QRectF) (dx dy : ℚ) :
    (r.isValid = false →
      moveDirtyRect r dx dy = r ∧ (moveDirtyRect r dx dy).isValid = false) ∧
    (f.isValid = false →
      moveDirtyRectF f dx dy = f ∧ (moveDirtyRectF f dx dy).isValid = false) ∧
    (f.isValid = true → moveDirtyRectF f dx dy = ⟨f.xp + dx, f.yp + dy, f.w, f.h⟩) ∧
    (r.isValid = true → ∀ n m : ℤ, dx = n → dy = m →
      moveDirtyRect r dx dy = ⟨r.x1 + n, r.y1 + m, r.x2 + n, r.y2 + m⟩ ∧
      (moveDirtyRect r dx dy).width = r.width ∧ (moveDirtyRect r dx dy).height = r.height ∧
      (moveDirtyRect r dx dy).isValid = true) ∧
    (r.isValid = true →
      moveDirtyRect r dx dy
        = ⟨r.x1 + truncToInt dx, r.y1 + truncToInt dy, r.x2 + truncToInt dx, r.y2 + truncToInt dy⟩ ∧
      (moveDirtyRect r dx dy).width = r.width ∧ (moveDirtyRect r dx dy).height = r.height) := by
  refine ⟨?_, ?_, ?_, ?_, ?_⟩
  · intro h
    have e : moveDirtyRect r dx dy = r := by simp [moveDirtyRect, h]
    exact ⟨e, by rw [e]; exact h⟩
  · intro h
    have e : moveDirtyRectF f dx dy = f := by simp [moveDirtyRectF, h]
    exact ⟨e, by rw [e]; exact h⟩
  · intro h; simp [moveDirtyRectF, h, QRectF.adjust]
  · intro h n m hn hm
    subst hn hm
    have e : moveDirtyRect r (n : ℚ) (m : ℚ) = ⟨r.x1 + n, r.y1 + m, r.x2 + n, r.y2 + m⟩ := by
      simp [moveDirtyRect, h, QRect.adjust, truncToInt_intCast]
    rw [e]
    rw [QRect.isValid_iff] at h
    refine ⟨rfl, ?_, ?_, ?_⟩
    · simp only [QRect.width]; ring
    · simp only [QRect.height]; ring
    · rw [QRect.isValid_iff]; simp only; omega
  · intro h
    simp only [moveDirtyRect, h, Bool.not_true, Bool.false_eq_true, if_false, QRect.adjust,
      QRect.width, QRect.height, true_and]
    constructor <;> ring

/-- Witness for C6: the null rectangle and the rectangle (0, 0, 10, 10) moved by (7, -3). -/
theorem moveDirtyRect_translates_witness :
    QRect.null.isValid = false ∧ moveDirtyRect QRect.null 7 (-3) = QRect.null ∧
    (QRect.mk4 0 0 10 10).isValid = true ∧
    moveDirtyRect (QRect.mk4 0 0 10 10) ((7 : ℤ) : ℚ) ((-3 : ℤ) : ℚ)
      = ⟨(QRect.mk4 0 0 10 10).x1 + 7, (QRect.mk4 0 0 10 10).y1 + (-3),
         (QRect.mk4 0 0 10 10).x2 + 7, (QRect.mk4 0 0 10 10).y2 + (-3)⟩ :=
  ⟨by decide, ((moveDirtyRect_translates QRect.null QRectF.null 7 (-3)).1 (by decide)).1,
   by decide,
   ((moveDirtyRect_translates (QRect.mk4 0 0 10 10) QRectF.null _ _).2.2.2.1 (by decide) 7 (-3)
     rfl rfl).1⟩

/-! ## Resizing -/

/-- C7 as stated fails for a cache without buffer: the fresh 640x480 widget resized to 800x600
keeps the old 640x480 rectangle as dirty rectangle of its map cache. -/
theorem resized_unallocated_counterexample :
    freshWidget.map_cache = none ∧
    (freshWidget.resized ⟨800, 600⟩).rect = QRect.mk4 0 0 800 600 ∧
    (freshWidget.resized ⟨800, 600⟩).map_cache_dirty_rect = QRect.mk4 0 0 640 480 ∧
    (freshWidget.resized ⟨800, 600⟩).map_cache_dirty_rect
      ≠ (freshWidget.resized ⟨800, 600⟩).rect := by
  decide


theorem resizeEventBelow_fields (s : MapWidget) (e : QSize) :
    (s.resizeEventBelow e).rect = s.rect ∧
    (s.resizeEventBelow e).above_template_cache = s.above_template_cache ∧
    (s.resizeEventBelow e).above_template_cache_dirty_rect = s.above_template_cache_dirty_rect ∧
    (s.resizeEventBelow e).map_cache = s.map_cache ∧
    (s.resizeEventBelow e).map_cache_dirty_rect = s.map_cache_dirty_rect ∧
    (∀ c, (s.resizeEventBelow e).below_template_cache = some c → c.size = e) ∧
    (∀ c, s.below_template_cache = some c → c.size ≠ e →
      (s.resizeEventBelow e).below_template_cache = none ∧
      (s.resizeEventBelow e).below_template_cache_dirty_rect = s.rect) ∧
    (s.below_template_cache = none →
      (s.resizeEventBelow e).below_template_cache = none ∧
      (s.resizeEventBelow e).below_template_cache_dirty_rect = s.below_template_cache_dirty_rect) := by
  unfold MapWidget.resizeEventBelow
  cases hb : s.below_template_cache with
  | none => simp [hb]
  | some c =>
    by_cases h : c.size = e
    · simp [h, hb]
    · simp [h, hb, MapWidget.rect]

theorem resizeEventAbove_fields (s : MapWidget) (e : QSize) :
    (s.resizeEventAbove e).rect = s.rect ∧
    (s.resizeEventAbove e).below_template_cache = s.below_template_cache ∧
    (s.resizeEventAbove e).below_template_cache_dirty_rect = s.below_template_cache_dirty_rect ∧
    (s.resizeEventAbove e).map_cache = s.map_cache ∧
    (s.resizeEventAbove e).map_cache_dirty_rect = s.map_cache_dirty_rect ∧
    (∀ c, (s.resizeEventAbove e).above_template_cache = some c → c.size = e) ∧
    (∀ c, s.above_template_cache = some c → c.size ≠ e →
      (s.resizeEventAbove e).above_template_cache = none ∧
      (s.resizeEventAbove e).above_template_cache_dirty_rect = s.rect) ∧
    (s.above_template_cache = none →
      (s.resizeEventAbove e).above_template_cache = none ∧
      (s.resizeEventAbove e).above_template_cache_dirty_rect = s.above_template_cache_dirty_rect) := by
  unfold MapWidget.resizeEventAbove
  cases hb : s.above_template_cache with
  | none => simp [hb]
  | some c =>
    by_cases h : c.size = e
    · simp [h, hb]
    · simp [h, hb, MapWidget.rect]

theorem resizeEventMap_fields (s : MapWidget) (e : QSize) :
    (s.resizeEventMap e).rect = s.rect ∧
    (s.resizeEventMap e).below_template_cache = s.below_template_cache ∧
    (s.resizeEventMap e).below_template_cache_dirty_rect = s.below_template_cache_dirty_rect ∧
    (s.resizeEventMap e).above_template_cache = s.above_template_cache ∧
    (s.resizeEventMap e).above_template_cache_dirty_rect = s.above_template_cache_dirty_rect ∧
    (∀ c, (s.resizeEventMap e).map_cache = some c → c.size = e) ∧
    (∀ c, s.map_cache = some c → c.size ≠ e →
      (s.resizeEventMap e).map_cache = none ∧
      (s.resizeEventMap e).map_cache_dirty_rect = s.rect) ∧
    (s.map_cache = none →
      (s.resizeEventMap e).map_cache = none ∧
      (s.resizeEventMap e).map_cache_dirty_rect = s.map_cache_dirty_rect) := by
  unfold MapWidget.resizeEventMap
  cases hb : s.map_cache with
  | none => simp [hb]
  | some c =>
    by_cases h : c.size = e
    · simp [h, hb]
    · simp [h, hb, MapWidget.rect]

/-- C7 (amended): after a resize to `new_size` the widget bounds are the full new bounds; no
cache keeps a buffer of another size; every cache that had a buffer of another size has lost it
and has the full new widget bounds as dirty rectangle; a cache that had no buffer still has
none and keeps its dirty rectangle unchanged. -/
theorem resized_caches (s : MapWidget) (new_size : QSize) :
    (s.resized new_size).rect = QRect.mk4 0 0 new_size.w new_size.h ∧
    ((∀ c, (s.resized new_size).below_template_cache = some c → c.size = new_size) ∧
     (∀ c, (s.resized new_size).above_template_cache = some c → c.size = new_size) ∧
     (∀ c, (s.resized new_size).map_cache = some c → c.size = new_size)) ∧
    ((∀ c, s.below_template_cache = some c → c.size ≠ new_size →
        (s.resized new_size).below_template_cache = none ∧
        (s.resized new_size).below_template_cache_dirty_rect = (s.resized new_size).rect) ∧
     (∀ c, s.above_template_cache = some c → c.size ≠ new_size →
        (s.resized new_size).above_template_cache = none ∧
        (s.resized new_size).above_template_cache_dirty_rect = (s.resized new_size).rect) ∧
     (∀ c, s.map_cache = some c → c.size ≠ new_size →
        (s.resized new_size).map_cache = none ∧
        (s.resized new_size).map_cache_dirty_rect = (s.resized new_size).rect)) ∧
    ((s.below_template_cache = none →
        (s.resized new_size).below_template_cache = none ∧
        (s.resized new_size).below_template_cache_dirty_rect = s.below_template_cache_dirty_rect) ∧
     (s.above_template_cache = none →
        (s.resized new_size).above_template_cache = none ∧
        (s.resized new_size).above_template_cache_dirty_rect = s.above_template_cache_dirty_rect) ∧
     (s.map_cache = none →
        (s.resized new_size).map_cache = none ∧
        (s.resized new_size).map_cache_dirty_rect = s.map_cache_dirty_rect)) := by
  unfold MapWidget.resized MapWidget.resizeEvent
  generalize hs0 : ({ s with width := new_size.w, height := new_size.h } : MapWidget) = s0
  have g0 : s0.rect = QRect.mk4 0 0 new_size.w new_size.h := by subst hs0; rfl
  have gb : s0.below_template_cache = s.below_template_cache := by subst hs0; rfl
  have ga : s0.above_template_cache = s.above_template_cache := by subst hs0; rfl
  have gm : s0.map_cache = s.map_cache := by subst hs0; rfl
  have gbd : s0.below_template_cache_dirty_rect = s.below_template_cache_dirty_rect := by
    subst hs0; rfl
  have gad : s0.above_template_cache_dirty_rect = s.above_template_cache_dirty_rect := by
    subst hs0; rfl
  have gmd : s0.map_cache_dirty_rect = s.map_cache_dirty_rect := by subst hs0; rfl
  obtain ⟨b1, b2, b3, b4, b5, b6, b7, b8⟩ := resizeEventBelow_fields s0 new_size
  obtain ⟨a1, a2, a3, a4, a5, a6, a7, a8⟩ :=
    resizeEventAbove_fields (s0.resizeEventBelow new_size) new_size
  obtain ⟨m1, m2, m3, m4, m5, m6, m7, m8⟩ :=
    resizeEventMap_fields ((s0.resizeEventBelow new_size).resizeEventAbove new_size) new_size
  dsimp only
  rw [← gb, ← ga, ← gm, ← gbd, ← gad, ← gmd]
  have hrect : (((s0.resizeEventBelow new_size).resizeEventAbove new_size).resizeEventMap
      new_size).rect = s0.rect := by rw [m1, a1, b1]
  refine ⟨by rw [hrect, g0], ⟨?_, ?_, ?_⟩, ⟨?_, ?_, ?_⟩, ⟨?_, ?_, ?_⟩⟩
  · intro c hc; rw [m2, a2] at hc; exact b6 c hc
  · intro c hc; rw [m4] at hc; exact a6 c hc
  · exact m6
  · intro c hc hne
    obtain ⟨h1, h2⟩ := b7 c hc hne
    rw [hrect, m2, a2, m3, a3]
    exact ⟨h1, h2⟩
  · intro c hc hne
    rw [← b2] at hc
    obtain ⟨h1, h2⟩ := a7 c hc hne
    rw [hrect, m4, m5, ← b1]
    exact ⟨h1, h2⟩
  · intro c hc hne
    rw [← b4, ← a4] at hc
    obtain ⟨h1, h2⟩ := m7 c hc hne
    rw [hrect, ← b1, ← a1]
    exact ⟨h1, h2⟩
  · intro hc
    obtain ⟨h1, h2⟩ := b8 hc
    rw [m2, a2, m3, a3]
    exact ⟨h1, h2⟩
  · intro hc
    rw [← b2] at hc
    obtain ⟨h1, h2⟩ := a8 hc
    rw [m4, m5, ← b3]
    exact ⟨h1, h2⟩
  · intro hc
    rw [← b4, ← a4] at hc
    obtain ⟨h1, h2⟩ := m8 hc
    rw [← b5, ← a5]
    exact ⟨h1, h2⟩

/-- Witness for C7 (amended): the widget with a 640x480 map cache buffer and the fresh widget,
both resized to 800x600. -/
theorem resized_caches_witness :
    paintedWidget.map_cache
      = some ⟨⟨640, 480⟩, [], QImageFormat.Format_ARGB32_Premultiplied⟩ ∧
    (⟨640, 480⟩ : QSize) ≠ ⟨800, 600⟩ ∧
    (paintedWidget.resized
      ⟨800, 600⟩).map_cache = none ∧
    (paintedWidget.resized
      ⟨800, 600⟩).map_cache_dirty_rect
      = (paintedWidget.resized
          ⟨800, 600⟩).rect ∧
    freshWidget.below_template_cache = none ∧
    (freshWidget.resized ⟨800, 600⟩).below_template_cache_dirty_rect
      = freshWidget.below_template_cache_dirty_rect :=
  ⟨rfl, by decide,
   ((resized_caches paintedWidget ⟨800, 600⟩).2.2.1.2.2
      ⟨⟨640, 480⟩, [], QImageFormat.Format_ARGB32_Premultiplied⟩ rfl (by decide)).1,
   ((resized_caches paintedWidget ⟨800, 600⟩).2.2.1.2.2
      ⟨⟨640, 480⟩, [], QImageFormat.Format_ARGB32_Premultiplied⟩ rfl (by decide)).2,
   rfl,
   ((resized_caches freshWidget ⟨800, 600⟩).2.2.2.1 rfl).2⟩

/-! ## Cache redraw -/

namespace QRect

/-- After `setWidth(-1)` a rectangle is Invalid, has width -1 and is not null. -/
theorem setWidth_neg_one (r : QRect) :
    (r.setWidth (-1)).isValid = false ∧ (r.setWidth (-1)).width = -1 ∧
    (r.setWidth (-1)).isNull = false := by
  simp only [setWidth, isValid, width, isNull]
  refine ⟨?_, by ring, ?_⟩
  · simp only [Bool.and_eq_false_imp, decide_eq_true_eq, decide_eq_false_iff_not]
    intro h; omega
  · simp only [Bool.and_eq_false_imp, decide_eq_true_eq, decide_eq_false_iff_not]
    intro h; omega

end QRect

/-- The dirty rectangle `updateTemplateCache` hands back. -/
theorem updateTemplateCache_dirty (s : MapWidget) (v : MapView) (cache : Option QImage)
    (dirty_rect : QRect) (first last : ℤ) (bg : Bool) :
    (s.updateTemplateCache v cache dirty_rect first last bg).2
      = ((match cache with
          | none => s.rect
          | some _ => dirty_rect).intersected s.rect).setWidth (-1) := by
  unfold MapWidget.updateTemplateCache
  cases cache <;> rfl

theorem updateMapCache_dirty (s : MapWidget) (v : MapView) (bg : Bool) :
    (s.updateMapCache v bg).map_cache_dirty_rect
      = ((match s.map_cache with
          | none => s.rect
          | some _ => s.map_cache_dirty_rect).intersected s.rect).setWidth (-1) := by
  unfold MapWidget.updateMapCache
  cases s.map_cache <;> rfl

theorem updateMapCache_frame (s : MapWidget) (v : MapView) (bg : Bool) :
    (s.updateMapCache v bg).rect = s.rect ∧
    (s.updateMapCache v bg).below_template_cache = s.below_template_cache ∧
    (s.updateMapCache v bg).below_template_cache_dirty_rect = s.below_template_cache_dirty_rect ∧
    (s.updateMapCache v bg).above_template_cache = s.above_template_cache ∧
    (s.updateMapCache v bg).above_template_cache_dirty_rect
      = s.above_template_cache_dirty_rect := by
  unfold MapWidget.updateMapCache
  cases s.map_cache <;> exact ⟨rfl, rfl, rfl, rfl, rfl⟩

theorem updateMapIfDirty_frame (s : MapWidget) (v : MapView) :
    (s.updateMapIfDirty v).rect = s.rect ∧
    (s.updateMapIfDirty v).below_template_cache = s.below_template_cache ∧
    (s.updateMapIfDirty v).below_template_cache_dirty_rect = s.below_template_cache_dirty_rect ∧
    (s.updateMapIfDirty v).above_template_cache = s.above_template_cache ∧
    (s.updateMapIfDirty v).above_template_cache_dirty_rect = s.above_template_cache_dirty_rect ∧
    (s.map_cache_dirty_rect.isValid = false → s.updateMapIfDirty v = s) := by
  unfold MapWidget.updateMapIfDirty
  cases h : s.map_cache_dirty_rect.isValid
  · simp
  · simpa using updateMapCache_frame s v false

theorem updateBelowIfDirty_frame (s : MapWidget) (v : MapView) :
    (s.updateBelowIfDirty v).rect = s.rect ∧
    (s.updateBelowIfDirty v).above_template_cache = s.above_template_cache ∧
    (s.updateBelowIfDirty v).above_template_cache_dirty_rect = s.above_template_cache_dirty_rect ∧
    (s.updateBelowIfDirty v).map_cache = s.map_cache ∧
    (s.updateBelowIfDirty v).map_cache_dirty_rect = s.map_cache_dirty_rect ∧
    (s.below_template_cache_dirty_rect.isValid = false → s.updateBelowIfDirty v = s) := by
  unfold MapWidget.updateBelowIfDirty
  cases h : (v.isBelowTemplateVisible && s.below_template_cache_dirty_rect.isValid)
  · simp
  · have hv : s.below_template_cache_dirty_rect.isValid = true := by
      rw [Bool.and_eq_true] at h; exact h.2
    simp [hv, MapWidget.rect]

theorem updateAboveIfDirty_frame (s : MapWidget) (v : MapView) :
    (s.updateAboveIfDirty v).rect = s.rect ∧
    (s.updateAboveIfDirty v).below_template_cache = s.below_template_cache ∧
    (s.updateAboveIfDirty v).below_template_cache_dirty_rect = s.below_template_cache_dirty_rect ∧
    (s.updateAboveIfDirty v).map_cache = s.map_cache ∧
    (s.updateAboveIfDirty v).map_cache_dirty_rect = s.map_cache_dirty_rect ∧
    (s.above_template_cache_dirty_rect.isValid = false → s.updateAboveIfDirty v = s) := by
  unfold MapWidget.updateAboveIfDirty
  cases h : (v.isAboveTemplateVisible && s.above_template_cache_dirty_rect.isValid)
  · simp
  · have hv : s.above_template_cache_dirty_rect.isValid = true := by
      rw [Bool.and_eq_true] at h; exact h.2
    simp [hv, MapWidget.rect]

/-- C8: after `updateTemplateCache` and after `updateMapCache`, for every prior dirty rectangle,
cache and widget size, the cache's dirty rectangle is Invalid with width -1 and is not the
zero-size (null) rectangle; `updateAllDirtyCaches` leaves the buffer and the dirty rectangle of
a cache whose dirty rectangle is Invalid as they are. -/
theorem redraw_leaves_invalid_dirty_rect (s : MapWidget) (v : MapView) (cache : Option QImage)
    (dirty_rect : QRect) (first_template last_template : ℤ) (use_background : Bool) :
    ((s.updateTemplateCache v cache dirty_rect first_template last_template
        use_background).2.isValid = false ∧
     (s.updateTemplateCache v cache dirty_rect first_template last_template
        use_background).2.width = -1 ∧
     (s.updateTemplateCache v cache dirty_rect first_template last_template
        use_background).2.isNull = false) ∧
    ((s.updateMapCache v use_background).map_cache_dirty_rect.isValid = false ∧
     (s.updateMapCache v use_background).map_cache_dirty_rect.width = -1 ∧
     (s.updateMapCache v use_background).map_cache_dirty_rect.isNull = false) ∧
    (s.below_template_cache_dirty_rect.isValid = false →
      (s.updateAllDirtyCaches v).below_template_cache = s.below_template_cache ∧
      (s.updateAllDirtyCaches v).below_template_cache_dirty_rect
        = s.below_template_cache_dirty_rect) ∧
    (s.above_template_cache_dirty_rect.isValid = false →
      (s.updateAllDirtyCaches v).above_template_cache = s.above_template_cache ∧
      (s.updateAllDirtyCaches v).above_template_cache_dirty_rect
        = s.above_template_cache_dirty_rect) ∧
    (s.map_cache_dirty_rect.isValid = false →
      (s.updateAllDirtyCaches v).map_cache = s.map_cache ∧
      (s.updateAllDirtyCaches v).map_cache_dirty_rect = s.map_cache_dirty_rect) := by
  refine ⟨?_, ?_, ?_, ?_, ?_⟩
  · rw [updateTemplateCache_dirty]; exact QRect.setWidth_neg_one _
  · rw [updateMapCache_dirty]; exact QRect.setWidth_neg_one _
  · intro h
    unfold MapWidget.updateAllDirtyCaches
    obtain ⟨-, -, -, -, -, b6⟩ := updateBelowIfDirty_frame s v
    obtain ⟨-, a2, a3, -, -, -⟩ := updateAboveIfDirty_frame (s.updateBelowIfDirty v) v
    obtain ⟨-, m2, m3, -, -, -⟩ :=
      updateMapIfDirty_frame ((s.updateBelowIfDirty v).updateAboveIfDirty v) v
    dsimp only
    rw [m2, m3, a2, a3, b6 h]
    exact ⟨rfl, rfl⟩
  · intro h
    unfold MapWidget.updateAllDirtyCaches
    obtain ⟨-, b2, b3, -, -, -⟩ := updateBelowIfDirty_frame s v
    obtain ⟨-, -, -, -, -, a6⟩ := updateAboveIfDirty_frame (s.updateBelowIfDirty v) v
    obtain ⟨-, -, -, m4, m5, -⟩ :=
      updateMapIfDirty_frame ((s.updateBelowIfDirty v).updateAboveIfDirty v) v
    dsimp only
    rw [m4, m5, a6 (by rw [b3]; exact h)]
    exact ⟨b2, b3⟩
  · intro h
    unfold MapWidget.updateAllDirtyCaches
    obtain ⟨-, -, -, b4, b5, -⟩ := updateBelowIfDirty_frame s v
    obtain ⟨-, -, -, a4, a5, -⟩ := updateAboveIfDirty_frame (s.updateBelowIfDirty v) v
    obtain ⟨-, -, -, -, -, m6⟩ :=
      updateMapIfDirty_frame ((s.updateBelowIfDirty v).updateAboveIfDirty v) v
    dsimp only
    rw [m6 (by rw [a5, b5]; exact h)]
    exact ⟨a4.trans b4, a5.trans b5⟩


/-- Witness for C8: the painted widget, whose map cache has nothing pending. -/
theorem redraw_leaves_invalid_dirty_rect_witness :
    paintedWidget.map_cache_dirty_rect.isValid = false ∧
    (paintedWidget.updateAllDirtyCaches identityView).map_cache = paintedWidget.map_cache ∧
    (paintedWidget.updateAllDirtyCaches identityView).map_cache_dirty_rect
      = paintedWidget.map_cache_dirty_rect :=
  ⟨by decide,
   (redraw_leaves_invalid_dirty_rect paintedWidget identityView none QRect.null 0 0 true).2.2.2.2
     (by decide)⟩

/-- On a non-empty widget the bounds intersected with themselves are the bounds. -/
theorem rect_intersected_self (s : MapWidget) (hw : 0 < s.width) (hh : 0 < s.height) :
    s.rect.intersected s.rect = s.rect := by
  have h1 : ¬ (0 + s.width - 1 - 0 + 1 < 0) := by omega
  have h2 : ¬ (0 + s.height - 1 - 0 + 1 < 0) := by omega
  have h4 : ¬ (0 > 0 + s.width - 1) := by omega
  have h5 : ¬ (0 > 0 + s.height - 1) := by omega
  have h6 : ¬ (0 + s.width - 1 = 0 - 1) := by omega
  simp only [MapWidget.rect, QRect.mk4, QRect.intersected, QRect.isNull, QRect.nl, QRect.nr,
    QRect.nt, QRect.nb, h1, h2, h4, h5, h6, if_false, decide_False, Bool.false_and,
    Bool.or_self, Bool.false_eq_true, max_self, min_self]

theorem rect_intersected_self_pixels (s : MapWidget) (hw : 0 ≤ s.width) (hh : 0 ≤ s.height)
    (x y : ℤ) :
    (s.rect.intersected s.rect).containsPixel x y ↔ s.rect.containsPixel x y := by
  by_cases h : 0 < s.width ∧ 0 < s.height
  · rw [rect_intersected_self s h.1 h.2]
  · have h1 : ¬ (0 + s.width - 1 - 0 + 1 < 0) := by omega
    have h2 : ¬ (0 + s.height - 1 - 0 + 1 < 0) := by omega
    have h3 : 0 > 0 + s.width - 1 ∨ 0 > 0 + s.height - 1 := by omega
    simp only [MapWidget.rect, QRect.mk4, QRect.intersected, QRect.isNull, QRect.nl, QRect.nr,
      QRect.nt, QRect.nb, h1, h2, if_false]
    split_ifs <;> simp only [QRect.null, QRect.containsPixel] <;> omega

theorem templatePainting_clip (s : MapWidget) (v : MapView) (clip : QRect) (first last : ℤ)
    (bg : Bool) :
    s.templatePainting v clip first last bg ≠ [] ∧
    ∀ op ∈ s.templatePainting v clip first last bg, op.clipRect = some clip := by
  unfold MapWidget.templatePainting
  refine ⟨by simp, ?_⟩
  intro op hop
  cases bg <;> simp at hop <;> rcases hop with rfl | rfl <;> rfl

theorem mapPainting_clip (s : MapWidget) (v : MapView) (clip : QRect) (bg : Bool) :
    s.mapPainting v clip bg ≠ [] ∧
    ∀ op ∈ s.mapPainting v clip bg, op.clipRect = some clip := by
  unfold MapWidget.mapPainting
  refine ⟨by simp, ?_⟩
  intro op hop
  cases bg <;> simp at hop <;> rcases hop with rfl | rfl | ⟨-, rfl⟩ <;> rfl

/-- C9: everything a cache redraw paints is painted under the clip rectangle it is given; with
a buffer present that clip is the intersection of the cache's dirty rectangle with the widget
bounds and the painting is added to the buffer; with the buffer missing a buffer of the widget
size is allocated and the clip is the intersection of the widget bounds with themselves,
whatever the prior dirty rectangle was: the widget bounds on a non-empty widget, and the same
pixels on every widget. -/
theorem redraw_clip_rect (s : MapWidget) (v : MapView) (cache : Option QImage)
    (dirty_rect : QRect) (first_template last_template : ℤ) (use_background : Bool) :
    ((∀ clip, ∀ op ∈ s.templatePainting v clip first_template last_template use_background,
        op.clipRect = some clip) ∧
     (∀ clip, ∀ op ∈ s.mapPainting v clip use_background, op.clipRect = some clip)) ∧
    (∀ c, cache = some c →
      (s.updateTemplateCache v cache dirty_rect first_template last_template use_background).1
        = some ⟨c.size, c.ops ++ s.templatePainting v (dirty_rect.intersected s.rect)
            first_template last_template use_background, c.format⟩) ∧
    (cache = none →
      (s.updateTemplateCache v cache dirty_rect first_template last_template use_background).1
        = some ⟨s.size, s.templatePainting v (s.rect.intersected s.rect)
            first_template last_template use_background, QImageFormat.Format_ARGB32_Premultiplied⟩ ∧
      (0 < s.width → 0 < s.height → s.rect.intersected s.rect = s.rect) ∧
      (0 ≤ s.width → 0 ≤ s.height → ∀ x y,
        (s.rect.intersected s.rect).containsPixel x y ↔ s.rect.containsPixel x y)) ∧
    (∀ c, s.map_cache = some c →
      (s.updateMapCache v use_background).map_cache
        = some ⟨c.size, c.ops ++ s.mapPainting v (s.map_cache_dirty_rect.intersected s.rect)
            use_background, c.format⟩) ∧
    (s.map_cache = none →
      (s.updateMapCache v use_background).map_cache
        = some ⟨s.size, s.mapPainting v (s.rect.intersected s.rect) use_background,
            QImageFormat.Format_ARGB32_Premultiplied⟩ ∧
      (0 < s.width → 0 < s.height → s.rect.intersected s.rect = s.rect) ∧
      (0 ≤ s.width → 0 ≤ s.height → ∀ x y,
        (s.rect.intersected s.rect).containsPixel x y ↔ s.rect.containsPixel x y)) := by
  refine ⟨⟨?_, ?_⟩, ?_, ?_, ?_, ?_⟩
  · intro clip; exact (templatePainting_clip s v clip _ _ _).2
  · intro clip; exact (mapPainting_clip s v clip _).2
  · rintro c rfl; rfl
  · rintro rfl
    exact ⟨by simp [MapWidget.updateTemplateCache], rect_intersected_self s,
      rect_intersected_self_pixels s⟩
  · intro c hc
    simp [MapWidget.updateMapCache, hc]
  · intro hc
    exact ⟨by simp [MapWidget.updateMapCache, hc], rect_intersected_self s,
      rect_intersected_self_pixels s⟩

/-- Witness for C9: the map cache of the painted widget (buffer present) with a pending
rectangle, and of the fresh widget (buffer missing). -/
theorem redraw_clip_rect_witness :
    paintedWidget.map_cache = some ⟨⟨640, 480⟩, [], QImageFormat.Format_ARGB32_Premultiplied⟩ ∧
    (paintedWidget.updateMapCache identityView false).map_cache
      = some ⟨⟨640, 480⟩, [] ++ paintedWidget.mapPainting identityView
          (paintedWidget.map_cache_dirty_rect.intersected paintedWidget.rect) false,
          QImageFormat.Format_ARGB32_Premultiplied⟩ ∧
    freshWidget.map_cache = none ∧ 0 < freshWidget.width ∧ 0 < freshWidget.height ∧
    (freshWidget.updateMapCache identityView false).map_cache
      = some ⟨freshWidget.size, freshWidget.mapPainting identityView
          (freshWidget.rect.intersected freshWidget.rect) false,
          QImageFormat.Format_ARGB32_Premultiplied⟩ ∧
    freshWidget.rect.intersected freshWidget.rect = freshWidget.rect :=
  ⟨rfl,
   (redraw_clip_rect paintedWidget identityView none QRect.null 0 0 false).2.2.2.1 _ rfl,
   rfl, by decide, by decide,
   ((redraw_clip_rect freshWidget identityView none QRect.null 0 0 false).2.2.2.2 rfl).1,
   ((redraw_clip_rect freshWidget identityView none QRect.null 0 0 false).2.2.2.2 rfl).2.1
     (by decide) (by decide)⟩

/-! ## Panning -/

theorem continues_refl (a : Option QImage) : continues a a := by
  intro c hc
  exact ⟨[], by simp [hc]⟩

theorem continues_trans {a b c : Option QImage} (h1 : continues a b) (h2 : continues b c) :
    continues a c := by
  intro x hx
  obtain ⟨e1, he1⟩ := h1 x hx
  obtain ⟨e2, he2⟩ := h2 _ he1
  exact ⟨e1 ++ e2, by simp [he2]⟩

theorem continues_of_eq {a b : Option QImage} (h : b = a) : continues a b := by
  subst h; exact continues_refl _

theorem updateTemplateCache_continues (s : MapWidget) (v : MapView) (cache : Option QImage)
    (dirty_rect : QRect) (first last : ℤ) (bg : Bool) :
    continues cache (s.updateTemplateCache v cache dirty_rect first last bg).1 := by
  rintro c rfl
  exact ⟨_, rfl⟩

theorem updateMapCache_continues (s : MapWidget) (v : MapView) (bg : Bool) :
    continues s.map_cache (s.updateMapCache v bg).map_cache := by
  intro c hc
  exact ⟨s.mapPainting v (s.map_cache_dirty_rect.intersected s.rect) bg,
    by simp only [MapWidget.updateMapCache, hc]⟩

theorem updateBelowIfDirty_continues (s : MapWidget) (v : MapView) :
    continues s.below_template_cache (s.updateBelowIfDirty v).below_template_cache := by
  unfold MapWidget.updateBelowIfDirty
  split
  · exact updateTemplateCache_continues _ _ _ _ _ _ _
  · exact continues_refl _

theorem updateAboveIfDirty_continues (s : MapWidget) (v : MapView) :
    continues s.above_template_cache (s.updateAboveIfDirty v).above_template_cache := by
  unfold MapWidget.updateAboveIfDirty
  split
  · exact updateTemplateCache_continues _ _ _ _ _ _ _
  · exact continues_refl _

theorem updateMapIfDirty_continues (s : MapWidget) (v : MapView) :
    continues s.map_cache (s.updateMapIfDirty v).map_cache := by
  unfold MapWidget.updateMapIfDirty
  split
  · exact updateMapCache_continues _ _ _
  · exact continues_refl _

theorem updateAllDirtyCaches_continues (s : MapWidget) (v : MapView) :
    continues s.below_template_cache (s.updateAllDirtyCaches v).below_template_cache ∧
    continues s.above_template_cache (s.updateAllDirtyCaches v).above_template_cache ∧
    continues s.map_cache (s.updateAllDirtyCaches v).map_cache := by
  unfold MapWidget.updateAllDirtyCaches
  obtain ⟨-, b2, -, b4, -, -⟩ := updateBelowIfDirty_frame s v
  obtain ⟨-, a2, -, a4, -, -⟩ := updateAboveIfDirty_frame (s.updateBelowIfDirty v) v
  obtain ⟨-, m2, -, m4, -, -⟩ :=
    updateMapIfDirty_frame ((s.updateBelowIfDirty v).updateAboveIfDirty v) v
  dsimp only
  refine ⟨?_, ?_, ?_⟩
  · rw [m2, a2]; exact updateBelowIfDirty_continues s v
  · rw [m4, ← b2]; exact updateAboveIfDirty_continues _ v
  · rw [← b4, ← a4]; exact updateMapIfDirty_continues _ v

theorem updateEverythingInRect_continues (s : MapWidget) (v : MapView) (r : QRect) :
    continues s.below_template_cache (s.updateEverythingInRect v r).below_template_cache ∧
    continues s.above_template_cache (s.updateEverythingInRect v r).above_template_cache ∧
    continues s.map_cache (s.updateEverythingInRect v r).map_cache := by
  exact updateAllDirtyCaches_continues
    { s with
      below_template_cache_dirty_rect := r
      above_template_cache_dirty_rect := r
      map_cache_dirty_rect := r } v

theorem panViewPartial_continues (s : MapWidget) (v : MapView) (ix iy : ℤ) :
    continues (shiftCache ix iy s.below_template_cache)
      (s.panViewPartial v ix iy).below_template_cache ∧
    continues (shiftCache ix iy s.above_template_cache)
      (s.panViewPartial v ix iy).above_template_cache ∧
    continues (shiftCache ix iy s.map_cache) (s.panViewPartial v ix iy).map_cache := by
  unfold MapWidget.panViewPartial
  dsimp only
  generalize hs1 : ({ s with
      below_template_cache := shiftCache ix iy s.below_template_cache,
      above_template_cache := shiftCache ix iy s.above_template_cache,
      map_cache := shiftCache ix iy s.map_cache } : MapWidget) = s1
  have e1 : s1.below_template_cache = shiftCache ix iy s.below_template_cache := by
    subst hs1; rfl
  have e2 : s1.above_template_cache = shiftCache ix iy s.above_template_cache := by
    subst hs1; rfl
  have e3 : s1.map_cache = shiftCache ix iy s.map_cache := by subst hs1; rfl
  rw [← e1, ← e2, ← e3]
  have key : ∀ (t : MapWidget) (o : Option QRect),
      continues t.below_template_cache
        (match o with | some r => t.updateEverythingInRect v r | none => t).below_template_cache ∧
      continues t.above_template_cache
        (match o with | some r => t.updateEverythingInRect v r | none => t).above_template_cache ∧
      continues t.map_cache
        (match o with | some r => t.updateEverythingInRect v r | none => t).map_cache := by
    intro t o
    cases o with
    | none => exact ⟨continues_refl _, continues_refl _, continues_refl _⟩
    | some r => exact updateEverythingInRect_continues t v r
  obtain ⟨k1, k2, k3⟩ := key s1 (panStripX s1 ix iy)
  obtain ⟨l1, l2, l3⟩ := key
    (match panStripX s1 ix iy with | some r => s1.updateEverythingInRect v r | none => s1)
    (panStripY
      (match panStripX s1 ix iy with | some r => s1.updateEverythingInRect v r | none => s1) iy)
  exact ⟨continues_trans k1 l1, continues_trans k2 l2, continues_trans k3 l3⟩


theorem panMoveDirtyRects_frame (s : MapWidget) (x y : ℤ) :
    (s.panMoveDirtyRects x y).width = s.width ∧
    (s.panMoveDirtyRects x y).height = s.height ∧
    (s.panMoveDirtyRects x y).drag_offset = s.drag_offset ∧
    (s.panMoveDirtyRects x y).below_template_cache = s.below_template_cache ∧
    (s.panMoveDirtyRects x y).above_template_cache = s.above_template_cache ∧
    (s.panMoveDirtyRects x y).map_cache = s.map_cache :=
  ⟨rfl, rfl, rfl, rfl, rfl, rfl⟩

theorem panPartialRedraw_congr (s t : MapWidget) (v : MapView) (x y : ℤ)
    (hw : t.width = s.width) (hh : t.height = s.height) (hd : t.drag_offset = s.drag_offset) :
    panPartialRedraw t v x y = panPartialRedraw s v x y := by
  simp only [panPartialRedraw, panStripX, panStripY, countInStrip, MapWidget.viewportToViewRect,
    hw, hh, hd]

theorem panViewFull_fields (s : MapWidget) (ix iy : ℤ) :
    (s.panViewFull ix iy).below_template_cache = s.below_template_cache ∧
    (s.panViewFull ix iy).above_template_cache = s.above_template_cache ∧
    (s.panViewFull ix iy).map_cache = s.map_cache ∧
    (s.panViewFull ix iy).below_template_cache_dirty_rect = s.rect ∧
    (s.panViewFull ix iy).above_template_cache_dirty_rect = s.rect ∧
    (s.panViewFull ix iy).map_cache_dirty_rect = s.rect := by
  unfold MapWidget.panViewFull
  dsimp only
  generalize hs1 : ({ s with
      below_template_cache_dirty_rect := s.rect,
      above_template_cache_dirty_rect := MapWidget.rect _,
      map_cache_dirty_rect := MapWidget.rect _ } : MapWidget) = s1
  have key : ∀ (t : MapWidget) (o : Option QRect),
      (match o with | some r => t.update r | none => t).below_template_cache
        = t.below_template_cache ∧
      (match o with | some r => t.update r | none => t).above_template_cache
        = t.above_template_cache ∧
      (match o with | some r => t.update r | none => t).map_cache = t.map_cache ∧
      (match o with | some r => t.update r | none => t).below_template_cache_dirty_rect
        = t.below_template_cache_dirty_rect ∧
      (match o with | some r => t.update r | none => t).above_template_cache_dirty_rect
        = t.above_template_cache_dirty_rect ∧
      (match o with | some r => t.update r | none => t).map_cache_dirty_rect
        = t.map_cache_dirty_rect := by
    intro t o
    cases o <;> exact ⟨rfl, rfl, rfl, rfl, rfl, rfl⟩
  obtain ⟨k1, k2, k3, k4, k5, k6⟩ := key s1 (panStripX s1 ix iy)
  obtain ⟨l1, l2, l3, l4, l5, l6⟩ := key
    (match panStripX s1 ix iy with | some r => s1.update r | none => s1)
    (panStripY (match panStripX s1 ix iy with | some r => s1.update r | none => s1) iy)
  rw [l1, l2, l3, l4, l5, l6, k1, k2, k3, k4, k5, k6]
  subst hs1
  exact ⟨rfl, rfl, rfl, rfl, rfl, rfl⟩

/-- The final value of `partial_redraw` in `panView`, in closed form. -/
theorem panPartialRedraw_iff (s : MapWidget) (v : MapView) (x y : ℤ) :
    panPartialRedraw s v x y = true ↔
      (panShift v x y).int_deviation < doubleHundredth ∧
      |(panShift v x y).px| < toFloat (toFloat s.width / 3) ∧
      |(panShift v x y).py| < toFloat (toFloat s.height / 3) ∧
      exposedObjectCount s v x y < 200 := by
  unfold panPartialRedraw exposedObjectCount
  simp only [zero_add, ge_iff_le]
  split_ifs with h1 h2 h3
  · simp only [Bool.and_eq_true, decide_eq_true_eq] at h1
    simp only [Bool.false_eq_true, false_iff, not_and, not_lt]
    intro _ _ _
    exact h3
  · simp only [Bool.and_eq_true, decide_eq_true_eq] at h1
    simp only [true_iff]
    exact ⟨h1.1.1, h1.1.2, h1.2, not_le.mp h3⟩
  · simp only [Bool.false_eq_true, false_iff, not_and, not_lt]
    intro _ _ _
    omega
  · simp only [Bool.and_eq_true, decide_eq_true_eq] at h1
    simp only [Bool.false_eq_true, false_iff, not_and, not_lt]
    intro a b c
    exact absurd ⟨⟨a, b⟩, c⟩ h1

/-- On the shift-and-patch branch every cache that has a buffer ends as that buffer with the
`drawImage` of `shiftCache` painted first and further painting after it. -/
theorem panViewPartial_shifts (s : MapWidget) (v : MapView) (ix iy : ℤ) :
    (∀ c, s.below_template_cache = some c → ∃ extra,
      (s.panViewPartial v ix iy).below_template_cache
        = some ⟨c.size,
            c.ops ++ PaintOp.drawImage CompositionMode.CompositionMode_Source ix iy :: extra,
            c.format⟩) ∧
    (∀ c, s.above_template_cache = some c → ∃ extra,
      (s.panViewPartial v ix iy).above_template_cache
        = some ⟨c.size,
            c.ops ++ PaintOp.drawImage CompositionMode.CompositionMode_Source ix iy :: extra,
            c.format⟩) ∧
    (∀ c, s.map_cache = some c → ∃ extra,
      (s.panViewPartial v ix iy).map_cache
        = some ⟨c.size,
            c.ops ++ PaintOp.drawImage CompositionMode.CompositionMode_Source ix iy :: extra,
            c.format⟩) := by
  obtain ⟨k1, k2, k3⟩ := panViewPartial_continues s v ix iy
  have key : ∀ (old new : Option QImage) (c : QImage), continues (shiftCache ix iy old) new →
      old = some c → ∃ extra, new = some ⟨c.size,
        c.ops ++ PaintOp.drawImage CompositionMode.CompositionMode_Source ix iy :: extra,
        c.format⟩ := by
    intro old new c hk hc
    subst hc
    obtain ⟨extra, he⟩ := hk _ rfl
    refine ⟨extra, ?_⟩
    rw [he]
    simp only [List.append_assoc, List.singleton_append]
  exact ⟨fun c hc => key _ _ c k1 hc, fun c hc => key _ _ c k2 hc, fun c hc => key _ _ c k3 hc⟩

/-- C10: with (px, py) the `float` variables of `panView`, the pixel length of the rotated pan
offset stored in a `float`, `panView` decides for the shift-and-patch path exactly when
max(|px - round px|, |py - round py|) < 0.01, |px| < width/3, |py| < height/3 and fewer than
200 objects are counted in the exposed strips; the differences and the two quotients are
`float` operations and `0.01` is the `double` literal. On that path every cache that has a
buffer is shifted: it ends as a buffer of the same size and format on which the old content
was drawn at (-round px, -round py) in `CompositionMode_Source` and painted further. In every
other case the three buffers are left as they are and the three dirty rectangles are the full
widget bounds; this is so in particular when 200 or more objects are counted. -/
theorem panView_shift_or_full_redraw (s : MapWidget) (v : MapView) (x y : ℤ) :
    ((panShift v x y).px = toFloat (v.lengthToPixel (v.rotate ⟨x, y⟩).x) ∧
     (panShift v x y).py = toFloat (v.lengthToPixel (v.rotate ⟨x, y⟩).y) ∧
     (panShift v x y).ix = -qRound (panShift v x y).px ∧
     (panShift v x y).iy = -qRound (panShift v x y).py ∧
     (panShift v x y).int_deviation
       = max |toFloat ((panShift v x y).px - toFloat (qRound (panShift v x y).px))|
           |toFloat ((panShift v x y).py - toFloat (qRound (panShift v x y).py))|) ∧
    (panPartialRedraw s v x y = true ↔
      (panShift v x y).int_deviation < doubleHundredth ∧
      |(panShift v x y).px| < toFloat (toFloat s.width / 3) ∧
      |(panShift v x y).py| < toFloat (toFloat s.height / 3) ∧
      exposedObjectCount s v x y < 200) ∧
    (panPartialRedraw s v x y = true →
      (∀ c, s.below_template_cache = some c → ∃ extra,
        (s.panView v x y).below_template_cache
          = some ⟨c.size,
              c.ops ++ PaintOp.drawImage CompositionMode.CompositionMode_Source
                (panShift v x y).ix (panShift v x y).iy :: extra,
              c.format⟩) ∧
      (∀ c, s.above_template_cache = some c → ∃ extra,
        (s.panView v x y).above_template_cache
          = some ⟨c.size,
              c.ops ++ PaintOp.drawImage CompositionMode.CompositionMode_Source
                (panShift v x y).ix (panShift v x y).iy :: extra,
              c.format⟩) ∧
      (∀ c, s.map_cache = some c → ∃ extra,
        (s.panView v x y).map_cache
          = some ⟨c.size,
              c.ops ++ PaintOp.drawImage CompositionMode.CompositionMode_Source
                (panShift v x y).ix (panShift v x y).iy :: extra,
              c.format⟩)) ∧
    (panPartialRedraw s v x y = false →
      ((s.panView v x y).below_template_cache = s.below_template_cache ∧
       (s.panView v x y).above_template_cache = s.above_template_cache ∧
       (s.panView v x y).map_cache = s.map_cache) ∧
      ((s.panView v x y).below_template_cache_dirty_rect = s.rect ∧
       (s.panView v x y).above_template_cache_dirty_rect = s.rect ∧
       (s.panView v x y).map_cache_dirty_rect = s.rect)) ∧
    (200 ≤ exposedObjectCount s v x y →
      panPartialRedraw s v x y = false ∧
      (s.panView v x y).below_template_cache_dirty_rect = s.rect ∧
      (s.panView v x y).above_template_cache_dirty_rect = s.rect ∧
      (s.panView v x y).map_cache_dirty_rect = s.rect) := by
  have hcongr : panPartialRedraw (s.panMoveDirtyRects x y) v x y = panPartialRedraw s v x y :=
    panPartialRedraw_congr s _ v x y rfl rfl rfl
  have hfull : panPartialRedraw s v x y = false →
      ((s.panView v x y).below_template_cache = s.below_template_cache ∧
       (s.panView v x y).above_template_cache = s.above_template_cache ∧
       (s.panView v x y).map_cache = s.map_cache) ∧
      ((s.panView v x y).below_template_cache_dirty_rect = s.rect ∧
       (s.panView v x y).above_template_cache_dirty_rect = s.rect ∧
       (s.panView v x y).map_cache_dirty_rect = s.rect) := by
    intro h
    have hv : s.panView v x y
        = (s.panMoveDirtyRects x y).panViewFull (panShift v x y).ix (panShift v x y).iy := by
      simp only [MapWidget.panView, hcongr, h, Bool.false_eq_true, if_false]
    obtain ⟨f1, f2, f3, f4, f5, f6⟩ :=
      panViewFull_fields (s.panMoveDirtyRects x y) (panShift v x y).ix (panShift v x y).iy
    rw [hv]
    exact ⟨⟨f1, f2, f3⟩, f4, f5, f6⟩
  refine ⟨⟨rfl, rfl, rfl, rfl, rfl⟩, panPartialRedraw_iff s v x y, ?_, hfull, ?_⟩
  · intro h
    have hv : s.panView v x y
        = (s.panMoveDirtyRects x y).panViewPartial v (panShift v x y).ix (panShift v x y).iy := by
      simp only [MapWidget.panView, hcongr, h, if_true]
    rw [hv]
    exact panViewPartial_shifts (s.panMoveDirtyRects x y) v _ _
  · intro h
    have hp : panPartialRedraw s v x y = false := by
      cases hp : panPartialRedraw s v x y
      · rfl
      · have := ((panPartialRedraw_iff s v x y).mp hp).2.2.2
        omega
    exact ⟨hp, (hfull hp).2⟩

theorem countInStrip_identityView (s : MapWidget) (o : Option QRect) :
    countInStrip s identityView o = 0 := by
  cases o <;> rfl

/-- The values `panView` computes when the pixel length of the rotated offset is (10, 0): the
`float`s keep it, and there is no deviation. -/
theorem panShift_of_ten (v : MapView) (x y : ℤ)
    (hx : v.lengthToPixel (v.rotate ⟨x, y⟩).x = 10)
    (hy : v.lengthToPixel (v.rotate ⟨x, y⟩).y = 0) :
    panShift v x y = ⟨10, 0, -10, 0, 0⟩ := by
  simp only [panShift, hx, hy, toFloat_ten, toFloat_zero, qRound_ten, qRound_zero,
    Int.cast_ofNat, Int.cast_zero, sub_self, abs_zero, max_self, neg_zero]

/-- The two quotients `width() / 3.0f` and `height() / 3.0f` of a 640x480 widget. -/
theorem sample_thirds (s : MapWidget) (hw : s.width = 640) (hh : s.height = 480) :
    toFloat (toFloat s.width / 3) = 13981013 / 65536 ∧ toFloat (toFloat s.height / 3) = 160 := by
  rw [hw, hh]
  constructor
  · rw [show (((640 : ℤ) : ℚ)) = 640 by norm_num, toFloat_640, toFloat_640_thirds]
  · rw [show (((480 : ℤ) : ℚ)) = 480 by norm_num, toFloat_480,
      show (480 : ℚ) / 3 = 160 by norm_num, toFloat_160]

/-- On a 640x480 widget a pan with pixel length (10, 0) that meets fewer than 200 objects takes
the shift-and-patch path. -/
theorem panPartialRedraw_of_ten (s : MapWidget) (v : MapView) (x y : ℤ) (hw : s.width = 640)
    (hh : s.height = 480) (hx : v.lengthToPixel (v.rotate ⟨x, y⟩).x = 10)
    (hy : v.lengthToPixel (v.rotate ⟨x, y⟩).y = 0) (hc : exposedObjectCount s v x y < 200) :
    panPartialRedraw s v x y = true := by
  rw [panPartialRedraw_iff, panShift_of_ten v x y hx hy, (sample_thirds s hw hh).1,
    (sample_thirds s hw hh).2]
  exact ⟨by norm_num [doubleHundredth], by norm_num, by norm_num, hc⟩

theorem identityView_ten :
    identityView.lengthToPixel (identityView.rotate ⟨((10 : ℤ) : ℚ), ((0 : ℤ) : ℚ)⟩).x = 10 ∧
    identityView.lengthToPixel (identityView.rotate ⟨((10 : ℤ) : ℚ), ((0 : ℤ) : ℚ)⟩).y = 0 := by
  constructor
  · show ((10 : ℤ) : ℚ) = 10
    norm_num
  · show ((0 : ℤ) : ℚ) = 0
    norm_num

/-- On the painted 640x480 widget under the identity view a pan by (10, 0) takes the
shift-and-patch path. -/
theorem sample_pan_shifts : panPartialRedraw paintedWidget identityView 10 0 = true :=
  panPartialRedraw_of_ten paintedWidget identityView 10 0 rfl rfl identityView_ten.1
    identityView_ten.2 (by simp [exposedObjectCount, countInStrip_identityView])

/-- Under the crowded view the same pan meets 200 objects in the exposed strip. -/
theorem sample_pan_crowded : 200 ≤ exposedObjectCount paintedWidget crowdedView 10 0 := by
  unfold exposedObjectCount
  rw [panShift_of_ten crowdedView 10 0 identityView_ten.1 identityView_ten.2]
  have : panStripX paintedWidget (-10) 0
      = some (QRect.mk4 (paintedWidget.width + -10) 0 (- -10) (paintedWidget.height - 0)) := by
    simp [panStripX]
  rw [this]
  simp [countInStrip, crowdedView]

/-- A pixel length just below a third of the height: the `double` 159.999999999 is stored as
the `float` 160, which is not below `480 / 3.0f`, so the pan is repainted in full although the
`double` itself is below 160 and within 0.01 of a whole number. -/
theorem sample_pan_float_boundary (v : MapView) (x y : ℤ)
    (hy : v.lengthToPixel (v.rotate ⟨x, y⟩).y = 159999999999 / 1000000000) :
    panPartialRedraw paintedWidget v x y = false := by
  cases hp : panPartialRedraw paintedWidget v x y
  · rfl
  · have h := ((panPartialRedraw_iff paintedWidget v x y).mp hp).2.2.1
    have hpy : (panShift v x y).py = 160 := by
      simp only [panShift, hy, toFloat_below_160]
    rw [hpy, (sample_thirds paintedWidget rfl rfl).2] at h
    norm_num at h

/-- Witness for C10: the pan by (10, 0) on the painted widget, under the identity view (shift
and patch) and under the crowded view (full redraw). -/
theorem panView_shift_or_full_redraw_witness :
    panPartialRedraw paintedWidget identityView 10 0 = true ∧
    (∃ extra, (paintedWidget.panView identityView 10 0).map_cache
      = some ⟨⟨640, 480⟩,
          [] ++ PaintOp.drawImage CompositionMode.CompositionMode_Source (-10) 0 :: extra,
          QImageFormat.Format_ARGB32_Premultiplied⟩) ∧
    200 ≤ exposedObjectCount paintedWidget crowdedView 10 0 ∧
    (paintedWidget.panView crowdedView 10 0).map_cache_dirty_rect = paintedWidget.rect := by
  have h := ((panView_shift_or_full_redraw paintedWidget identityView 10 0).2.2.1
    sample_pan_shifts).2.2 ⟨⟨640, 480⟩, [], QImageFormat.Format_ARGB32_Premultiplied⟩ rfl
  rw [panShift_of_ten identityView 10 0 identityView_ten.1 identityView_ten.2] at h
  exact ⟨sample_pan_shifts, h, sample_pan_crowded,
    ((panView_shift_or_full_redraw paintedWidget crowdedView 10 0).2.2.2.2
      sample_pan_crowded).2.2.2⟩

/-! ## Shifting a cache -/

/-- C13: on an allocated cache `shiftCache(sx, sy, cache)` puts in its place a buffer of the
same size and format on which the old buffer was drawn at (sx, sy) in `CompositionMode_Source`:
its pixel (x, y), whenever (x, y) and (x - sx, y - sy) both lie inside the buffer, is the old
pixel at (x - sx, y - sy), whatever was painted before and whatever Qt would blend; a pixel
whose source lies outside the buffer has no value yet. On a missing cache it does nothing. -/
theorem shiftCache_pixels (R : Renderer) (sx sy : ℤ) (cache : Option QImage) :
    (∀ c, cache = some c →
      ∃ c', shiftCache sx sy cache = some c' ∧ c'.size = c.size ∧ c'.format = c.format ∧
        (∀ x y, c.size.containsPixel x y → c.size.containsPixel (x - sx) (y - sy) →
          c'.pixelAt R x y = c.pixelAt R (x - sx) (y - sy)) ∧
        (∀ x y, ¬ c.size.containsPixel (x - sx) (y - sy) → c'.pixelAt R x y = none) ∧
        c'.ops = c.ops ++ [PaintOp.drawImage CompositionMode.CompositionMode_Source sx sy]) ∧
    (cache = none → shiftCache sx sy cache = none) := by
  refine ⟨?_, ?_⟩
  · rintro c rfl
    have hp : ∀ x y, QImage.pixelAt R
        ⟨c.size, c.ops ++ [PaintOp.drawImage CompositionMode.CompositionMode_Source sx sy],
          c.format⟩ x y
        = drawImagePixels R CompositionMode.CompositionMode_Source c.size sx sy c.size
            (c.pixelAt R) uninitialised x y := by
      intro x y
      simp only [QImage.pixelAt, List.foldl_append, List.foldl_cons, List.foldl_nil,
        PaintOp.apply]
    refine ⟨_, rfl, rfl, rfl, ?_, ?_, rfl⟩
    · intro x y h1 h2
      rw [hp x y]
      simp only [drawImagePixels, h1, h2, and_self, if_true, compose]
    · intro x y h2
      rw [hp x y]
      simp only [drawImagePixels, h2, and_false, if_false, uninitialised]
  · rintro rfl
    rfl

/-- The same `drawImage` in the mode of a painter that was given none would blend the old
pixel over the value of the new image. -/
theorem drawImagePixels_sourceOver (R : Renderer) (size : QSize) (sx sy : ℤ) (src dst : Pixels)
    (x y : ℤ) (h1 : size.containsPixel x y) (h2 : size.containsPixel (x - sx) (y - sy)) :
    drawImagePixels R CompositionMode.CompositionMode_SourceOver size sx sy size src dst x y
      = R.blend (src (x - sx) (y - sy)) (dst x y) := by
  simp only [drawImagePixels, h1, h2, and_self, if_true, compose]

/-- Witness for C13: the white 640x480 buffer of format `Format_RGB32` shifted by (-10, 0). -/
theorem shiftCache_pixels_witness :
    ∃ c', shiftCache (-10) 0 (some whiteBuffer) = some c' ∧ c'.size = whiteBuffer.size ∧
      c'.format = QImageFormat.Format_RGB32 ∧
      ∀ x y, whiteBuffer.size.containsPixel x y →
        whiteBuffer.size.containsPixel (x - -10) (y - 0) →
        c'.pixelAt flatRenderer x y = whiteBuffer.pixelAt flatRenderer (x - -10) (y - 0) := by
  obtain ⟨c', h1, h2, h3, h4, -⟩ :=
    (shiftCache_pixels flatRenderer (-10) 0 (some whiteBuffer)).1 whiteBuffer rfl
  exact ⟨c', h1, h2, h3, h4⟩

/-! ## Strips exposed by a pan -/

/-- Every widget pixel whose source under a shift by `(ix, iy)` lies outside the widget is in
the horizontal or in the vertical strip of the shift. -/
theorem pan_strips_cover (s : MapWidget) (ix iy a b : ℤ) (hin : s.rect.containsPixel a b)
    (hout : ¬ s.rect.containsPixel (a - ix) (b - iy)) :
    ∃ r, (panStripX s ix iy = some r ∨ panStripY s iy = some r) ∧ r.containsPixel a b := by
  simp only [MapWidget.rect, QRect.mk4, QRect.containsPixel] at hin hout
  by_cases hy1 : b < iy
  · refine ⟨QRect.mk4 0 0 s.width iy, Or.inr ?_, ?_⟩
    · have : iy > 0 := by omega
      simp [panStripY, this]
    · simp only [QRect.mk4, QRect.containsPixel]; omega
  · by_cases hy2 : b - iy ≥ s.height
    · refine ⟨QRect.mk4 0 (s.height + iy) s.width (-iy), Or.inr ?_, ?_⟩
      · have h1 : ¬ iy > 0 := by omega
        have h2 : iy < 0 := by omega
        simp [panStripY, h1, h2]
      · simp only [QRect.mk4, QRect.containsPixel]; omega
    · by_cases hx1 : a < ix
      · refine ⟨QRect.mk4 0 iy ix (s.height - iy), Or.inl ?_, ?_⟩
        · have : ix > 0 := by omega
          simp [panStripX, this]
        · simp only [QRect.mk4, QRect.containsPixel]; omega
      · refine ⟨QRect.mk4 (s.width + ix) iy (-ix) (s.height - iy), Or.inl ?_, ?_⟩
        · have h1 : ¬ ix > 0 := by omega
          have h2 : ix < 0 := by omega
          simp [panStripX, h1, h2]
        · simp only [QRect.mk4, QRect.containsPixel]; omega

namespace QRect

theorem isValid_of_containsPixel {r : QRect} {x y : ℤ} (h : r.containsPixel x y) :
    r.isValid = true := by
  rw [isValid_iff]
  simp only [containsPixel] at h
  omega

theorem intersected_containsPixel {a b : QRect} {x y : ℤ} (ha : a.containsPixel x y)
    (hb : b.containsPixel x y) : (a.intersected b).containsPixel x y := by
  have hna := not_isNull_of_isValid (isValid_of_containsPixel ha)
  have hnb := not_isNull_of_isValid (isValid_of_containsPixel hb)
  simp only [containsPixel] at ha hb
  have h1 : ¬ (a.x2 - a.x1 + 1 < 0) := by omega
  have h2 : ¬ (a.y2 - a.y1 + 1 < 0) := by omega
  have h3 : ¬ (b.x2 - b.x1 + 1 < 0) := by omega
  have h4 : ¬ (b.y2 - b.y1 + 1 < 0) := by omega
  have h5 : ¬ (a.x1 > b.x2) := by omega
  have h6 : ¬ (b.x1 > a.x2) := by omega
  have h7 : ¬ (a.y1 > b.y2) := by omega
  have h8 : ¬ (b.y1 > a.y2) := by omega
  simp only [intersected, hna, hnb, nl, nr, nt, nb, h1, h2, h3, h4, h5, h6, h7, h8, if_false,
    Bool.or_self, Bool.false_eq_true, decide_False, containsPixel]
  omega

end QRect

theorem bufferOps_of_continues {a b : Option QImage} (h : continues a b) :
    ∃ extra, bufferOps b = bufferOps a ++ extra := by
  cases a with
  | none => exact ⟨bufferOps b, rfl⟩
  | some c =>
    obtain ⟨extra, he⟩ := h c rfl
    exact ⟨extra, by rw [he]; rfl⟩

theorem mapPainting_mem_drawMap (s : MapWidget) (v : MapView) (clip : QRect) (bg : Bool) :
    PaintOp.drawMap clip (v.calculateViewedRect (s.viewportToViewRect clip))
      v.isOverprintingSimulationEnabled (s.force_antialiasing || v.settingAntialiasing)
      v.calculateFinalZoomFactor ∈ s.mapPainting v clip bg := by
  simp [MapWidget.mapPainting]

/-- When `updateMapCache` runs with a dirty rectangle holding a widget pixel, the map is drawn
under a clip that holds the pixel. -/
theorem updateMapCache_draws_pixel (s : MapWidget) (v : MapView) (bg : Bool) (a b : ℤ)
    (hd : s.map_cache_dirty_rect.containsPixel a b) (hr : s.rect.containsPixel a b) :
    redrawnAfter s.map_cache (s.updateMapCache v bg).map_cache a b := by
  cases hc : s.map_cache with
  | none =>
    refine ⟨s.mapPainting v (s.rect.intersected s.rect) bg, ?_, _,
      mapPainting_mem_drawMap s v _ bg, QRect.intersected_containsPixel hr hr⟩
    simp [MapWidget.updateMapCache, hc, bufferOps]
  | some c =>
    refine ⟨s.mapPainting v (s.map_cache_dirty_rect.intersected s.rect) bg, ?_, _,
      mapPainting_mem_drawMap s v _ bg, QRect.intersected_containsPixel hd hr⟩
    simp [MapWidget.updateMapCache, hc, bufferOps]

theorem templatePainting_mem_drawTemplates (s : MapWidget) (v : MapView) (clip : QRect)
    (first last : ℤ) (bg : Bool) :
    PaintOp.drawTemplates clip (v.calculateViewedRect (s.viewportToViewRect clip)) first last
      ∈ s.templatePainting v clip first last bg := by
  simp [MapWidget.templatePainting]

/-- When `updateTemplateCache` runs with a dirty rectangle holding a widget pixel, the
templates are drawn under a clip that holds the pixel. -/
theorem updateTemplateCache_draws_pixel (s : MapWidget) (v : MapView) (cache : Option QImage)
    (dirty_rect : QRect) (first last : ℤ) (bg : Bool) (a b : ℤ)
    (hd : dirty_rect.containsPixel a b) (hr : s.rect.containsPixel a b) :
    redrawnAfter cache (s.updateTemplateCache v cache dirty_rect first last bg).1 a b := by
  cases cache with
  | none =>
    exact ⟨s.templatePainting v (s.rect.intersected s.rect) first last bg,
      by simp [MapWidget.updateTemplateCache, bufferOps], _,
      templatePainting_mem_drawTemplates s v _ first last bg,
      QRect.intersected_containsPixel hr hr⟩
  | some c =>
    exact ⟨s.templatePainting v (dirty_rect.intersected s.rect) first last bg,
      by simp [MapWidget.updateTemplateCache, bufferOps], _,
      templatePainting_mem_drawTemplates s v _ first last bg,
      QRect.intersected_containsPixel hd hr⟩

theorem sameOutsideCaches_refl (s : MapWidget) : sameOutsideCaches s s :=
  ⟨rfl, rfl, rfl, rfl, rfl, rfl, rfl, rfl, rfl, rfl⟩

theorem sameOutsideCaches_trans {s t u : MapWidget} (h1 : sameOutsideCaches s t)
    (h2 : sameOutsideCaches t u) : sameOutsideCaches s u := by
  obtain ⟨pw, ph, pd, pdo, pdn, pdb, pao, pan, pab, pu⟩ := h1
  obtain ⟨qw, qh, qd, qdo, qdn, qdb, qao, qan, qab, qu⟩ := h2
  exact ⟨qw.trans pw, qh.trans ph, qd.trans pd, qdo.trans pdo, qdn.trans pdn, qdb.trans pdb,
    qao.trans pao, qan.trans pan, qab.trans pab, qu.trans pu⟩

theorem updateBelowIfDirty_outside (s : MapWidget) (v : MapView) :
    sameOutsideCaches s (s.updateBelowIfDirty v) := by
  unfold MapWidget.updateBelowIfDirty
  split
  · exact ⟨rfl, rfl, rfl, rfl, rfl, rfl, rfl, rfl, rfl, rfl⟩
  · exact sameOutsideCaches_refl s

theorem updateAboveIfDirty_outside (s : MapWidget) (v : MapView) :
    sameOutsideCaches s (s.updateAboveIfDirty v) := by
  unfold MapWidget.updateAboveIfDirty
  split
  · exact ⟨rfl, rfl, rfl, rfl, rfl, rfl, rfl, rfl, rfl, rfl⟩
  · exact sameOutsideCaches_refl s

theorem updateMapIfDirty_outside (s : MapWidget) (v : MapView) :
    sameOutsideCaches s (s.updateMapIfDirty v) := by
  unfold MapWidget.updateMapIfDirty
  split
  · unfold MapWidget.updateMapCache
    cases s.map_cache <;> exact ⟨rfl, rfl, rfl, rfl, rfl, rfl, rfl, rfl, rfl, rfl⟩
  · exact sameOutsideCaches_refl s

theorem updateAllDirtyCaches_outside (s : MapWidget) (v : MapView) :
    sameOutsideCaches s (s.updateAllDirtyCaches v) := by
  unfold MapWidget.updateAllDirtyCaches
  exact sameOutsideCaches_trans (updateBelowIfDirty_outside s v)
    (sameOutsideCaches_trans (updateAboveIfDirty_outside _ v) (updateMapIfDirty_outside _ v))


theorem redrawnAfter_of_continues_right {a b c : Option QImage} {x y : ℤ}
    (h1 : redrawnAfter a b x y) (h2 : continues b c) : redrawnAfter a c x y := by
  obtain ⟨e1, he1, op, hop, hr⟩ := h1
  obtain ⟨e2, he2⟩ := bufferOps_of_continues h2
  exact ⟨e1 ++ e2, by rw [he2, he1, List.append_assoc], op, List.mem_append_left _ hop, hr⟩

theorem redrawnAfter_of_continues_left {a b c : Option QImage} {x y : ℤ}
    (h1 : continues a b) (h2 : redrawnAfter b c x y) : redrawnAfter a c x y := by
  obtain ⟨e1, he1⟩ := bufferOps_of_continues h1
  obtain ⟨e2, he2, op, hop, hr⟩ := h2
  exact ⟨e1 ++ e2, by rw [he2, he1, List.append_assoc], op, List.mem_append_right _ hop, hr⟩

/-- A rectangle passed to `updateEverythingInRect` is redrawn in the map cache, and in each
template cache whose layer is visible, at every widget pixel it holds; the repaint of the
rectangle is requested and nothing outside the caches changes. -/
theorem updateEverythingInRect_redraws (t : MapWidget) (v : MapView) (r : QRect) (a b : ℤ)
    (hr : r.containsPixel a b) (ht : t.rect.containsPixel a b) :
    redrawnAfter t.map_cache (t.updateEverythingInRect v r).map_cache a b ∧
    (v.isBelowTemplateVisible = true →
      redrawnAfter t.below_template_cache
        (t.updateEverythingInRect v r).below_template_cache a b) ∧
    (v.isAboveTemplateVisible = true →
      redrawnAfter t.above_template_cache
        (t.updateEverythingInRect v r).above_template_cache a b) := by
  have hv : r.isValid = true := QRect.isValid_of_containsPixel hr
  generalize ht1 : ({ t with
      below_template_cache_dirty_rect := r
      above_template_cache_dirty_rect := r
      map_cache_dirty_rect := r } : MapWidget) = t1
  have e0 : t.updateEverythingInRect v r = (t1.updateAllDirtyCaches v).update r := by
    subst ht1; rfl
  have c1 : t1.below_template_cache = t.below_template_cache := by subst ht1; rfl
  have c2 : t1.above_template_cache = t.above_template_cache := by subst ht1; rfl
  have c3 : t1.map_cache = t.map_cache := by subst ht1; rfl
  have d1 : t1.below_template_cache_dirty_rect = r := by subst ht1; rfl
  have d2 : t1.above_template_cache_dirty_rect = r := by subst ht1; rfl
  have d3 : t1.map_cache_dirty_rect = r := by subst ht1; rfl
  have g1 : t1.rect = t.rect := by subst ht1; rfl
  obtain ⟨b1, b2, b3, b4, b5, -⟩ := updateBelowIfDirty_frame t1 v
  obtain ⟨a1, a2, a3, a4, a5, -⟩ := updateAboveIfDirty_frame (t1.updateBelowIfDirty v) v
  obtain ⟨m1, m2, m3, m4, m5, -⟩ :=
    updateMapIfDirty_frame ((t1.updateBelowIfDirty v).updateAboveIfDirty v) v
  have emap : (t.updateEverythingInRect v r).map_cache
      = (((t1.updateBelowIfDirty v).updateAboveIfDirty v).updateMapIfDirty v).map_cache := by
    rw [e0]; rfl
  have ebelow : (t.updateEverythingInRect v r).below_template_cache
      = (t1.updateBelowIfDirty v).below_template_cache := by
    rw [e0]; exact m2.trans a2
  have eabove : (t.updateEverythingInRect v r).above_template_cache
      = ((t1.updateBelowIfDirty v).updateAboveIfDirty v).above_template_cache := by
    rw [e0]; exact m4
  refine ⟨?_, ?_, ?_⟩
  · rw [emap, ← c3, ← b4, ← a4]
    have hdv : ((t1.updateBelowIfDirty v).updateAboveIfDirty v).map_cache_dirty_rect = r := by
      rw [a5, b5, d3]
    simp only [MapWidget.updateMapIfDirty, hdv, hv, if_true]
    exact updateMapCache_draws_pixel _ v false a b (by rw [hdv]; exact hr)
      (by rw [a1, b1, g1]; exact ht)
  · intro hvis
    rw [ebelow, ← c1]
    simp only [MapWidget.updateBelowIfDirty, hvis, d1, hv, Bool.and_self, if_true]
    exact updateTemplateCache_draws_pixel t1 v _ r _ _ true a b hr (by rw [g1]; exact ht)
  · intro hvis
    rw [eabove, ← c2, ← b2]
    have hdv : (t1.updateBelowIfDirty v).above_template_cache_dirty_rect = r := by
      rw [b3, d2]
    simp only [MapWidget.updateAboveIfDirty, hvis, hdv, hv, Bool.and_self, if_true]
    exact updateTemplateCache_draws_pixel _ v _ r _ _ false a b hr (by rw [b1, g1]; exact ht)

theorem updateEverythingInRect_outside (t : MapWidget) (v : MapView) (r : QRect) :
    (t.updateEverythingInRect v r).width = t.width ∧
    (t.updateEverythingInRect v r).height = t.height ∧
    (t.updateEverythingInRect v r).drag_offset = t.drag_offset ∧
    (t.updateEverythingInRect v r).drawing_dirty_rect_old = t.drawing_dirty_rect_old ∧
    (t.updateEverythingInRect v r).activity_dirty_rect_old = t.activity_dirty_rect_old ∧
    (t.updateEverythingInRect v r).updates = t.updates ++ [UpdateRequest.rect r] := by
  obtain ⟨h1, h2, h3, h4, -, -, h7, -, -, h10⟩ := updateAllDirtyCaches_outside
    { t with
      below_template_cache_dirty_rect := r
      above_template_cache_dirty_rect := r
      map_cache_dirty_rect := r } v
  refine ⟨h1, h2, h3, h4, h7, ?_⟩
  show (MapWidget.updateAllDirtyCaches _ v).updates ++ [UpdateRequest.rect r] = _
  rw [h10]


theorem panStrip_congr (s t : MapWidget) (ix iy : ℤ) (hw : t.width = s.width)
    (hh : t.height = s.height) :
    panStripX t ix iy = panStripX s ix iy ∧ panStripY t iy = panStripY s iy := by
  simp only [panStripX, panStripY, hw, hh, and_self]

theorem rect_congr (s t : MapWidget) (hw : t.width = s.width) (hh : t.height = s.height) :
    t.rect = s.rect := by
  simp only [MapWidget.rect, hw, hh]

/-- An optional `updateEverythingInRect` continues every cache, keeps the widget size and keeps
the repaint requests issued before. -/
theorem optional_update_facts (t : MapWidget) (v : MapView) (o : Option QRect) :
    continues t.below_template_cache
      (match o with | some r => t.updateEverythingInRect v r | none => t).below_template_cache ∧
    continues t.above_template_cache
      (match o with | some r => t.updateEverythingInRect v r | none => t).above_template_cache ∧
    continues t.map_cache
      (match o with | some r => t.updateEverythingInRect v r | none => t).map_cache ∧
    (match o with | some r => t.updateEverythingInRect v r | none => t).width = t.width ∧
    (match o with | some r => t.updateEverythingInRect v r | none => t).height = t.height ∧
    (∀ q ∈ t.updates,
      q ∈ (match o with | some r => t.updateEverythingInRect v r | none => t).updates) := by
  cases o with
  | none =>
    exact ⟨continues_refl _, continues_refl _, continues_refl _, rfl, rfl, fun q hq => hq⟩
  | some r =>
    obtain ⟨k1, k2, k3⟩ := updateEverythingInRect_continues t v r
    obtain ⟨o1, o2, -, -, -, o6⟩ := updateEverythingInRect_outside t v r
    refine ⟨k1, k2, k3, o1, o2, ?_⟩
    intro q hq
    rw [o6]
    exact List.mem_append_left _ hq

/-- On the shift-and-patch branch a strip of the shift is passed to `updateEverythingInRect`:
its repaint is requested and each widget pixel it holds is redrawn, after the shift, in the map
cache and in every template cache whose layer is visible. -/
theorem panViewPartial_redraws (s : MapWidget) (v : MapView) (ix iy a b : ℤ) (r : QRect)
    (hin : s.rect.containsPixel a b) (hr : r.containsPixel a b)
    (hs : panStripX s ix iy = some r ∨ panStripY s iy = some r) :
    UpdateRequest.rect r ∈ (s.panViewPartial v ix iy).updates ∧
    redrawnAfter (shiftCache ix iy s.map_cache) (s.panViewPartial v ix iy).map_cache a b ∧
    (v.isBelowTemplateVisible = true →
      redrawnAfter (shiftCache ix iy s.below_template_cache)
        (s.panViewPartial v ix iy).below_template_cache a b) ∧
    (v.isAboveTemplateVisible = true →
      redrawnAfter (shiftCache ix iy s.above_template_cache)
        (s.panViewPartial v ix iy).above_template_cache a b) := by
  unfold MapWidget.panViewPartial
  dsimp only
  generalize hs1 : ({ s with
      below_template_cache := shiftCache ix iy s.below_template_cache,
      above_template_cache := shiftCache ix iy s.above_template_cache,
      map_cache := shiftCache ix iy s.map_cache } : MapWidget) = s1
  have e1 : s1.below_template_cache = shiftCache ix iy s.below_template_cache := by
    subst hs1; rfl
  have e2 : s1.above_template_cache = shiftCache ix iy s.above_template_cache := by
    subst hs1; rfl
  have e3 : s1.map_cache = shiftCache ix iy s.map_cache := by subst hs1; rfl
  have w1 : s1.width = s.width := by subst hs1; rfl
  have h1 : s1.height = s.height := by subst hs1; rfl
  rw [← e1, ← e2, ← e3]
  obtain ⟨px1, -⟩ := panStrip_congr s s1 ix iy w1 h1
  obtain ⟨k1, k2, k3, k4, k5, k6⟩ := optional_update_facts s1 v (panStripX s1 ix iy)
  generalize hs2 : (match panStripX s1 ix iy with
      | some r => s1.updateEverythingInRect v r | none => s1) = s2 at k1 k2 k3 k4 k5 k6 ⊢
  obtain ⟨-, py2⟩ := panStrip_congr s s2 ix iy (k4.trans w1) (k5.trans h1)
  obtain ⟨l1, l2, l3, -, -, l6⟩ := optional_update_facts s2 v (panStripY s2 iy)
  rcases hs with hx | hy
  · rw [px1, hx] at hs2
    have hs2 : s1.updateEverythingInRect v r = s2 := hs2
    have hred := updateEverythingInRect_redraws s1 v r a b hr
      (by rw [rect_congr s s1 w1 h1]; exact hin)
    have hupd : UpdateRequest.rect r ∈ s2.updates := by
      rw [← hs2, (updateEverythingInRect_outside s1 v r).2.2.2.2.2]
      exact List.mem_append_right _ (List.mem_singleton.mpr rfl)
    rw [hs2] at hred
    exact ⟨l6 _ hupd, redrawnAfter_of_continues_right hred.1 l3,
      fun hv => redrawnAfter_of_continues_right (hred.2.1 hv) l1,
      fun hv => redrawnAfter_of_continues_right (hred.2.2 hv) l2⟩
  · rw [py2, hy]
    have hred := updateEverythingInRect_redraws s2 v r a b hr
      (by rw [rect_congr s s2 (k4.trans w1) (k5.trans h1)]; exact hin)
    refine ⟨?_, redrawnAfter_of_continues_left k3 hred.1,
      fun hv => redrawnAfter_of_continues_left k1 (hred.2.1 hv),
      fun hv => redrawnAfter_of_continues_left k2 (hred.2.2 hv)⟩
    rw [(updateEverythingInRect_outside s2 v r).2.2.2.2.2]
    exact List.mem_append_right _ (List.mem_singleton.mpr rfl)


/-- On the shift-and-patch path `panView` is its partial branch. -/
theorem panView_on_shift_path (s : MapWidget) (v : MapView) (x y : ℤ)
    (h : panPartialRedraw s v x y = true) :
    s.panView v x y
      = (s.panMoveDirtyRects x y).panViewPartial v (panShift v x y).ix (panShift v x y).iy := by
  have hcongr : panPartialRedraw (s.panMoveDirtyRects x y) v x y = panPartialRedraw s v x y :=
    panPartialRedraw_congr s _ v x y rfl rfl rfl
  simp only [MapWidget.panView, hcongr, h, if_true]

/-- C11: on the shift-and-patch path of `panView`, with (ix, iy) the shift applied to the
caches, every widget pixel (a, b) whose source (a - ix, b - iy) lies outside the widget bounds
lies in one of the strips passed to `updateEverythingInRect`: the repaint of that strip is
requested and the pixel is redrawn, after the shift, in the map cache and in each template
cache whose layer is visible. When the pixel offset of the pan is (10, 0) the shift is
(-10, 0), i.e. 10 px to the left, and `panView` ends with `updateEverythingInRect` on the
10-px-wide strip at the right edge. -/
theorem panView_exposed_pixels_redrawn (s : MapWidget) (v : MapView) (x y : ℤ)
    (h : panPartialRedraw s v x y = true) :
    (∀ a b, s.rect.containsPixel a b →
      ¬ s.rect.containsPixel (a - (panShift v x y).ix) (b - (panShift v x y).iy) →
      ∃ r, (panStripX s (panShift v x y).ix (panShift v x y).iy = some r ∨
            panStripY s (panShift v x y).iy = some r) ∧
        r.containsPixel a b ∧
        UpdateRequest.rect r ∈ (s.panView v x y).updates ∧
        redrawnAfter (shiftCache (panShift v x y).ix (panShift v x y).iy s.map_cache)
          (s.panView v x y).map_cache a b ∧
        (v.isBelowTemplateVisible = true →
          redrawnAfter
            (shiftCache (panShift v x y).ix (panShift v x y).iy s.below_template_cache)
            (s.panView v x y).below_template_cache a b) ∧
        (v.isAboveTemplateVisible = true →
          redrawnAfter
            (shiftCache (panShift v x y).ix (panShift v x y).iy s.above_template_cache)
            (s.panView v x y).above_template_cache a b)) ∧
    (v.lengthToPixel (v.rotate ⟨x, y⟩).x = 10 → v.lengthToPixel (v.rotate ⟨x, y⟩).y = 0 →
      (panShift v x y).ix = -10 ∧ (panShift v x y).iy = 0 ∧
      s.panView v x y
        = MapWidget.updateEverythingInRect
            { s.panMoveDirtyRects x y with
              below_template_cache := shiftCache (-10) 0 s.below_template_cache
              above_template_cache := shiftCache (-10) 0 s.above_template_cache
              map_cache := shiftCache (-10) 0 s.map_cache }
            v (QRect.mk4 (s.width - 10) 0 10 s.height)) := by
  refine ⟨?_, ?_⟩
  · intro a b hin hout
    obtain ⟨r, hr, hc⟩ := pan_strips_cover s _ _ a b hin hout
    refine ⟨r, hr, hc, ?_⟩
    rw [panView_on_shift_path s v x y h]
    exact panViewPartial_redraws (s.panMoveDirtyRects x y) v _ _ a b r hin hc hr
  · intro hx hy
    have hix : (panShift v x y).ix = -10 := by
      rw [panShift_of_ten v x y hx hy]
    have hiy : (panShift v x y).iy = 0 := by
      rw [panShift_of_ten v x y hx hy]
    refine ⟨hix, hiy, ?_⟩
    rw [panView_on_shift_path s v x y h, hix, hiy]
    have e : QRect.mk4 (s.width - 10) 0 10 s.height
        = QRect.mk4 (s.width + -10) 0 (- -10) (s.height - 0) := by
      simp only [QRect.mk4, QRect.mk.injEq]
      exact ⟨by omega, trivial, by omega, by omega⟩
    rw [e]
    rfl


/-- The shift of the pan by (10, 0) under the identity view. -/
theorem sample_pan_shift_values :
    (panShift identityView 10 0).ix = -10 ∧ (panShift identityView 10 0).iy = 0 := by
  rw [panShift_of_ten identityView 10 0 identityView_ten.1 identityView_ten.2]
  exact ⟨rfl, rfl⟩

/-- The pixel (635, 5) of the 640x480 widget has no source under the shift of that pan. -/
theorem sample_pan_exposed_pixel :
    ¬ paintedWidget.rect.containsPixel (635 - (panShift identityView 10 0).ix)
        (5 - (panShift identityView 10 0).iy) := by
  rw [sample_pan_shift_values.1, sample_pan_shift_values.2]
  decide

/-- Witness for C11: the pan by (10, 0) on the painted widget and its pixel (635, 5). -/
theorem panView_exposed_pixels_redrawn_witness :
    panPartialRedraw paintedWidget identityView 10 0 = true ∧
    paintedWidget.rect.containsPixel 635 5 ∧
    ¬ paintedWidget.rect.containsPixel (635 - (panShift identityView 10 0).ix)
        (5 - (panShift identityView 10 0).iy) ∧
    (∃ r, (panStripX paintedWidget (panShift identityView 10 0).ix
              (panShift identityView 10 0).iy = some r ∨
            panStripY paintedWidget (panShift identityView 10 0).iy = some r) ∧
        r.containsPixel 635 5 ∧
        UpdateRequest.rect r ∈ (paintedWidget.panView identityView 10 0).updates ∧
        redrawnAfter
          (shiftCache (panShift identityView 10 0).ix (panShift identityView 10 0).iy
            paintedWidget.map_cache)
          (paintedWidget.panView identityView 10 0).map_cache 635 5) :=
  ⟨sample_pan_shifts, by decide, sample_pan_exposed_pixel,
   match (panView_exposed_pixels_redrawn paintedWidget identityView 10 0 sample_pan_shifts).1
       635 5 (by decide) sample_pan_exposed_pixel with
   | ⟨r, h1, h2, h3, h4, _⟩ => ⟨r, h1, h2, h3, h4⟩⟩


/-! ## Pending rectangles under a pan -/

theorem panViewFull_overlays (s : MapWidget) (ix iy : ℤ) :
    (s.panViewFull ix iy).drawing_dirty_rect_old = s.drawing_dirty_rect_old ∧
    (s.panViewFull ix iy).activity_dirty_rect_old = s.activity_dirty_rect_old := by
  unfold MapWidget.panViewFull
  dsimp only
  split <;> split <;> exact ⟨rfl, rfl⟩

theorem panViewPartial_overlays (s : MapWidget) (v : MapView) (ix iy : ℤ) :
    (s.panViewPartial v ix iy).drawing_dirty_rect_old = s.drawing_dirty_rect_old ∧
    (s.panViewPartial v ix iy).activity_dirty_rect_old = s.activity_dirty_rect_old := by
  have key : ∀ (t : MapWidget) (o : Option QRect),
      (match o with | some r => t.updateEverythingInRect v r | none => t).drawing_dirty_rect_old
        = t.drawing_dirty_rect_old ∧
      (match o with | some r => t.updateEverythingInRect v r | none => t).activity_dirty_rect_old
        = t.activity_dirty_rect_old := by
    intro t o
    cases o with
    | none => exact ⟨rfl, rfl⟩
    | some r =>
      obtain ⟨-, -, -, h4, h5, -⟩ := updateEverythingInRect_outside t v r
      exact ⟨h4, h5⟩
  unfold MapWidget.panViewPartial
  dsimp only
  generalize hs1 : ({ s with
      below_template_cache := shiftCache ix iy s.below_template_cache,
      above_template_cache := shiftCache ix iy s.above_template_cache,
      map_cache := shiftCache ix iy s.map_cache } : MapWidget) = s1
  have e1 : s1.drawing_dirty_rect_old = s.drawing_dirty_rect_old := by subst hs1; rfl
  have e2 : s1.activity_dirty_rect_old = s.activity_dirty_rect_old := by subst hs1; rfl
  obtain ⟨k1, k2⟩ := key s1 (panStripX s1 ix iy)
  obtain ⟨l1, l2⟩ := key
    (match panStripX s1 ix iy with | some r => s1.updateEverythingInRect v r | none => s1)
    (panStripY
      (match panStripX s1 ix iy with | some r => s1.updateEverythingInRect v r | none => s1) iy)
  exact ⟨l1.trans (k1.trans e1), l2.trans (k2.trans e2)⟩

/-- What `panView(x, y)` does to the last-drawn rectangles of the two overlays: each is moved,
when Valid, by the map offset `(-x, -y)` it was called with. -/
theorem panView_overlay_rects (s : MapWidget) (v : MapView) (x y : ℤ) :
    (s.panView v x y).drawing_dirty_rect_old
      = moveDirtyRect s.drawing_dirty_rect_old (-(x : ℚ)) (-(y : ℚ)) ∧
    (s.panView v x y).activity_dirty_rect_old
      = moveDirtyRect s.activity_dirty_rect_old (-(x : ℚ)) (-(y : ℚ)) := by
  unfold MapWidget.panView
  dsimp only
  split
  · obtain ⟨h1, h2⟩ := panViewPartial_overlays (s.panMoveDirtyRects x y) v
      (panShift v x y).ix (panShift v x y).iy
    exact ⟨h1.trans rfl, h2.trans rfl⟩
  · obtain ⟨h1, h2⟩ := panViewFull_overlays (s.panMoveDirtyRects x y)
      (panShift v x y).ix (panShift v x y).iy
    exact ⟨h1.trans rfl, h2.trans rfl⟩

theorem countInStrip_tenthScaleView (s : MapWidget) (o : Option QRect) :
    countInStrip s tenthScaleView o = 0 := by
  cases o <;> rfl

/-- C12 at a failing input: under a view where ten map units are one pixel, `panView(100, 0)`
takes the shift-and-patch path and shifts the caches by (-10, 0) pixels, but the Valid
last-drawn rectangle (100, 100, 50, 50) of the tool overlay is moved by the map offset
(-100, 0) to (0, 100, 50, 50), not by the pixel shift to (90, 100, 50, 50). -/
theorem panView_moves_overlay_rect_by_map_offset :
    (panShift tenthScaleView 100 0).ix = -10 ∧ (panShift tenthScaleView 100 0).iy = 0 ∧
    panPartialRedraw overlayWidget tenthScaleView 100 0 = true ∧
    overlayWidget.drawing_dirty_rect_old = QRect.mk4 100 100 50 50 ∧
    (QRect.mk4 100 100 50 50).isValid = true ∧
    (overlayWidget.panView tenthScaleView 100 0).drawing_dirty_rect_old
      = QRect.mk4 0 100 50 50 ∧
    (overlayWidget.panView tenthScaleView 100 0).drawing_dirty_rect_old
      ≠ QRect.mk4 90 100 50 50 := by
  have hx : tenthScaleView.lengthToPixel
      (tenthScaleView.rotate ⟨((100 : ℤ) : ℚ), ((0 : ℤ) : ℚ)⟩).x = ((10 : ℤ) : ℚ) := by
    show ((100 : ℤ) : ℚ) / 10 = ((10 : ℤ) : ℚ)
    norm_num
  have hy : tenthScaleView.lengthToPixel
      (tenthScaleView.rotate ⟨((100 : ℤ) : ℚ), ((0 : ℤ) : ℚ)⟩).y = ((0 : ℤ) : ℚ) := by
    show ((0 : ℤ) : ℚ) / 10 = ((0 : ℤ) : ℚ)
    norm_num
  have hmove : (overlayWidget.panView tenthScaleView 100 0).drawing_dirty_rect_old
      = QRect.mk4 0 100 50 50 := by
    rw [(panView_overlay_rects overlayWidget tenthScaleView 100 0).1]
    have e1 : (-((100 : ℤ) : ℚ)) = (((-100 : ℤ)) : ℚ) := by norm_num
    have e2 : (-((0 : ℤ) : ℚ)) = (((0 : ℤ)) : ℚ) := by norm_num
    rw [e1, e2]
    simp only [moveDirtyRect, truncToInt_intCast]
    decide
  have hx10 : tenthScaleView.lengthToPixel
      (tenthScaleView.rotate ⟨((100 : ℤ) : ℚ), ((0 : ℤ) : ℚ)⟩).x = 10 :=
    hx.trans (by norm_num)
  have hy0 : tenthScaleView.lengthToPixel
      (tenthScaleView.rotate ⟨((100 : ℤ) : ℚ), ((0 : ℤ) : ℚ)⟩).y = 0 :=
    hy.trans (by norm_num)
  have hshift := panShift_of_ten tenthScaleView 100 0 hx10 hy0
  refine ⟨?_, ?_, ?_, rfl, by decide, hmove, ?_⟩
  · rw [hshift]
  · rw [hshift]
  · exact panPartialRedraw_of_ten overlayWidget tenthScaleView 100 0 rfl rfl hx10 hy0
      (by simp [exposedObjectCount, countInStrip_tenthScaleView])
  · rw [hmove]
    decide


/-! ## Dynamic overlay regions -/

/-- What `setDynamicBoundingBox` returns, case by case. -/
theorem setDynamicBoundingBox_cases (s : MapWidget) (v : MapView) (map_rect : QRectF)
    (pixel_border : ℤ) (box : DynamicBoundingBox) (do_update : Bool) :
    (s.setDynamicBoundingBox v map_rect pixel_border box do_update).1
      = ⟨box.dirty_rect_old, map_rect, pixel_border⟩ ∧
    (do_update = false →
      (s.setDynamicBoundingBox v map_rect pixel_border box do_update).2 = []) ∧
    (do_update = true →
      (s.calculateViewportBoundingBox v map_rect pixel_border).intersects s.rect = true →
      box.dirty_rect_old.isValid = true →
      (s.setDynamicBoundingBox v map_rect pixel_border box do_update).2
        = [UpdateRequest.rect (boundingUnion box.dirty_rect_old
            (s.calculateViewportBoundingBox v map_rect pixel_border))]) ∧
    (do_update = true →
      (s.calculateViewportBoundingBox v map_rect pixel_border).intersects s.rect = true →
      box.dirty_rect_old.isValid = false →
      (s.setDynamicBoundingBox v map_rect pixel_border box do_update).2
        = [UpdateRequest.rect (s.calculateViewportBoundingBox v map_rect pixel_border)]) ∧
    (do_update = true →
      (s.calculateViewportBoundingBox v map_rect pixel_border).intersects s.rect = false →
      (s.setDynamicBoundingBox v map_rect pixel_border box do_update).2
        = if box.dirty_rect_old.isValid && box.dirty_rect_old.intersects s.rect
          then [UpdateRequest.rect box.dirty_rect_old] else []) := by
  refine ⟨?_, ?_, ?_, ?_, ?_⟩
  · unfold MapWidget.setDynamicBoundingBox
    dsimp only
    split_ifs <;> rfl
  · rintro rfl
    rfl
  · rintro rfl hi hv
    have hn := (QRect.not_isNull_of_intersects hi).1
    simp [MapWidget.setDynamicBoundingBox, hi, hv, QRect.united_of_isValid hv hn,
      boundingUnion]
  · rintro rfl hi hv
    simp [MapWidget.setDynamicBoundingBox, hi, hv]
  · rintro rfl hi
    simp only [MapWidget.setDynamicBoundingBox, hi, Bool.not_true, Bool.false_eq_true,
      if_false, Bool.not_false, if_true]
    split_ifs <;> rfl

/-- C14 as stated fails when the new region lies outside the widget: with the last drawing at
(100, 100, 50, 50) and a new region whose viewport bounding box is (1319, 239)-(1330, 250),
`setDrawingBoundingBox(..., true)` requests a repaint of the old rectangle only, not of the
union of both. -/
theorem setDrawingBoundingBox_offscreen_counterexample :
    overlayWidget.drawing_dirty_rect_old.isValid = true ∧
    overlayWidget.calculateViewportBoundingBox identityView ⟨1000, 0, 10, 10⟩ 0
      = ⟨1319, 239, 1330, 250⟩ ∧
    (overlayWidget.setDrawingBoundingBox identityView ⟨1000, 0, 10, 10⟩ 0 true).updates
      = [UpdateRequest.rect (QRect.mk4 100 100 50 50)] ∧
    (overlayWidget.setDrawingBoundingBox identityView ⟨1000, 0, 10, 10⟩ 0 true).updates
      ≠ [UpdateRequest.rect (overlayWidget.drawing_dirty_rect_old.united
          ⟨1319, 239, 1330, 250⟩)] := by
  have hr : overlayWidget.calculateViewportBoundingBox identityView ⟨1000, 0, 10, 10⟩ 0
      = ⟨1319, 239, 1330, 250⟩ := sample_far_viewport_bounding_box
  have hu : (overlayWidget.setDrawingBoundingBox identityView ⟨1000, 0, 10, 10⟩ 0 true).updates
      = [UpdateRequest.rect (QRect.mk4 100 100 50 50)] := by
    have hi : (overlayWidget.calculateViewportBoundingBox identityView ⟨1000, 0, 10, 10⟩
        0).intersects overlayWidget.rect = false := by rw [hr]; decide
    have h5 := (setDynamicBoundingBox_cases overlayWidget identityView ⟨1000, 0, 10, 10⟩ 0
      overlayWidget.drawingBox true).2.2.2.2 rfl hi
    show overlayWidget.updates ++ (MapWidget.setDynamicBoundingBox overlayWidget identityView
      ⟨1000, 0, 10, 10⟩ 0 overlayWidget.drawingBox true).2 = _
    rw [h5]
    decide
  refine ⟨by decide, hr, hu, ?_⟩
  rw [hu]
  decide

/-- C14 (amended): `setDrawingBoundingBox` and `setActivityBoundingBox` leave the last-drawn
rectangle unchanged and set the pending region and border to the arguments, for either value of
`do_update`. With `do_update` false nothing is requested. With `do_update` true and the new
viewport bounding box intersecting the widget bounds, a repaint of the bounding union of the
last-drawn rectangle and the new box is requested when the last-drawn one is Valid, and of the
new box alone otherwise; when the new box does not intersect the widget bounds, only the
last-drawn rectangle is requested, and only if it is Valid and intersects the widget bounds. -/
theorem setBoundingBox_requests (s : MapWidget) (v : MapView) (map_rect : QRectF)
    (pixel_border : ℤ) (do_update : Bool) :
    ((s.setDrawingBoundingBox v map_rect pixel_border do_update).drawing_dirty_rect_old
        = s.drawing_dirty_rect_old ∧
     (s.setDrawingBoundingBox v map_rect pixel_border do_update).drawing_dirty_rect_new
        = map_rect ∧
     (s.setDrawingBoundingBox v map_rect pixel_border do_update).drawing_dirty_rect_new_border
        = pixel_border ∧
     (s.setActivityBoundingBox v map_rect pixel_border do_update).activity_dirty_rect_old
        = s.activity_dirty_rect_old ∧
     (s.setActivityBoundingBox v map_rect pixel_border do_update).activity_dirty_rect_new
        = map_rect ∧
     (s.setActivityBoundingBox v map_rect pixel_border do_update).activity_dirty_rect_new_border
        = pixel_border) ∧
    (do_update = false →
      (s.setDrawingBoundingBox v map_rect pixel_border do_update).updates = s.updates ∧
      (s.setActivityBoundingBox v map_rect pixel_border do_update).updates = s.updates) ∧
    (do_update = true →
      (s.calculateViewportBoundingBox v map_rect pixel_border).intersects s.rect = true →
      (s.drawing_dirty_rect_old.isValid = true →
        (s.setDrawingBoundingBox v map_rect pixel_border do_update).updates
          = s.updates ++ [UpdateRequest.rect (boundingUnion s.drawing_dirty_rect_old
              (s.calculateViewportBoundingBox v map_rect pixel_border))]) ∧
      (s.drawing_dirty_rect_old.isValid = false →
        (s.setDrawingBoundingBox v map_rect pixel_border do_update).updates
          = s.updates ++
            [UpdateRequest.rect (s.calculateViewportBoundingBox v map_rect pixel_border)]) ∧
      (s.activity_dirty_rect_old.isValid = true →
        (s.setActivityBoundingBox v map_rect pixel_border do_update).updates
          = s.updates ++ [UpdateRequest.rect (boundingUnion s.activity_dirty_rect_old
              (s.calculateViewportBoundingBox v map_rect pixel_border))]) ∧
      (s.activity_dirty_rect_old.isValid = false →
        (s.setActivityBoundingBox v map_rect pixel_border do_update).updates
          = s.updates ++
            [UpdateRequest.rect (s.calculateViewportBoundingBox v map_rect pixel_border)])) ∧
    (do_update = true →
      (s.calculateViewportBoundingBox v map_rect pixel_border).intersects s.rect = false →
      (s.setDrawingBoundingBox v map_rect pixel_border do_update).updates
        = s.updates ++
          (if s.drawing_dirty_rect_old.isValid && s.drawing_dirty_rect_old.intersects s.rect
           then [UpdateRequest.rect s.drawing_dirty_rect_old] else []) ∧
      (s.setActivityBoundingBox v map_rect pixel_border do_update).updates
        = s.updates ++
          (if s.activity_dirty_rect_old.isValid && s.activity_dirty_rect_old.intersects s.rect
           then [UpdateRequest.rect s.activity_dirty_rect_old] else [])) := by
  obtain ⟨d1, d2, d3, d4, d5⟩ :=
    setDynamicBoundingBox_cases s v map_rect pixel_border s.drawingBox do_update
  obtain ⟨a1, a2, a3, a4, a5⟩ :=
    setDynamicBoundingBox_cases s v map_rect pixel_border s.activityBox do_update
  have du : (s.setDrawingBoundingBox v map_rect pixel_border do_update).updates
      = s.updates ++ (s.setDynamicBoundingBox v map_rect pixel_border s.drawingBox do_update).2 :=
    rfl
  have au : (s.setActivityBoundingBox v map_rect pixel_border do_update).updates
      = s.updates ++ (s.setDynamicBoundingBox v map_rect pixel_border s.activityBox do_update).2 :=
    rfl
  refine ⟨⟨?_, ?_, ?_, ?_, ?_, ?_⟩, ?_, ?_, ?_⟩
  · show (MapWidget.setDynamicBoundingBox s v map_rect pixel_border s.drawingBox
      do_update).1.dirty_rect_old = _
    rw [d1]; rfl
  · show (MapWidget.setDynamicBoundingBox s v map_rect pixel_border s.drawingBox
      do_update).1.dirty_rect_new = _
    rw [d1]
  · show (MapWidget.setDynamicBoundingBox s v map_rect pixel_border s.drawingBox
      do_update).1.dirty_rect_new_border = _
    rw [d1]
  · show (MapWidget.setDynamicBoundingBox s v map_rect pixel_border s.activityBox
      do_update).1.dirty_rect_old = _
    rw [a1]; rfl
  · show (MapWidget.setDynamicBoundingBox s v map_rect pixel_border s.activityBox
      do_update).1.dirty_rect_new = _
    rw [a1]
  · show (MapWidget.setDynamicBoundingBox s v map_rect pixel_border s.activityBox
      do_update).1.dirty_rect_new_border = _
    rw [a1]
  · intro h
    rw [du, au, d2 h, a2 h, List.append_nil]
    exact ⟨rfl, rfl⟩
  · intro h hi
    refine ⟨?_, ?_, ?_, ?_⟩
    · intro hv; rw [du, d3 h hi hv]; rfl
    · intro hv; rw [du, d4 h hi hv]
    · intro hv; rw [au, a3 h hi hv]; rfl
    · intro hv; rw [au, a4 h hi hv]
  · intro h hi
    rw [du, au, d5 h hi, a5 h hi]
    exact ⟨rfl, rfl⟩


/-- The viewport bounding box of the map rectangle (0, 0, 10, 10) intersects the bounds of the
overlay widget. -/
theorem sample_overlay_box_intersects :
    (overlayWidget.calculateViewportBoundingBox identityView ⟨0, 0, 10, 10⟩ 0).intersects
      overlayWidget.rect = true := by
  have h : overlayWidget.calculateViewportBoundingBox identityView ⟨0, 0, 10, 10⟩ 0
      = ⟨319, 239, 330, 250⟩ := sample_viewport_bounding_box
  rw [h]
  decide

/-- Witness for C14 (amended): a new region inside the widget with a Valid last drawing. -/
theorem setBoundingBox_requests_witness :
    (overlayWidget.calculateViewportBoundingBox identityView ⟨0, 0, 10, 10⟩ 0).intersects
      overlayWidget.rect = true ∧
    overlayWidget.drawing_dirty_rect_old.isValid = true ∧
    (overlayWidget.setDrawingBoundingBox identityView ⟨0, 0, 10, 10⟩ 0 true).updates
      = overlayWidget.updates ++ [UpdateRequest.rect (boundingUnion
          overlayWidget.drawing_dirty_rect_old
          (overlayWidget.calculateViewportBoundingBox identityView ⟨0, 0, 10, 10⟩ 0))] :=
  ⟨sample_overlay_box_intersects, by decide,
   ((setBoundingBox_requests overlayWidget identityView ⟨0, 0, 10, 10⟩ 0 true).2.2.1 rfl
      sample_overlay_box_intersects).1 (by decide)⟩

/-- What `clearDynamicBoundingBox` returns, case by case. -/
theorem clearDynamicBoundingBox_cases (s : MapWidget) (box : DynamicBoundingBox) :
    ((box.dirty_rect_new.isValid = true ∨ 0 ≤ box.dirty_rect_new_border) →
      (s.clearDynamicBoundingBox box).1 = ⟨box.dirty_rect_old, QRectF.null, -1⟩ ∧
      (s.clearDynamicBoundingBox box).2
        = if box.dirty_rect_old.isValid && box.dirty_rect_old.intersects s.rect
          then [UpdateRequest.rect box.dirty_rect_old] else []) ∧
    (¬ (box.dirty_rect_new.isValid = true ∨ 0 ≤ box.dirty_rect_new_border) →
      s.clearDynamicBoundingBox box = (box, [])) := by
  refine ⟨?_, ?_⟩
  · intro h
    have hc : (!box.dirty_rect_new.isValid && decide (box.dirty_rect_new_border < 0)) = false := by
      rcases h with h | h
      · simp [h]
      · simp [not_lt.mpr h]
    simp only [MapWidget.clearDynamicBoundingBox, hc, Bool.false_eq_true, if_false]
    split_ifs <;> exact ⟨rfl, rfl⟩
  · intro h
    have hc : (!box.dirty_rect_new.isValid && decide (box.dirty_rect_new_border < 0)) = true := by
      rw [not_or] at h
      simp only [Bool.and_eq_true, Bool.not_eq_true', decide_eq_true_eq]
      exact ⟨by simpa using h.1, by omega⟩
    simp only [MapWidget.clearDynamicBoundingBox, hc, if_true]

theorem storeDrawingBox_same (s : MapWidget) : s.storeDrawingBox (s.drawingBox, []) = s := by
  cases s
  simp [MapWidget.storeDrawingBox, MapWidget.drawingBox]

theorem storeActivityBox_same (s : MapWidget) : s.storeActivityBox (s.activityBox, []) = s := by
  cases s
  simp [MapWidget.storeActivityBox, MapWidget.activityBox]

/-- C15 as stated fails when the last drawing lies outside the widget: the overlay has a
pending region and the Valid last-drawn rectangle (1000, 1000, 10, 10), and
`clearDrawingBoundingBox` clears the region but requests no repaint. -/
theorem clearDrawingBoundingBox_offscreen_counterexample :
    offscreenOverlayWidget.drawing_dirty_rect_new.isValid = true ∧
    offscreenOverlayWidget.drawing_dirty_rect_old.isValid = true ∧
    offscreenOverlayWidget.updates = [] ∧
    offscreenOverlayWidget.clearDrawingBoundingBox.updates = [] ∧
    offscreenOverlayWidget.clearDrawingBoundingBox.updates
      ≠ [UpdateRequest.rect offscreenOverlayWidget.drawing_dirty_rect_old] := by
  have hv : offscreenOverlayWidget.drawing_dirty_rect_new.isValid = true := by
    simp [offscreenOverlayWidget, QRectF.isValid]
  have hu : offscreenOverlayWidget.clearDrawingBoundingBox.updates = [] := by
    have h := (clearDynamicBoundingBox_cases offscreenOverlayWidget
      offscreenOverlayWidget.drawingBox).1 (Or.inl hv)
    show offscreenOverlayWidget.updates ++ (MapWidget.clearDynamicBoundingBox
      offscreenOverlayWidget offscreenOverlayWidget.drawingBox).2 = _
    rw [h.2]
    decide
  refine ⟨hv, by decide, rfl, hu, ?_⟩
  rw [hu]
  decide

/-- C15 (amended): on an overlay with a pending region (the pending rectangle Valid or the
border not negative) `clearDrawingBoundingBox` and `clearActivityBoundingBox` clear the
pending region (rectangle `QRectF()`, border -1), keep the last-drawn rectangle, and request a
repaint of exactly the last-drawn rectangle when it is Valid and intersects the widget bounds,
and nothing otherwise; with no region pending they change nothing and request nothing. -/
theorem clearBoundingBox_requests (s : MapWidget) :
    ((s.drawing_dirty_rect_new.isValid = true ∨ 0 ≤ s.drawing_dirty_rect_new_border) →
      s.clearDrawingBoundingBox.drawing_dirty_rect_new = QRectF.null ∧
      s.clearDrawingBoundingBox.drawing_dirty_rect_new.isValid = false ∧
      s.clearDrawingBoundingBox.drawing_dirty_rect_new_border = -1 ∧
      s.clearDrawingBoundingBox.drawing_dirty_rect_old = s.drawing_dirty_rect_old ∧
      (s.drawing_dirty_rect_old.isValid = true →
        s.drawing_dirty_rect_old.intersects s.rect = true →
        s.clearDrawingBoundingBox.updates
          = s.updates ++ [UpdateRequest.rect s.drawing_dirty_rect_old]) ∧
      ((s.drawing_dirty_rect_old.isValid && s.drawing_dirty_rect_old.intersects s.rect)
          = false →
        s.clearDrawingBoundingBox.updates = s.updates)) ∧
    (¬ (s.drawing_dirty_rect_new.isValid = true ∨ 0 ≤ s.drawing_dirty_rect_new_border) →
      s.clearDrawingBoundingBox = s) ∧
    ((s.activity_dirty_rect_new.isValid = true ∨ 0 ≤ s.activity_dirty_rect_new_border) →
      s.clearActivityBoundingBox.activity_dirty_rect_new = QRectF.null ∧
      s.clearActivityBoundingBox.activity_dirty_rect_new.isValid = false ∧
      s.clearActivityBoundingBox.activity_dirty_rect_new_border = -1 ∧
      s.clearActivityBoundingBox.activity_dirty_rect_old = s.activity_dirty_rect_old ∧
      (s.activity_dirty_rect_old.isValid = true →
        s.activity_dirty_rect_old.intersects s.rect = true →
        s.clearActivityBoundingBox.updates
          = s.updates ++ [UpdateRequest.rect s.activity_dirty_rect_old]) ∧
      ((s.activity_dirty_rect_old.isValid && s.activity_dirty_rect_old.intersects s.rect)
          = false →
        s.clearActivityBoundingBox.updates = s.updates)) ∧
    (¬ (s.activity_dirty_rect_new.isValid = true ∨ 0 ≤ s.activity_dirty_rect_new_border) →
      s.clearActivityBoundingBox = s) := by
  obtain ⟨d1, d2⟩ := clearDynamicBoundingBox_cases s s.drawingBox
  obtain ⟨a1, a2⟩ := clearDynamicBoundingBox_cases s s.activityBox
  have hnull : QRectF.null.isValid = false := by simp [QRectF.null, QRectF.isValid]
  refine ⟨?_, ?_, ?_, ?_⟩
  · intro h
    obtain ⟨e1, e2⟩ := d1 h
    have du : s.clearDrawingBoundingBox.updates
        = s.updates ++ (s.clearDynamicBoundingBox s.drawingBox).2 := rfl
    have f1 : s.clearDrawingBoundingBox.drawing_dirty_rect_new = QRectF.null := by
      show (MapWidget.clearDynamicBoundingBox s s.drawingBox).1.dirty_rect_new = _
      rw [e1]
    refine ⟨f1, by rw [f1]; exact hnull, ?_, ?_, ?_, ?_⟩
    · show (MapWidget.clearDynamicBoundingBox s s.drawingBox).1.dirty_rect_new_border = _
      rw [e1]
    · show (MapWidget.clearDynamicBoundingBox s s.drawingBox).1.dirty_rect_old = _
      rw [e1]; rfl
    · intro hv hi
      rw [du, e2]
      simp [MapWidget.drawingBox, hv, hi]
    · intro hn
      rw [du, e2]
      simp [MapWidget.drawingBox, hn]
  · intro h
    show s.storeDrawingBox (s.clearDynamicBoundingBox s.drawingBox) = s
    rw [d2 h]
    exact storeDrawingBox_same s
  · intro h
    obtain ⟨e1, e2⟩ := a1 h
    have au : s.clearActivityBoundingBox.updates
        = s.updates ++ (s.clearDynamicBoundingBox s.activityBox).2 := rfl
    have f1 : s.clearActivityBoundingBox.activity_dirty_rect_new = QRectF.null := by
      show (MapWidget.clearDynamicBoundingBox s s.activityBox).1.dirty_rect_new = _
      rw [e1]
    refine ⟨f1, by rw [f1]; exact hnull, ?_, ?_, ?_, ?_⟩
    · show (MapWidget.clearDynamicBoundingBox s s.activityBox).1.dirty_rect_new_border = _
      rw [e1]
    · show (MapWidget.clearDynamicBoundingBox s s.activityBox).1.dirty_rect_old = _
      rw [e1]; rfl
    · intro hv hi
      rw [au, e2]
      simp [MapWidget.activityBox, hv, hi]
    · intro hn
      rw [au, e2]
      simp [MapWidget.activityBox, hn]
  · intro h
    show s.storeActivityBox (s.clearDynamicBoundingBox s.activityBox) = s
    rw [a2 h]
    exact storeActivityBox_same s


/-- Witness for C15 (amended): the pending overlay last drawn inside the widget. -/
theorem clearBoundingBox_requests_witness :
    (pendingOverlayWidget.drawing_dirty_rect_new.isValid = true ∨
      0 ≤ pendingOverlayWidget.drawing_dirty_rect_new_border) ∧
    pendingOverlayWidget.drawing_dirty_rect_old.isValid = true ∧
    pendingOverlayWidget.drawing_dirty_rect_old.intersects pendingOverlayWidget.rect = true ∧
    pendingOverlayWidget.clearDrawingBoundingBox.updates
      = pendingOverlayWidget.updates
        ++ [UpdateRequest.rect pendingOverlayWidget.drawing_dirty_rect_old] :=
  ⟨Or.inr (by decide), by decide, by decide,
   ((clearBoundingBox_requests pendingOverlayWidget).1 (Or.inr (by decide))).2.2.2.2.1
     (by decide) (by decide)⟩


/-! ## Painting the widget -/

theorem calculateViewportBoundingBox_congr (s t : MapWidget) (v : MapView) (map_rect : QRectF)
    (pixel_border : ℤ) (hw : t.width = s.width) (hh : t.height = s.height)
    (hd : t.drag_offset = s.drag_offset) :
    t.calculateViewportBoundingBox v map_rect pixel_border
      = s.calculateViewportBoundingBox v map_rect pixel_border := by
  simp only [MapWidget.calculateViewportBoundingBox, MapWidget.viewToViewportRect, hw, hh, hd]

/-- The contents block of `paintEvent` touches nothing outside the caches. -/
theorem paintContents_outside (s : MapWidget) (v : MapView) (clip : QRect) :
    sameOutsideCaches s (s.paintContents v clip).1 := by
  unfold MapWidget.paintContents
  split
  · exact sameOutsideCaches_refl s
  · exact updateAllDirtyCaches_outside s v

theorem paintActivityOverlay_frame (s : MapWidget) (c : Collaborators) (v : MapView)
    (event : QPaintEvent) (t : MapWidget) (o : List WidgetPaintOp)
    (h : s.paintActivityOverlay c v event = some (t, o)) :
    sameCaches s t ∧ t.width = s.width ∧ t.height = s.height ∧ t.drag_offset = s.drag_offset ∧
    t.drawing_dirty_rect_new = s.drawing_dirty_rect_new ∧
    t.drawing_dirty_rect_new_border = s.drawing_dirty_rect_new_border ∧
    (∀ op ∈ o, op.isOverlayDrawing) := by
  unfold MapWidget.paintActivityOverlay at h
  cases hp : (s.activity_dirty_rect_new.isValid
    || decide (s.activity_dirty_rect_new_border ≥ 0))
  · simp only [hp, Bool.false_eq_true, if_false, Option.some.injEq, Prod.mk.injEq] at h
    obtain ⟨rfl, rfl⟩ := h
    exact ⟨⟨rfl, rfl, rfl, rfl, rfl, rfl⟩, rfl, rfl, rfl, rfl, rfl, by simp⟩
  · cases hi : (s.calculateViewportBoundingBox v s.activity_dirty_rect_new
      s.activity_dirty_rect_new_border).intersects event.rect
    · simp only [hp, hi, Bool.false_eq_true, if_true, if_false, Option.some.injEq,
        Prod.mk.injEq] at h
      obtain ⟨rfl, rfl⟩ := h
      exact ⟨⟨rfl, rfl, rfl, rfl, rfl, rfl⟩, rfl, rfl, rfl, rfl, rfl, by simp⟩
    · cases ha : c.activity
      · simp [hp, hi, ha] at h
      · simp only [hp, hi, ha, if_true, Option.some.injEq, Prod.mk.injEq] at h
        obtain ⟨rfl, rfl⟩ := h
        refine ⟨⟨rfl, rfl, rfl, rfl, rfl, rfl⟩, rfl, rfl, rfl, rfl, rfl, ?_⟩
        intro op hop
        rw [List.mem_singleton] at hop
        subst hop
        trivial

theorem paintDrawingOverlay_frame (s : MapWidget) (c : Collaborators) (v : MapView)
    (event : QPaintEvent) (t : MapWidget) (o : List WidgetPaintOp)
    (h : s.paintDrawingOverlay c v event = some (t, o)) :
    sameCaches s t ∧ (∀ op ∈ o, op.isOverlayDrawing) := by
  unfold MapWidget.paintDrawingOverlay at h
  cases hp : (s.drawing_dirty_rect_new.isValid
    || decide (s.drawing_dirty_rect_new_border ≥ 0))
  · simp only [hp, Bool.false_eq_true, if_false, Option.some.injEq, Prod.mk.injEq] at h
    obtain ⟨rfl, rfl⟩ := h
    exact ⟨⟨rfl, rfl, rfl, rfl, rfl, rfl⟩, by simp⟩
  · cases hi : (s.calculateViewportBoundingBox v s.drawing_dirty_rect_new
      s.drawing_dirty_rect_new_border).intersects event.rect
    · simp only [hp, hi, Bool.false_eq_true, if_true, if_false, Option.some.injEq,
        Prod.mk.injEq] at h
      obtain ⟨rfl, rfl⟩ := h
      exact ⟨⟨rfl, rfl, rfl, rfl, rfl, rfl⟩, by simp⟩
    · cases ht : c.tool.isSome
      · simp [hp, hi, ht] at h
      · simp only [hp, hi, ht, if_true, Option.some.injEq, Prod.mk.injEq] at h
        obtain ⟨rfl, rfl⟩ := h
        refine ⟨⟨rfl, rfl, rfl, rfl, rfl, rfl⟩, ?_⟩
        intro op hop
        rw [List.mem_singleton] at hop
        subst hop
        trivial

theorem sameCaches_trans {s t u : MapWidget} (h1 : sameCaches s t) (h2 : sameCaches t u) :
    sameCaches s u := by
  unfold sameCaches at h1 h2 ⊢
  refine ⟨?_, ?_, ?_, ?_, ?_, ?_⟩
  · rw [h2.1, h1.1]
  · rw [h2.2.1, h1.2.1]
  · rw [h2.2.2.1, h1.2.2.1]
  · rw [h2.2.2.2.1, h1.2.2.2.1]
  · rw [h2.2.2.2.2.1, h1.2.2.2.2.1]
  · rw [h2.2.2.2.2.2, h1.2.2.2.2.2]

/-- The two overlay blocks leave the caches alone and paint only overlay drawings. -/
theorem paintOverlays_frame (s : MapWidget) (c : Collaborators) (v : MapView)
    (event : QPaintEvent) (t : MapWidget) (o : List WidgetPaintOp)
    (h : s.paintOverlays c v event = some (t, o)) :
    sameCaches s t ∧ (∀ op ∈ o, op.isOverlayDrawing) := by
  unfold MapWidget.paintOverlays at h
  cases ha : s.paintActivityOverlay c v event with
  | none => rw [ha] at h; exact absurd h (by simp)
  | some r1 =>
    obtain ⟨s1, o1⟩ := r1
    rw [ha] at h
    dsimp only at h
    cases hd : s1.paintDrawingOverlay c v event with
    | none => rw [hd] at h; exact absurd h (by simp)
    | some r2 =>
      obtain ⟨s2, o2⟩ := r2
      rw [hd] at h
      simp only [Option.some.injEq, Prod.mk.injEq] at h
      obtain ⟨rfl, rfl⟩ := h
      obtain ⟨f1, -, -, -, -, -, f7⟩ := paintActivityOverlay_frame s c v event s1 o1 ha
      obtain ⟨g1, g2⟩ := paintDrawingOverlay_frame s1 c v event s2 o2 hd
      refine ⟨sameCaches_trans f1 g1, ?_⟩
      intro op hop
      rcases List.mem_append.mp hop with h' | h'
      · exact f7 op h'
      · exact g2 op h'

/-- Without a pending overlay region the overlay blocks do nothing. -/
theorem paintOverlays_idle (s : MapWidget) (c : Collaborators) (v : MapView)
    (event : QPaintEvent)
    (ha : ¬ overlayPending s.activity_dirty_rect_new s.activity_dirty_rect_new_border)
    (hd : ¬ overlayPending s.drawing_dirty_rect_new s.drawing_dirty_rect_new_border) :
    s.paintOverlays c v event = some (s, []) := by
  simp only [overlayPending, not_or, Bool.not_eq_true, not_le] at ha hd
  have h1 : (s.activity_dirty_rect_new.isValid
      || decide (s.activity_dirty_rect_new_border ≥ 0)) = false := by
    simp [ha.1, ha.2]
  have h2 : (s.drawing_dirty_rect_new.isValid
      || decide (s.drawing_dirty_rect_new_border ≥ 0)) = false := by
    simp [hd.1, hd.2]
  simp [MapWidget.paintOverlays, MapWidget.paintActivityOverlay, MapWidget.paintDrawingOverlay,
    h1, h2]

/-- With an activity and a tool set, the overlay blocks complete. -/
theorem paintOverlays_isSome (s : MapWidget) (c : Collaborators) (v : MapView)
    (event : QPaintEvent) (ha : c.activity = true) (ht : c.tool.isSome = true) :
    ∃ t o, s.paintOverlays c v event = some (t, o) := by
  have h1 : ∃ t o, s.paintActivityOverlay c v event = some (t, o) := by
    unfold MapWidget.paintActivityOverlay
    cases hp : (s.activity_dirty_rect_new.isValid
      || decide (s.activity_dirty_rect_new_border ≥ 0))
    · exact ⟨_, _, by simp only [Bool.false_eq_true, if_false]; rfl⟩
    · cases hi : (s.calculateViewportBoundingBox v s.activity_dirty_rect_new
        s.activity_dirty_rect_new_border).intersects event.rect
      · exact ⟨_, _, by simp only [hi, ha, Bool.false_eq_true, if_true, if_false]; rfl⟩
      · exact ⟨_, _, by simp only [hi, ha, if_true]; rfl⟩
  obtain ⟨t1, o1, e1⟩ := h1
  have h2 : ∃ t o, t1.paintDrawingOverlay c v event = some (t, o) := by
    unfold MapWidget.paintDrawingOverlay
    cases hp : (t1.drawing_dirty_rect_new.isValid
      || decide (t1.drawing_dirty_rect_new_border ≥ 0))
    · exact ⟨_, _, by simp only [Bool.false_eq_true, if_false]; rfl⟩
    · cases hi : (t1.calculateViewportBoundingBox v t1.drawing_dirty_rect_new
        t1.drawing_dirty_rect_new_border).intersects event.rect
      · exact ⟨_, _, by simp only [hi, ht, Bool.false_eq_true, if_true, if_false]; rfl⟩
      · exact ⟨_, _, by simp only [hi, ht, if_true]; rfl⟩
  obtain ⟨t2, o2, e2⟩ := h2
  exact ⟨t2, o1 ++ o2, by simp only [MapWidget.paintOverlays, e1, e2]⟩

/-- The shape of every completed paint: background, contents, overlays, fresh overlays. -/
theorem paintEvent_some (s : MapWidget) (c : Collaborators) (v : MapView) (event : QPaintEvent)
    (t : MapWidget) (ops : List WidgetPaintOp) (h : s.paintEvent c v event = some (t, ops)) :
    ∃ o, (s.paintContents v event.rect).1.paintOverlays c v event = some (t, o) ∧
      ops = s.paintBackground event.rect ++ (s.paintContents v event.rect).2 ++ o
        ++ paintFreshOverlays c event.rect := by
  unfold MapWidget.paintEvent at h
  dsimp only at h
  cases ho : (s.paintContents v event.rect).1.paintOverlays c v event with
  | none => rw [ho] at h; exact absurd h (by simp)
  | some r =>
    obtain ⟨u, o⟩ := r
    rw [ho] at h
    simp only [Option.some.injEq, Prod.mk.injEq] at h
    obtain ⟨rfl, rfl⟩ := h
    exact ⟨o, rfl, rfl⟩

theorem paintEvent_of_overlays (s : MapWidget) (c : Collaborators) (v : MapView)
    (event : QPaintEvent) (t : MapWidget) (o : List WidgetPaintOp)
    (h : (s.paintContents v event.rect).1.paintOverlays c v event = some (t, o)) :
    s.paintEvent c v event
      = some (t, s.paintBackground event.rect ++ (s.paintContents v event.rect).2 ++ o
          ++ paintFreshOverlays c event.rect) := by
  simp only [MapWidget.paintEvent, h]

/-- C20: the background rectangles filled at the start of `paintEvent` hold every widget pixel
that the content drawn at the drag offset (dx, dy), the rectangle [dx, dx+width) x
[dy, dy+height), does not hold; with drag offset (0, 0) there is no such rectangle; and every
paint starts with the fills of exactly these rectangles, a paint with activity and tool set
always completing. -/
theorem paintEvent_background_covers (s : MapWidget) (c : Collaborators) (v : MapView)
    (event : QPaintEvent) :
    (∀ a b, s.rect.containsPixel a b →
      ¬ (QRect.mk4 s.drag_offset.x s.drag_offset.y s.width s.height).containsPixel a b →
      ∃ r ∈ s.backgroundRects, r.containsPixel a b) ∧
    (s.drag_offset = ⟨0, 0⟩ → s.backgroundRects = []) ∧
    (∀ t ops, s.paintEvent c v event = some (t, ops) →
      ∃ rest, ops = s.backgroundRects.map (WidgetPaintOp.fillGray event.rect) ++ rest) ∧
    (c.activity = true → c.tool.isSome = true → ∃ t ops, s.paintEvent c v event = some (t, ops)) := by
  refine ⟨?_, ?_, ?_, ?_⟩
  · intro a b hin hout
    simp only [MapWidget.rect, QRect.mk4, QRect.containsPixel] at hin hout
    simp only [MapWidget.backgroundRects, List.mem_append]
    by_cases hy1 : b < s.drag_offset.y
    · refine ⟨QRect.mk4 0 0 s.width s.drag_offset.y, Or.inr ?_, ?_⟩
      · have : s.drag_offset.y > 0 := by omega
        simp [this]
      · simp only [QRect.mk4, QRect.containsPixel]; omega
    · by_cases hy2 : b - s.drag_offset.y ≥ s.height
      · refine ⟨QRect.mk4 0 (s.height + s.drag_offset.y) s.width (-s.drag_offset.y),
          Or.inr ?_, ?_⟩
        · have h1 : ¬ s.drag_offset.y > 0 := by omega
          have h2 : s.drag_offset.y < 0 := by omega
          simp [h1, h2]
        · simp only [QRect.mk4, QRect.containsPixel]; omega
      · by_cases hx1 : a < s.drag_offset.x
        · refine ⟨QRect.mk4 0 s.drag_offset.y s.drag_offset.x (s.height - s.drag_offset.y),
            Or.inl ?_, ?_⟩
          · have : s.drag_offset.x > 0 := by omega
            simp [this]
          · simp only [QRect.mk4, QRect.containsPixel]; omega
        · refine ⟨QRect.mk4 (s.width + s.drag_offset.x) s.drag_offset.y (-s.drag_offset.x)
            (s.height - s.drag_offset.y), Or.inl ?_, ?_⟩
          · have h1 : ¬ s.drag_offset.x > 0 := by omega
            have h2 : s.drag_offset.x < 0 := by omega
            simp [h1, h2]
          · simp only [QRect.mk4, QRect.containsPixel]; omega
  · intro h
    simp [MapWidget.backgroundRects, h]
  · intro t ops h
    obtain ⟨o, -, rfl⟩ := paintEvent_some s c v event t ops h
    exact ⟨(s.paintContents v event.rect).2 ++ o ++ paintFreshOverlays c event.rect, by
      simp only [MapWidget.paintBackground, List.append_assoc]⟩
  · intro ha ht
    obtain ⟨t, o, ho⟩ := paintOverlays_isSome (s.paintContents v event.rect).1 c v event ha ht
    exact ⟨t, _, paintEvent_of_overlays s c v event t o ho⟩


/-- Witness for C20: the widget dragged by (10, 0) and its pixel (5, 5). -/
theorem paintEvent_background_covers_witness :
    draggedWidget.rect.containsPixel 5 5 ∧
    ¬ (QRect.mk4 draggedWidget.drag_offset.x draggedWidget.drag_offset.y draggedWidget.width
        draggedWidget.height).containsPixel 5 5 ∧
    ∃ r ∈ draggedWidget.backgroundRects, r.containsPixel 5 5 :=
  ⟨by decide, by decide,
   (paintEvent_background_covers draggedWidget noCollaborators identityView fullPaintEvent).1
     5 5 (by decide) (by decide)⟩

theorem overlayPending_null : ¬ overlayPending QRectF.null (-1) := by
  simp [overlayPending, QRectF.null, QRectF.isValid]

/-- A paint without a pending overlay region completes, leaves the state as the contents block
left it and paints background, contents and fresh overlays. -/
theorem paintEvent_idle (s : MapWidget) (c : Collaborators) (v : MapView) (event : QPaintEvent)
    (ha : ¬ overlayPending s.activity_dirty_rect_new s.activity_dirty_rect_new_border)
    (hd : ¬ overlayPending s.drawing_dirty_rect_new s.drawing_dirty_rect_new_border) :
    s.paintEvent c v event
      = some ((s.paintContents v event.rect).1,
          s.paintBackground event.rect ++ (s.paintContents v event.rect).2
            ++ paintFreshOverlays c event.rect) := by
  obtain ⟨-, -, -, -, o5, o6, -, o8, o9, -⟩ := paintContents_outside s v event.rect
  have h := paintOverlays_idle (s.paintContents v event.rect).1 c v event
    (by rw [o8, o9]; exact ha) (by rw [o5, o6]; exact hd)
  rw [paintEvent_of_overlays s c v event _ _ h, List.append_nil]

theorem paintContents_help (s : MapWidget) (v : MapView) (clip : QRect)
    (hh : s.show_help = true) (ho : v.getNumObjects = 0) (ht : v.getNumTemplates = 0)
    (hg : v.isGridVisible = false) :
    s.paintContents v clip = (s, s.showHelpMessage clip (helpText v)) := by
  simp [MapWidget.paintContents, noContents, hh, ho, ht, hg]

theorem paintBackground_not_cache (s : MapWidget) (clip : QRect) :
    ∀ op ∈ s.paintBackground clip, ¬ op.isCacheDrawing ∧ ∀ l, ¬ op.drawsLayer l := by
  intro op hop
  simp only [MapWidget.paintBackground, List.mem_map] at hop
  obtain ⟨r, -, rfl⟩ := hop
  exact ⟨fun h => h, fun _ h => h⟩

theorem paintFreshOverlays_not_cache (c : Collaborators) (clip : QRect) :
    ∀ op ∈ paintFreshOverlays c clip, ¬ op.isCacheDrawing ∧ ∀ l, ¬ op.drawsLayer l := by
  intro op hop
  simp only [paintFreshOverlays, List.mem_append] at hop
  rcases hop with ((hop | hop) | hop) | hop <;> split_ifs at hop <;>
    simp only [List.mem_singleton, List.not_mem_nil] at hop <;> subst hop <;>
    exact ⟨fun h => h, fun _ h => h⟩

theorem overlayDrawing_not_cache (op : WidgetPaintOp) (h : op.isOverlayDrawing) :
    ¬ op.isCacheDrawing ∧ ∀ l, ¬ op.drawsLayer l := by
  cases op <;> first | exact absurd h (fun h => h) | exact ⟨fun h => h, fun _ h => h⟩

/-- C16 as stated fails: on the help widget over the empty map, with a compass display
attached, the paint draws the compass after the help message. -/
theorem paintEvent_help_compass_counterexample :
    helpWidget.show_help = true ∧ identityView.getNumObjects = 0 ∧
    identityView.getNumTemplates = 0 ∧ identityView.isGridVisible = false ∧
    helpWidget.paintEvent compassOnly identityView fullPaintEvent
      = some (helpWidget,
          [WidgetPaintOp.fillGray (QRect.mk4 0 0 640 480) (QRect.mk4 0 0 640 480),
           WidgetPaintOp.drawText (QRect.mk4 0 0 640 480) (QRect.mk4 0 0 640 480)
             HelpText.emptyMap,
           WidgetPaintOp.compassPaint (QRect.mk4 0 0 640 480)]) := by
  refine ⟨rfl, rfl, rfl, rfl, ?_⟩
  rw [paintEvent_idle helpWidget compassOnly identityView fullPaintEvent overlayPending_null
    overlayPending_null, paintContents_help helpWidget identityView _ rfl rfl rfl rfl]
  rfl

/-- C16 (amended): with the help flag set and a map without objects, templates and grid,
`paintEvent` redraws no cache (buffers and dirty rectangles stay as they are) and draws no
cache layer; what it paints is the drag background, the help message, then the drawings of the
overlays that have a pending region, then the fresh overlays (temporary markers, GPS display,
touch cursor, compass) whose collaborator is attached. Without a pending overlay region the
paint completes with the state unchanged. -/
theorem paintEvent_help_message (s : MapWidget) (c : Collaborators) (v : MapView)
    (event : QPaintEvent) (hh : s.show_help = true) (ho : v.getNumObjects = 0)
    (ht : v.getNumTemplates = 0) (hg : v.isGridVisible = false) :
    (∀ t ops, s.paintEvent c v event = some (t, ops) →
      sameCaches s t ∧ (∀ op ∈ ops, ¬ op.isCacheDrawing) ∧
      ∃ overlays, (∀ op ∈ overlays, op.isOverlayDrawing) ∧
        ops = s.paintBackground event.rect ++ s.showHelpMessage event.rect (helpText v)
          ++ overlays ++ paintFreshOverlays c event.rect) ∧
    (¬ overlayPending s.activity_dirty_rect_new s.activity_dirty_rect_new_border →
      ¬ overlayPending s.drawing_dirty_rect_new s.drawing_dirty_rect_new_border →
      s.paintEvent c v event
        = some (s, s.paintBackground event.rect ++ s.showHelpMessage event.rect (helpText v)
            ++ paintFreshOverlays c event.rect)) ∧
    (c.activity = true → c.tool.isSome = true →
      ∃ t ops, s.paintEvent c v event = some (t, ops)) := by
  have hc := paintContents_help s v event.rect hh ho ht hg
  refine ⟨?_, ?_, ?_⟩
  · intro t ops h
    obtain ⟨o, h1, rfl⟩ := paintEvent_some s c v event t ops h
    rw [hc] at h1 ⊢
    obtain ⟨f1, f2⟩ := paintOverlays_frame s c v event t o h1
    refine ⟨f1, ?_, o, f2, rfl⟩
    intro op hop
    simp only [List.mem_append] at hop
    rcases hop with ((hop | hop) | hop) | hop
    · exact (paintBackground_not_cache s event.rect op hop).1
    · simp only [MapWidget.showHelpMessage, List.mem_cons, List.mem_singleton,
        List.not_mem_nil, or_false] at hop
      rcases hop with rfl | rfl <;> exact fun h => h
    · exact (overlayDrawing_not_cache op (f2 op hop)).1
    · exact (paintFreshOverlays_not_cache c event.rect op hop).1
  · intro ha hd
    rw [paintEvent_idle s c v event ha hd, hc]
  · intro ha ht'
    obtain ⟨t, o, ho'⟩ := paintOverlays_isSome (s.paintContents v event.rect).1 c v event ha ht'
    exact ⟨t, _, paintEvent_of_overlays s c v event t o ho'⟩

/-- Witness for C16 (amended): the help widget over the empty map with the compass attached. -/
theorem paintEvent_help_message_witness :
    helpWidget.show_help = true ∧ identityView.getNumObjects = 0 ∧
    identityView.getNumTemplates = 0 ∧ identityView.isGridVisible = false ∧
    helpWidget.paintEvent compassOnly identityView fullPaintEvent
      = some (helpWidget, helpWidget.paintBackground fullPaintEvent.rect
          ++ helpWidget.showHelpMessage fullPaintEvent.rect (helpText identityView)
          ++ paintFreshOverlays compassOnly fullPaintEvent.rect) :=
  ⟨rfl, rfl, rfl, rfl,
   (paintEvent_help_message helpWidget compassOnly identityView fullPaintEvent rfl rfl rfl
      rfl).2.1 overlayPending_null overlayPending_null⟩


/-! ## Cache layers during a paint -/

theorem paintContents_caches (s : MapWidget) (v : MapView) (clip : QRect)
    (hb : (s.show_help && noContents v) = false) :
    s.paintContents v clip
      = (s.updateAllDirtyCaches v, (s.updateAllDirtyCaches v).compositeCaches v clip) := by
  simp only [MapWidget.paintContents, hb, Bool.false_eq_true, if_false]

theorem updateAllDirtyCaches_below_hidden (s : MapWidget) (v : MapView)
    (h : v.isBelowTemplateVisible = false) :
    (s.updateAllDirtyCaches v).below_template_cache = s.below_template_cache ∧
    (s.updateAllDirtyCaches v).below_template_cache_dirty_rect
      = s.below_template_cache_dirty_rect := by
  have hs : s.updateBelowIfDirty v = s := by simp [MapWidget.updateBelowIfDirty, h]
  obtain ⟨-, a2, a3, -⟩ := updateAboveIfDirty_frame (s.updateBelowIfDirty v) v
  obtain ⟨-, m2, m3, -⟩ :=
    updateMapIfDirty_frame ((s.updateBelowIfDirty v).updateAboveIfDirty v) v
  unfold MapWidget.updateAllDirtyCaches
  exact ⟨by rw [m2, a2, hs], by rw [m3, a3, hs]⟩

theorem updateAllDirtyCaches_above_hidden (s : MapWidget) (v : MapView)
    (h : v.isAboveTemplateVisible = false) :
    (s.updateAllDirtyCaches v).above_template_cache = s.above_template_cache ∧
    (s.updateAllDirtyCaches v).above_template_cache_dirty_rect
      = s.above_template_cache_dirty_rect := by
  have hs : (s.updateBelowIfDirty v).updateAboveIfDirty v = s.updateBelowIfDirty v := by
    simp [MapWidget.updateAboveIfDirty, h]
  obtain ⟨-, b2, b3, -⟩ := updateBelowIfDirty_frame s v
  obtain ⟨-, -, -, m4, m5, -⟩ :=
    updateMapIfDirty_frame ((s.updateBelowIfDirty v).updateAboveIfDirty v) v
  unfold MapWidget.updateAllDirtyCaches
  exact ⟨by rw [m4, hs, b2], by rw [m5, hs, b3]⟩

theorem updateMapCache_redraws (s : MapWidget) (v : MapView) (bg : Bool) (old : Option QImage) 
    (ho : s.map_cache = old) :
    (s.updateMapCache v bg).map_cache.isSome = true ∧
    (s.updateMapCache v bg).map_cache ≠ old := by
  subst ho
  unfold MapWidget.updateMapCache
  cases hc : s.map_cache with
  | none => exact ⟨rfl, fun h => by cases h⟩
  | some img =>
    refine ⟨rfl, fun h => ?_⟩
    have h1 : (img.ops ++ s.mapPainting v (s.map_cache_dirty_rect.intersected s.rect) bg).length
        = img.ops.length := by
      have h2 := Option.some.inj h
      exact congrArg (fun i : QImage => i.ops.length) h2
    simp [MapWidget.mapPainting] at h1

/-- A Valid map cache dirty rectangle makes `updateAllDirtyCaches` redraw the map cache,
whatever the map visibility is. -/
theorem updateAllDirtyCaches_map_redrawn (s : MapWidget) (v : MapView)
    (h : s.map_cache_dirty_rect.isValid = true) :
    (s.updateAllDirtyCaches v).map_cache.isSome = true ∧
    (s.updateAllDirtyCaches v).map_cache ≠ s.map_cache ∧
    (s.updateAllDirtyCaches v).map_cache_dirty_rect.isValid = false := by
  obtain ⟨-, -, -, b4, b5, -⟩ := updateBelowIfDirty_frame s v
  obtain ⟨-, -, -, a4, a5, -⟩ := updateAboveIfDirty_frame (s.updateBelowIfDirty v) v
  have hd : ((s.updateBelowIfDirty v).updateAboveIfDirty v).map_cache_dirty_rect.isValid
      = true := by rw [a5, b5]; exact h
  have hc : ((s.updateBelowIfDirty v).updateAboveIfDirty v).map_cache = s.map_cache := by
    rw [a4, b4]
  have hu : s.updateAllDirtyCaches v
      = ((s.updateBelowIfDirty v).updateAboveIfDirty v).updateMapCache v false := by
    simp only [MapWidget.updateAllDirtyCaches, MapWidget.updateMapIfDirty, hd, if_true]
  rw [hu]
  obtain ⟨r1, r2⟩ := updateMapCache_redraws _ v false s.map_cache hc
  refine ⟨r1, r2, ?_⟩
  rw [updateMapCache_dirty]
  exact (QRect.setWidth_neg_one _).1

theorem updateTemplateCache_redraws (s : MapWidget) (v : MapView) (cache : Option QImage)
    (dirty_rect : QRect) (first last : ℤ) (bg : Bool) :
    (s.updateTemplateCache v cache dirty_rect first last bg).1.isSome = true ∧
    (s.updateTemplateCache v cache dirty_rect first last bg).1 ≠ cache := by
  unfold MapWidget.updateTemplateCache
  cases cache with
  | none => exact ⟨rfl, fun h => by cases h⟩
  | some img =>
    refine ⟨rfl, fun h => ?_⟩
    have h1 : (img.ops ++ s.templatePainting v (dirty_rect.intersected s.rect) first last
        bg).length = img.ops.length := by
      have h2 := Option.some.inj h
      exact congrArg (fun i : QImage => i.ops.length) h2
    simp [MapWidget.templatePainting] at h1

/-- A visible below-template layer with a Valid dirty rectangle is redrawn by
`updateAllDirtyCaches`, whether or not the view hides all templates. -/
theorem updateAllDirtyCaches_below_redrawn (s : MapWidget) (v : MapView)
    (hv : v.isBelowTemplateVisible = true)
    (hd : s.below_template_cache_dirty_rect.isValid = true) :
    (s.updateAllDirtyCaches v).below_template_cache.isSome = true ∧
    (s.updateAllDirtyCaches v).below_template_cache ≠ s.below_template_cache ∧
    (s.updateAllDirtyCaches v).below_template_cache_dirty_rect.isValid = false := by
  obtain ⟨-, a2, a3, -⟩ := updateAboveIfDirty_frame (s.updateBelowIfDirty v) v
  obtain ⟨-, m2, m3, -⟩ :=
    updateMapIfDirty_frame ((s.updateBelowIfDirty v).updateAboveIfDirty v) v
  have e1 : (s.updateBelowIfDirty v).below_template_cache
      = (s.updateTemplateCache v s.below_template_cache s.below_template_cache_dirty_rect 0
          (v.getFirstFrontTemplate - 1) true).1 := by
    simp only [MapWidget.updateBelowIfDirty, hv, hd, Bool.and_self, if_true]
  have e2 : (s.updateBelowIfDirty v).below_template_cache_dirty_rect
      = (s.updateTemplateCache v s.below_template_cache s.below_template_cache_dirty_rect 0
          (v.getFirstFrontTemplate - 1) true).2 := by
    simp only [MapWidget.updateBelowIfDirty, hv, hd, Bool.and_self, if_true]
  obtain ⟨r1, r2⟩ := updateTemplateCache_redraws s v s.below_template_cache
    s.below_template_cache_dirty_rect 0 (v.getFirstFrontTemplate - 1) true
  unfold MapWidget.updateAllDirtyCaches
  dsimp only
  rw [m2, m3, a2, a3, e1, e2]
  refine ⟨r1, r2, ?_⟩
  rw [updateTemplateCache_dirty]
  exact (QRect.setWidth_neg_one _).1

/-- The same for the above-template layer. -/
theorem updateAllDirtyCaches_above_redrawn (s : MapWidget) (v : MapView)
    (hv : v.isAboveTemplateVisible = true)
    (hd : s.above_template_cache_dirty_rect.isValid = true) :
    (s.updateAllDirtyCaches v).above_template_cache.isSome = true ∧
    (s.updateAllDirtyCaches v).above_template_cache ≠ s.above_template_cache ∧
    (s.updateAllDirtyCaches v).above_template_cache_dirty_rect.isValid = false := by
  obtain ⟨b1, b2, b3, -⟩ := updateBelowIfDirty_frame s v
  obtain ⟨-, -, -, m4, m5, -⟩ :=
    updateMapIfDirty_frame ((s.updateBelowIfDirty v).updateAboveIfDirty v) v
  have hd1 : (s.updateBelowIfDirty v).above_template_cache_dirty_rect.isValid = true := by
    rw [b3]; exact hd
  have e1 : ((s.updateBelowIfDirty v).updateAboveIfDirty v).above_template_cache
      = ((s.updateBelowIfDirty v).updateTemplateCache v
          (s.updateBelowIfDirty v).above_template_cache
          (s.updateBelowIfDirty v).above_template_cache_dirty_rect v.getFirstFrontTemplate
          (v.getNumTemplates - 1) false).1 := by
    simp only [MapWidget.updateAboveIfDirty, hv, hd1, Bool.and_self, if_true]
  have e2 : ((s.updateBelowIfDirty v).updateAboveIfDirty v).above_template_cache_dirty_rect
      = ((s.updateBelowIfDirty v).updateTemplateCache v
          (s.updateBelowIfDirty v).above_template_cache
          (s.updateBelowIfDirty v).above_template_cache_dirty_rect v.getFirstFrontTemplate
          (v.getNumTemplates - 1) false).2 := by
    simp only [MapWidget.updateAboveIfDirty, hv, hd1, Bool.and_self, if_true]
  obtain ⟨r1, r2⟩ := updateTemplateCache_redraws (s.updateBelowIfDirty v) v
    (s.updateBelowIfDirty v).above_template_cache
    (s.updateBelowIfDirty v).above_template_cache_dirty_rect v.getFirstFrontTemplate
    (v.getNumTemplates - 1) false
  unfold MapWidget.updateAllDirtyCaches
  dsimp only
  rw [m4, m5, e1, e2]
  refine ⟨r1, ?_, ?_⟩
  · rw [← b2]; exact r2
  · rw [updateTemplateCache_dirty]
    exact (QRect.setWidth_neg_one _).1

/-- The compositing block draws the below-template layer (or a white fill in its place), then
the map layer, then the above-template layer; a template layer only if its layer is visible and
the view does not hide all templates, the map layer only if the map is visible. -/
theorem compositeCaches_layers (s : MapWidget) (v : MapView) (clip : QRect) :
    ∃ lb lm la, s.compositeCaches v clip = lb ++ lm ++ la ∧
      (∀ op ∈ lb, ∀ l, op.drawsLayer l →
        l = CacheLayer.below ∧ v.isBelowTemplateVisible = true ∧
        v.areAllTemplatesHidden = false) ∧
      (∀ op ∈ lm, op.drawsLayer CacheLayer.map ∧ v.mapVisible = true) ∧
      (∀ op ∈ la, op.drawsLayer CacheLayer.above ∧ v.isAboveTemplateVisible = true ∧
        v.areAllTemplatesHidden = false) := by
  refine ⟨_, _, _, rfl, ?_, ?_, ?_⟩
  · intro op hop l hl
    split_ifs at hop with h1
    · cases hc : s.below_template_cache with
      | none => simp [hc] at hop
      | some img =>
        simp only [hc, List.mem_singleton] at hop
        subst hop
        simp only [Bool.and_eq_true, Bool.not_eq_true'] at h1
        exact ⟨hl.symm, h1.1.1.2, h1.1.1.1⟩
    · simp only [List.mem_singleton] at hop
      subst hop
      exact absurd hl (fun h => h)
  · intro op hop
    by_cases h1 : (s.map_cache.isSome && v.mapVisible) = true
    · rw [if_pos h1] at hop
      cases hc : s.map_cache with
      | none => simp [hc] at hop
      | some img =>
        simp only [hc, List.mem_singleton] at hop
        subst hop
        simp only [Bool.and_eq_true] at h1
        exact ⟨rfl, h1.2⟩
    · rw [if_neg h1] at hop
      exact absurd hop (List.not_mem_nil _)
  · intro op hop
    split_ifs at hop with h1
    · cases hc : s.above_template_cache with
      | none => simp [hc] at hop
      | some img =>
        simp only [hc, List.mem_singleton] at hop
        subst hop
        simp only [Bool.and_eq_true, Bool.not_eq_true'] at h1
        exact ⟨rfl, h1.1.1.2, h1.1.1.1⟩
    · simp at hop

/-- Which layers a completed paint of the caches can draw. -/
theorem paintEvent_layers (s : MapWidget) (c : Collaborators) (v : MapView)
    (event : QPaintEvent) (hb : (s.show_help && noContents v) = false)
    (t : MapWidget) (ops : List WidgetPaintOp) (h : s.paintEvent c v event = some (t, ops)) :
    sameCaches (s.updateAllDirtyCaches v) t ∧
    (∃ lb lm la overlays,
      ops = s.paintBackground event.rect ++ (lb ++ lm ++ la) ++ overlays
        ++ paintFreshOverlays c event.rect ∧
      (s.updateAllDirtyCaches v).compositeCaches v event.rect = lb ++ lm ++ la ∧
      (∀ op ∈ lb, ∀ l, op.drawsLayer l → l = CacheLayer.below) ∧
      (∀ op ∈ lm, op.drawsLayer CacheLayer.map) ∧
      (∀ op ∈ la, op.drawsLayer CacheLayer.above) ∧
      (∀ op ∈ overlays, op.isOverlayDrawing)) ∧
    (∀ op ∈ ops, ∀ l, op.drawsLayer l →
      (l = CacheLayer.below ∧ v.isBelowTemplateVisible = true ∧
        v.areAllTemplatesHidden = false) ∨
      (l = CacheLayer.map ∧ v.mapVisible = true) ∨
      (l = CacheLayer.above ∧ v.isAboveTemplateVisible = true ∧
        v.areAllTemplatesHidden = false)) := by
  obtain ⟨o, h1, rfl⟩ := paintEvent_some s c v event t ops h
  rw [paintContents_caches s v event.rect hb] at h1 ⊢
  obtain ⟨f1, f2⟩ := paintOverlays_frame _ c v event t o h1
  obtain ⟨lb, lm, la, e, plb, plm, pla⟩ :=
    compositeCaches_layers (s.updateAllDirtyCaches v) v event.rect
  refine ⟨f1, ⟨lb, lm, la, o, by rw [e], e, fun op hop l hl => (plb op hop l hl).1,
    fun op hop => (plm op hop).1, fun op hop => (pla op hop).1, f2⟩, ?_⟩
  intro op hop l hl
  dsimp only at hop
  rw [e] at hop
  simp only [List.mem_append] at hop
  rcases hop with ((hop | (hop | hop) | hop) | hop) | hop
  · exact absurd hl ((paintBackground_not_cache s event.rect op hop).2 l)
  · exact Or.inl (plb op hop l hl)
  · obtain ⟨d, hv⟩ := plm op hop
    cases op <;> first | exact absurd hl (fun h => h) | skip
    exact Or.inr (Or.inl ⟨hl.symm.trans d, hv⟩)
  · obtain ⟨d, hv⟩ := pla op hop
    cases op <;> first | exact absurd hl (fun h => h) | skip
    exact Or.inr (Or.inr ⟨hl.symm.trans d, hv⟩)
  · exact absurd hl ((overlayDrawing_not_cache op (f2 op hop)).2 l)
  · exact absurd hl ((paintFreshOverlays_not_cache c event.rect op hop).2 l)

/-- C17 as stated fails. With the map visibility off, the paint of the fresh widget still
redraws the map cache: the buffer is allocated and the dirty rectangle changes. With all
templates hidden by the view, the paint still redraws the below-template cache of a visible
layer, and does not composite it. -/
theorem paintEvent_hidden_layers_counterexample :
    (hiddenMapView.mapVisible = false ∧ freshWidget.map_cache = none ∧
      ∃ t ops, freshWidget.paintEvent noCollaborators hiddenMapView fullPaintEvent
          = some (t, ops) ∧
        t.map_cache.isSome = true ∧
        t.map_cache_dirty_rect ≠ freshWidget.map_cache_dirty_rect) ∧
    (allTemplatesHiddenView.areAllTemplatesHidden = true ∧
      freshWidget.below_template_cache = none ∧
      ∃ t ops, freshWidget.paintEvent noCollaborators allTemplatesHiddenView fullPaintEvent
          = some (t, ops) ∧
        t.below_template_cache.isSome = true ∧
        t.below_template_cache_dirty_rect ≠ freshWidget.below_template_cache_dirty_rect ∧
        ∀ op ∈ ops, ¬ op.drawsLayer CacheLayer.below) := by
  constructor
  · refine ⟨rfl, rfl, _, _, paintEvent_idle freshWidget noCollaborators hiddenMapView
      fullPaintEvent overlayPending_null overlayPending_null, ?_⟩
    rw [paintContents_caches freshWidget hiddenMapView _ rfl]
    obtain ⟨r1, -, r3⟩ := updateAllDirtyCaches_map_redrawn freshWidget hiddenMapView (by decide)
    refine ⟨r1, fun h => ?_⟩
    dsimp only at h
    rw [h] at r3
    exact absurd r3 (by decide)
  · have hp := paintEvent_idle freshWidget noCollaborators allTemplatesHiddenView
      fullPaintEvent overlayPending_null overlayPending_null
    refine ⟨rfl, rfl, _, _, hp, ?_⟩
    obtain ⟨-, -, l3⟩ := paintEvent_layers freshWidget noCollaborators allTemplatesHiddenView
      fullPaintEvent rfl _ _ hp
    rw [paintContents_caches freshWidget allTemplatesHiddenView _ rfl] at l3 ⊢
    obtain ⟨r1, -, r3⟩ := updateAllDirtyCaches_below_redrawn freshWidget allTemplatesHiddenView
      rfl (by decide)
    refine ⟨r1, fun h => ?_, fun op hop hl => ?_⟩
    · dsimp only at h
      rw [h] at r3
      exact absurd r3 (by decide)
    · rcases l3 op hop _ hl with ⟨-, -, h1⟩ | ⟨h1, -⟩ | ⟨h1, -⟩
      · cases h1
      · cases h1
      · cases h1

/-- C17 (amended): during a paint that does not show the help message the caches are composited
in the order below-templates (or a white fill in its place), map, above-templates, followed by
the overlay drawings and the fresh overlays. A template layer that is not visible
(`isBelowTemplateVisible()` or `isAboveTemplateVisible()` false) is skipped entirely: its
buffer and dirty rectangle stay unchanged and it is not composited. When the view hides all
templates (`areAllTemplatesHidden()`) no template layer is composited, but a visible layer is
still redrawn when its dirty rectangle is Valid. With the map visibility off the map cache is
not composited, but it is still redrawn when its dirty rectangle is Valid. -/
theorem paintEvent_cache_layers (s : MapWidget) (c : Collaborators) (v : MapView)
    (event : QPaintEvent) (hb : (s.show_help && noContents v) = false) :
    (∀ t ops, s.paintEvent c v event = some (t, ops) →
      sameCaches (s.updateAllDirtyCaches v) t ∧
      (∃ lb lm la overlays,
        ops = s.paintBackground event.rect ++ (lb ++ lm ++ la) ++ overlays
          ++ paintFreshOverlays c event.rect ∧
        (s.updateAllDirtyCaches v).compositeCaches v event.rect = lb ++ lm ++ la ∧
        (∀ op ∈ lb, ∀ l, op.drawsLayer l → l = CacheLayer.below) ∧
        (∀ op ∈ lm, op.drawsLayer CacheLayer.map) ∧
        (∀ op ∈ la, op.drawsLayer CacheLayer.above) ∧
        (∀ op ∈ overlays, op.isOverlayDrawing)) ∧
      (v.isBelowTemplateVisible = false →
        t.below_template_cache = s.below_template_cache ∧
        t.below_template_cache_dirty_rect = s.below_template_cache_dirty_rect ∧
        ∀ op ∈ ops, ¬ op.drawsLayer CacheLayer.below) ∧
      (v.isAboveTemplateVisible = false →
        t.above_template_cache = s.above_template_cache ∧
        t.above_template_cache_dirty_rect = s.above_template_cache_dirty_rect ∧
        ∀ op ∈ ops, ¬ op.drawsLayer CacheLayer.above) ∧
      (v.areAllTemplatesHidden = true →
        (∀ op ∈ ops, ¬ op.drawsLayer CacheLayer.below ∧ ¬ op.drawsLayer CacheLayer.above) ∧
        (v.isBelowTemplateVisible = true → s.below_template_cache_dirty_rect.isValid = true →
          t.below_template_cache.isSome = true ∧
          t.below_template_cache ≠ s.below_template_cache ∧
          t.below_template_cache_dirty_rect.isValid = false) ∧
        (v.isAboveTemplateVisible = true → s.above_template_cache_dirty_rect.isValid = true →
          t.above_template_cache.isSome = true ∧
          t.above_template_cache ≠ s.above_template_cache ∧
          t.above_template_cache_dirty_rect.isValid = false)) ∧
      (v.mapVisible = false →
        (∀ op ∈ ops, ¬ op.drawsLayer CacheLayer.map) ∧
        (s.map_cache_dirty_rect.isValid = true →
          t.map_cache.isSome = true ∧ t.map_cache ≠ s.map_cache ∧
          t.map_cache_dirty_rect.isValid = false))) ∧
    (¬ overlayPending s.activity_dirty_rect_new s.activity_dirty_rect_new_border →
      ¬ overlayPending s.drawing_dirty_rect_new s.drawing_dirty_rect_new_border →
      s.paintEvent c v event
        = some (s.updateAllDirtyCaches v,
            s.paintBackground event.rect
              ++ (s.updateAllDirtyCaches v).compositeCaches v event.rect
              ++ paintFreshOverlays c event.rect)) ∧
    (c.activity = true → c.tool.isSome = true →
      ∃ t ops, s.paintEvent c v event = some (t, ops)) := by
  refine ⟨?_, ?_, ?_⟩
  · intro t ops h
    obtain ⟨⟨c1, c2, c3, c4, c5, c6⟩, l2, l3⟩ := paintEvent_layers s c v event hb t ops h
    refine ⟨⟨c1, c2, c3, c4, c5, c6⟩, l2, ?_, ?_, ?_, ?_⟩
    · intro hv
      obtain ⟨u1, u2⟩ := updateAllDirtyCaches_below_hidden s v hv
      refine ⟨c1.trans u1, c4.trans u2, fun op hop hl => ?_⟩
      rcases l3 op hop _ hl with ⟨-, h1, -⟩ | ⟨h1, -⟩ | ⟨h1, -⟩
      · rw [hv] at h1; cases h1
      · cases h1
      · cases h1
    · intro hv
      obtain ⟨u1, u2⟩ := updateAllDirtyCaches_above_hidden s v hv
      refine ⟨c2.trans u1, c5.trans u2, fun op hop hl => ?_⟩
      rcases l3 op hop _ hl with ⟨h1, -⟩ | ⟨h1, -⟩ | ⟨-, h1, -⟩
      · cases h1
      · cases h1
      · rw [hv] at h1; cases h1
    · intro hv
      refine ⟨fun op hop => ⟨fun hl => ?_, fun hl => ?_⟩, fun hb1 hd => ?_, fun ha1 hd => ?_⟩
      · rcases l3 op hop _ hl with ⟨-, -, h1⟩ | ⟨h1, -⟩ | ⟨h1, -⟩
        · rw [hv] at h1; cases h1
        · cases h1
        · cases h1
      · rcases l3 op hop _ hl with ⟨h1, -⟩ | ⟨h1, -⟩ | ⟨-, -, h1⟩
        · cases h1
        · cases h1
        · rw [hv] at h1; cases h1
      · obtain ⟨r1, r2, r3⟩ := updateAllDirtyCaches_below_redrawn s v hb1 hd
        exact ⟨by rw [c1]; exact r1, by rw [c1]; exact r2, by rw [c4]; exact r3⟩
      · obtain ⟨r1, r2, r3⟩ := updateAllDirtyCaches_above_redrawn s v ha1 hd
        exact ⟨by rw [c2]; exact r1, by rw [c2]; exact r2, by rw [c5]; exact r3⟩
    · intro hv
      refine ⟨fun op hop hl => ?_, fun hd => ?_⟩
      · rcases l3 op hop _ hl with ⟨h1, -⟩ | ⟨-, h1⟩ | ⟨h1, -⟩
        · cases h1
        · rw [hv] at h1; cases h1
        · cases h1
      · obtain ⟨r1, r2, r3⟩ := updateAllDirtyCaches_map_redrawn s v hd
        exact ⟨by rw [c3]; exact r1, by rw [c3]; exact r2, by rw [c6]; exact r3⟩
  · intro ha hd
    rw [paintEvent_idle s c v event ha hd, paintContents_caches s v event.rect hb]
  · intro ha ht'
    obtain ⟨t, o, ho'⟩ := paintOverlays_isSome (s.paintContents v event.rect).1 c v event ha ht'
    exact ⟨t, _, paintEvent_of_overlays s c v event t o ho'⟩

/-- Witness for C17 (amended): the fresh widget painted under the view with the map hidden. -/
theorem paintEvent_cache_layers_witness :
    (freshWidget.show_help && noContents hiddenMapView) = false ∧
    freshWidget.paintEvent noCollaborators hiddenMapView fullPaintEvent
      = some (freshWidget.updateAllDirtyCaches hiddenMapView,
          freshWidget.paintBackground fullPaintEvent.rect
            ++ (freshWidget.updateAllDirtyCaches hiddenMapView).compositeCaches hiddenMapView
                fullPaintEvent.rect
            ++ paintFreshOverlays noCollaborators fullPaintEvent.rect) :=
  ⟨rfl, (paintEvent_cache_layers freshWidget noCollaborators hiddenMapView fullPaintEvent
      rfl).2.1 overlayPending_null overlayPending_null⟩

/-! ## Absent collaborators during a paint -/

theorem paintDrawingOverlay_null_tool (s : MapWidget) (c : Collaborators) (v : MapView)
    (event : QPaintEvent) (ht : c.tool = none)
    (hp : overlayPending s.drawing_dirty_rect_new s.drawing_dirty_rect_new_border)
    (hi : (s.calculateViewportBoundingBox v s.drawing_dirty_rect_new
      s.drawing_dirty_rect_new_border).intersects event.rect = true) :
    s.paintDrawingOverlay c v event = none := by
  have h1 : (s.drawing_dirty_rect_new.isValid
      || decide (s.drawing_dirty_rect_new_border ≥ 0)) = true := by
    rcases hp with hp | hp
    · simp [hp]
    · simp [hp]
  simp only [MapWidget.paintDrawingOverlay, h1, hi, ht, if_true, Option.isSome_none,
    Bool.false_eq_true, if_false]

/-- With a pending tool overlay region whose viewport box meets the event rectangle, a paint
without a tool dereferences the null `tool`. -/
theorem paintEvent_null_tool (s : MapWidget) (c : Collaborators) (v : MapView)
    (event : QPaintEvent) (ht : c.tool = none)
    (hp : overlayPending s.drawing_dirty_rect_new s.drawing_dirty_rect_new_border)
    (hi : (s.calculateViewportBoundingBox v s.drawing_dirty_rect_new
      s.drawing_dirty_rect_new_border).intersects event.rect = true) :
    s.paintEvent c v event = none := by
  obtain ⟨o1, o2, o3, -, o5, o6, -⟩ := paintContents_outside s v event.rect
  have ho : (s.paintContents v event.rect).1.paintOverlays c v event = none := by
    unfold MapWidget.paintOverlays
    cases ha : (s.paintContents v event.rect).1.paintActivityOverlay c v event with
    | none => rfl
    | some r =>
      obtain ⟨t, act⟩ := r
      obtain ⟨-, f2, f3, f4, f5, f6, -⟩ := paintActivityOverlay_frame _ c v event t act ha
      have hd : t.paintDrawingOverlay c v event = none := by
        apply paintDrawingOverlay_null_tool t c v event ht
        · rw [f5, f6, o5, o6]; exact hp
        · rw [f5, f6, o5, o6,
            calculateViewportBoundingBox_congr s t v _ _ (f2.trans o1) (f3.trans o2)
              (f4.trans o3)]
          exact hi
      simp only [hd]
  simp only [MapWidget.paintEvent, ho]

/-- C18 fails in the code: on the widget with a pending tool overlay region, after
`setTool(NULL)`, the paint of the whole widget reaches `tool->draw` with a null `tool` and does
not complete, while the same paint with the tool attached completes. -/
theorem paintEvent_pending_overlay_null_tool :
    (drawingCollaborators.setTool none).tool = none ∧
    overlayPending pendingOverlayWidget.drawing_dirty_rect_new
      pendingOverlayWidget.drawing_dirty_rect_new_border ∧
    pendingOverlayWidget.paintEvent (drawingCollaborators.setTool none) identityView
      fullPaintEvent = none ∧
    ∃ t ops, pendingOverlayWidget.paintEvent drawingCollaborators identityView fullPaintEvent
      = some (t, ops) := by
  have hp : overlayPending pendingOverlayWidget.drawing_dirty_rect_new
      pendingOverlayWidget.drawing_dirty_rect_new_border := Or.inr (by decide)
  refine ⟨rfl, hp, paintEvent_null_tool _ _ _ _ rfl hp ?_, ?_⟩
  · have h : pendingOverlayWidget.calculateViewportBoundingBox identityView ⟨0, 0, 10, 10⟩ 0
        = ⟨319, 239, 330, 250⟩ := sample_viewport_bounding_box
    have e : pendingOverlayWidget.calculateViewportBoundingBox identityView
        pendingOverlayWidget.drawing_dirty_rect_new
        pendingOverlayWidget.drawing_dirty_rect_new_border = ⟨319, 239, 330, 250⟩ := h
    rw [e]
    decide
  · obtain ⟨t, o, h⟩ := paintOverlays_isSome
      (pendingOverlayWidget.paintContents identityView fullPaintEvent.rect).1
      drawingCollaborators identityView fullPaintEvent rfl rfl
    exact ⟨t, _, paintEvent_of_overlays _ _ _ _ t o h⟩

/-! ## Pointer presses -/

/-- C19: `_mousePressEvent` while a pan-drag is in progress accepts the event, leaves the state
as it is and does not offer the event to the tool. Otherwise the tool, if there is one, is
offered the event with the position converted by `viewToMapF(viewportToView(pos))`; if it
handles the event, the event is accepted and the state stays as it is. If there is no tool or
it does not handle the event, a press of the middle button starts panning with the event
position as start position and accepts the event, and a press of any other button leaves the
state and the accepted flag as they are. -/
theorem mousePressEvent_dispatch (s : MapWidget) (c : Collaborators) (v : MapView)
    (event : QMouseEvent) :
    (s.dragging = true → s._mousePressEvent c v event = ⟨s, true, none⟩) ∧
    (s.dragging = false →
      (s._mousePressEvent c v event).offered
        = c.tool.map (fun _ => v.viewToMapF (s.viewportToViewI event.pos)) ∧
      (∀ tool, c.tool = some tool →
        tool.mousePressEvent event (v.viewToMapF (s.viewportToViewI event.pos)) = true →
        (s._mousePressEvent c v event).state = s ∧
        (s._mousePressEvent c v event).accepted = true) ∧
      ((c.tool = none ∨ ∃ tool, c.tool = some tool ∧
          tool.mousePressEvent event (v.viewToMapF (s.viewportToViewI event.pos)) = false) →
        (event.button = MouseButton.MiddleButton →
          (s._mousePressEvent c v event).state
            = { s with dragging := true, drag_start_pos := event.pos } ∧
          (s._mousePressEvent c v event).accepted = true) ∧
        (event.button ≠ MouseButton.MiddleButton →
          (s._mousePressEvent c v event).state = s ∧
          (s._mousePressEvent c v event).accepted = event.accepted))) := by
  refine ⟨fun hd => ?_, fun hd => ⟨?_, ?_, ?_⟩⟩
  · simp only [MapWidget._mousePressEvent, hd, if_true]
  · cases hc : c.tool with
    | none =>
      simp only [MapWidget._mousePressEvent, hd, hc, Bool.false_eq_true, if_false, Option.map_none']
      split_ifs <;> rfl
    | some tool =>
      simp only [MapWidget._mousePressEvent, hd, hc, Bool.false_eq_true, if_false,
        Option.map_some']
      split_ifs <;> rfl
  · intro tool hc hh
    simp only [MapWidget._mousePressEvent, hd, hc, hh, Bool.false_eq_true, if_false, if_true,
      and_self]
  · intro hn
    have hh : (match c.tool with
        | some tool => tool.mousePressEvent event (v.viewToMapF (s.viewportToViewI event.pos))
        | none => false) = false := by
      rcases hn with hn | ⟨tool, hc, hn⟩
      · rw [hn]
      · rw [hc]; exact hn
    refine ⟨fun hb => ?_, fun hb => ?_⟩
    · simp only [MapWidget._mousePressEvent, hd, hh, hb, Bool.false_eq_true, if_false, if_true,
        MapWidget.startPanning, and_self]
    · simp only [MapWidget._mousePressEvent, hd, hh, hb, Bool.false_eq_true, if_false,
        and_self]

/-- Witness for C19: a press of the middle button on the painted widget, which the left-button
tool does not handle, starts panning at the press position. -/
theorem mousePressEvent_dispatch_witness :
    paintedWidget.dragging = false ∧
    (paintedWidget._mousePressEvent drawingCollaborators identityView middlePress).state
      = { paintedWidget with dragging := true, drag_start_pos := middlePress.pos } ∧
    (paintedWidget._mousePressEvent drawingCollaborators identityView middlePress).accepted
      = true :=
  ⟨rfl, (((mousePressEvent_dispatch paintedWidget drawingCollaborators identityView
      middlePress).2 rfl).2.2 (Or.inr ⟨leftButtonTool, rfl, rfl⟩)).1 rfl⟩


/-! ## Last-drawn overlay rectangles -/

theorem overlayPending_iff (r : QRectF) (b : ℤ) :
    overlayPending r b ↔ (r.isValid || decide (b ≥ 0)) = true := by
  simp [overlayPending]

/-- What the activity block of `paintEvent` does when it completes. -/
theorem paintActivityOverlay_result (s : MapWidget) (c : Collaborators) (v : MapView)
    (event : QPaintEvent) (t : MapWidget) (o : List WidgetPaintOp)
    (h : s.paintActivityOverlay c v event = some (t, o)) :
    (overlayPending s.activity_dirty_rect_new s.activity_dirty_rect_new_border →
      ∀ box, box = s.calculateViewportBoundingBox v s.activity_dirty_rect_new
          s.activity_dirty_rect_new_border →
        t = { s with activity_dirty_rect_old := box } ∧
        o = if box.intersects event.rect
            then [WidgetPaintOp.activityDraw (box.intersected event.rect)] else []) ∧
    (¬ overlayPending s.activity_dirty_rect_new s.activity_dirty_rect_new_border →
      t = s ∧ o = []) := by
  unfold MapWidget.paintActivityOverlay at h
  rw [overlayPending_iff]
  cases hp : (s.activity_dirty_rect_new.isValid
    || decide (s.activity_dirty_rect_new_border ≥ 0))
  · simp only [hp, Bool.false_eq_true, if_false, Option.some.injEq, Prod.mk.injEq] at h
    obtain ⟨rfl, rfl⟩ := h
    exact ⟨fun hf => absurd hf (by simp), fun _ => ⟨rfl, rfl⟩⟩
  · refine ⟨fun _ box hbox => ?_, fun hf => absurd rfl hf⟩
    subst hbox
    cases hi : (s.calculateViewportBoundingBox v s.activity_dirty_rect_new
      s.activity_dirty_rect_new_border).intersects event.rect
    · simp only [hp, hi, Bool.false_eq_true, if_true, if_false, Option.some.injEq,
        Prod.mk.injEq] at h
      obtain ⟨rfl, rfl⟩ := h
      exact ⟨rfl, rfl⟩
    · cases ha : c.activity
      · simp [hp, hi, ha] at h
      · simp only [hp, hi, ha, if_true, Option.some.injEq, Prod.mk.injEq] at h
        obtain ⟨rfl, rfl⟩ := h
        exact ⟨rfl, rfl⟩

/-- What the tool drawing block of `paintEvent` does when it completes. -/
theorem paintDrawingOverlay_result (s : MapWidget) (c : Collaborators) (v : MapView)
    (event : QPaintEvent) (t : MapWidget) (o : List WidgetPaintOp)
    (h : s.paintDrawingOverlay c v event = some (t, o)) :
    (overlayPending s.drawing_dirty_rect_new s.drawing_dirty_rect_new_border →
      ∀ box, box = s.calculateViewportBoundingBox v s.drawing_dirty_rect_new
          s.drawing_dirty_rect_new_border →
        t = { s with drawing_dirty_rect_old := box } ∧
        o = if box.intersects event.rect
            then [WidgetPaintOp.toolDraw (box.intersected event.rect)] else []) ∧
    (¬ overlayPending s.drawing_dirty_rect_new s.drawing_dirty_rect_new_border →
      t = s ∧ o = []) := by
  unfold MapWidget.paintDrawingOverlay at h
  rw [overlayPending_iff]
  cases hp : (s.drawing_dirty_rect_new.isValid
    || decide (s.drawing_dirty_rect_new_border ≥ 0))
  · simp only [hp, Bool.false_eq_true, if_false, Option.some.injEq, Prod.mk.injEq] at h
    obtain ⟨rfl, rfl⟩ := h
    exact ⟨fun hf => absurd hf (by simp), fun _ => ⟨rfl, rfl⟩⟩
  · refine ⟨fun _ box hbox => ?_, fun hf => absurd rfl hf⟩
    subst hbox
    cases hi : (s.calculateViewportBoundingBox v s.drawing_dirty_rect_new
      s.drawing_dirty_rect_new_border).intersects event.rect
    · simp only [hp, hi, Bool.false_eq_true, if_true, if_false, Option.some.injEq,
        Prod.mk.injEq] at h
      obtain ⟨rfl, rfl⟩ := h
      exact ⟨rfl, rfl⟩
    · cases ht : c.tool.isSome
      · simp [hp, hi, ht] at h
      · simp only [hp, hi, ht, if_true, Option.some.injEq, Prod.mk.injEq] at h
        obtain ⟨rfl, rfl⟩ := h
        exact ⟨rfl, rfl⟩

/-- The fields of the tool drawing overlay and the geometry after the activity block. -/
theorem paintActivityOverlay_drawing_fields (s : MapWidget) (c : Collaborators) (v : MapView)
    (event : QPaintEvent) (t : MapWidget) (o : List WidgetPaintOp)
    (h : s.paintActivityOverlay c v event = some (t, o)) :
    t.drawing_dirty_rect_old = s.drawing_dirty_rect_old := by
  by_cases hp : overlayPending s.activity_dirty_rect_new s.activity_dirty_rect_new_border
  · rw [((paintActivityOverlay_result s c v event t o h).1 hp _ rfl).1]
  · rw [((paintActivityOverlay_result s c v event t o h).2 hp).1]

/-- The fields of the activity overlay after the tool drawing block. -/
theorem paintDrawingOverlay_activity_fields (s : MapWidget) (c : Collaborators) (v : MapView)
    (event : QPaintEvent) (t : MapWidget) (o : List WidgetPaintOp)
    (h : s.paintDrawingOverlay c v event = some (t, o)) :
    t.activity_dirty_rect_old = s.activity_dirty_rect_old := by
  by_cases hp : overlayPending s.drawing_dirty_rect_new s.drawing_dirty_rect_new_border
  · rw [((paintDrawingOverlay_result s c v event t o h).1 hp _ rfl).1]
  · rw [((paintDrawingOverlay_result s c v event t o h).2 hp).1]

/-- A completed pair of overlay blocks is a completed activity block followed by a completed
tool drawing block. -/
theorem paintOverlays_some (s : MapWidget) (c : Collaborators) (v : MapView)
    (event : QPaintEvent) (t : MapWidget) (o : List WidgetPaintOp)
    (h : s.paintOverlays c v event = some (t, o)) :
    ∃ s1 act drw, s.paintActivityOverlay c v event = some (s1, act) ∧
      s1.paintDrawingOverlay c v event = some (t, drw) ∧ o = act ++ drw := by
  unfold MapWidget.paintOverlays at h
  cases ha : s.paintActivityOverlay c v event with
  | none => rw [ha] at h; exact absurd h (by simp)
  | some r1 =>
    obtain ⟨s1, o1⟩ := r1
    rw [ha] at h
    dsimp only at h
    cases hd : s1.paintDrawingOverlay c v event with
    | none => rw [hd] at h; exact absurd h (by simp)
    | some r2 =>
      obtain ⟨s2, o2⟩ := r2
      rw [hd] at h
      simp only [Option.some.injEq, Prod.mk.injEq] at h
      obtain ⟨rfl, rfl⟩ := h
      exact ⟨s1, o1, o2, rfl, hd, rfl⟩

/-- C21: after every completed paint, an overlay (activity or tool drawing) with a pending
region has as last-drawn rectangle the viewport bounding box computed from its pending region
and border, which is also the box the drawing of that paint was clipped to; an overlay without
a pending region keeps its last-drawn rectangle. The activity is drawn before the tool
drawing. With activity and tool attached every paint completes. -/
theorem paintEvent_last_drawn (s : MapWidget) (c : Collaborators) (v : MapView)
    (event : QPaintEvent) :
    (∀ t ops, s.paintEvent c v event = some (t, ops) →
      (overlayPending s.activity_dirty_rect_new s.activity_dirty_rect_new_border →
        t.activity_dirty_rect_old = s.calculateViewportBoundingBox v s.activity_dirty_rect_new
          s.activity_dirty_rect_new_border) ∧
      (¬ overlayPending s.activity_dirty_rect_new s.activity_dirty_rect_new_border →
        t.activity_dirty_rect_old = s.activity_dirty_rect_old) ∧
      (overlayPending s.drawing_dirty_rect_new s.drawing_dirty_rect_new_border →
        t.drawing_dirty_rect_old = s.calculateViewportBoundingBox v s.drawing_dirty_rect_new
          s.drawing_dirty_rect_new_border) ∧
      (¬ overlayPending s.drawing_dirty_rect_new s.drawing_dirty_rect_new_border →
        t.drawing_dirty_rect_old = s.drawing_dirty_rect_old) ∧
      ∃ act drw,
        ops = s.paintBackground event.rect ++ (s.paintContents v event.rect).2 ++ (act ++ drw)
          ++ paintFreshOverlays c event.rect ∧
        (overlayPending s.activity_dirty_rect_new s.activity_dirty_rect_new_border →
          ∀ box, box = s.calculateViewportBoundingBox v s.activity_dirty_rect_new
              s.activity_dirty_rect_new_border →
            act = if box.intersects event.rect
              then [WidgetPaintOp.activityDraw (box.intersected event.rect)] else []) ∧
        (¬ overlayPending s.activity_dirty_rect_new s.activity_dirty_rect_new_border →
          act = []) ∧
        (overlayPending s.drawing_dirty_rect_new s.drawing_dirty_rect_new_border →
          ∀ box, box = s.calculateViewportBoundingBox v s.drawing_dirty_rect_new
              s.drawing_dirty_rect_new_border →
            drw = if box.intersects event.rect
              then [WidgetPaintOp.toolDraw (box.intersected event.rect)] else []) ∧
        (¬ overlayPending s.drawing_dirty_rect_new s.drawing_dirty_rect_new_border →
          drw = [])) ∧
    (c.activity = true → c.tool.isSome = true →
      ∃ t ops, s.paintEvent c v event = some (t, ops)) := by
  refine ⟨?_, ?_⟩
  · intro t ops h
    obtain ⟨o, ho, rfl⟩ := paintEvent_some s c v event t ops h
    obtain ⟨s1, act, drw, ha, hd, rfl⟩ := paintOverlays_some _ c v event t o ho
    obtain ⟨o1, o2, o3, o4, o5, o6, o7, o8, o9, -⟩ := paintContents_outside s v event.rect
    obtain ⟨-, f2, f3, f4, f5, f6, -⟩ := paintActivityOverlay_frame _ c v event s1 act ha
    have ra := paintActivityOverlay_result _ c v event s1 act ha
    have rd := paintDrawingOverlay_result s1 c v event t drw hd
    have ka := paintDrawingOverlay_activity_fields s1 c v event t drw hd
    have kd := paintActivityOverlay_drawing_fields _ c v event s1 act ha
    rw [o8, o9, calculateViewportBoundingBox_congr s _ v _ _ o1 o2 o3] at ra
    rw [f5, f6, o5, o6,
      calculateViewportBoundingBox_congr s s1 v _ _ (f2.trans o1) (f3.trans o2)
        (f4.trans o3)] at rd
    refine ⟨fun hp => ?_, fun hp => ?_, fun hp => ?_, fun hp => ?_, act, drw, rfl,
      fun hp box hb => (ra.1 hp box hb).2, fun hp => (ra.2 hp).2,
      fun hp box hb => (rd.1 hp box hb).2, fun hp => (rd.2 hp).2⟩
    · rw [ka, (ra.1 hp _ rfl).1]
    · rw [ka, (ra.2 hp).1, o7]
    · rw [(rd.1 hp _ rfl).1]
    · rw [(rd.2 hp).1, kd, o4]
  · intro ha ht
    obtain ⟨t, o, ho⟩ := paintOverlays_isSome (s.paintContents v event.rect).1 c v event ha ht
    exact ⟨t, _, paintEvent_of_overlays s c v event t o ho⟩

/-- Witness for C21: the paint of the widget with a pending tool overlay region, activity and
tool attached, completes and leaves the last-drawn rectangle of the tool overlay at the
viewport box of the pending region. -/
theorem paintEvent_last_drawn_witness :
    overlayPending pendingOverlayWidget.drawing_dirty_rect_new
      pendingOverlayWidget.drawing_dirty_rect_new_border ∧
    ∃ t ops, pendingOverlayWidget.paintEvent drawingCollaborators identityView fullPaintEvent
        = some (t, ops) ∧
      t.drawing_dirty_rect_old = pendingOverlayWidget.calculateViewportBoundingBox identityView
        pendingOverlayWidget.drawing_dirty_rect_new
        pendingOverlayWidget.drawing_dirty_rect_new_border ∧
      t.drawing_dirty_rect_old = ⟨319, 239, 330, 250⟩ := by
  have e : pendingOverlayWidget.calculateViewportBoundingBox identityView
      pendingOverlayWidget.drawing_dirty_rect_new
      pendingOverlayWidget.drawing_dirty_rect_new_border = ⟨319, 239, 330, 250⟩ :=
    sample_viewport_bounding_box
  have hp : overlayPending pendingOverlayWidget.drawing_dirty_rect_new
      pendingOverlayWidget.drawing_dirty_rect_new_border := Or.inr (by decide)
  obtain ⟨t, ops, h⟩ := (paintEvent_last_drawn pendingOverlayWidget drawingCollaborators
    identityView fullPaintEvent).2 rfl rfl
  have hd := ((paintEvent_last_drawn pendingOverlayWidget drawingCollaborators
    identityView fullPaintEvent).1 t ops h).2.2.1 hp
  exact ⟨hp, t, ops, h, hd, hd.trans e⟩


/-! ## Deferred repaint -/

namespace QRect

theorem intersects_of_sharesPixel {a b : QRect} (h : a.sharesPixel b) :
    a.intersects b = true := by
  obtain ⟨x, y, ha, hb⟩ := h
  have hna := not_isNull_of_isValid (isValid_of_containsPixel ha)
  have hnb := not_isNull_of_isValid (isValid_of_containsPixel hb)
  simp only [containsPixel] at ha hb
  simp only [intersects, hna, hnb, Bool.or_self, Bool.false_eq_true, if_false, nl, nr, nt, nb]
  have a1 : ¬ (a.x2 - a.x1 + 1 < 0) := by omega
  have a2 : ¬ (a.y2 - a.y1 + 1 < 0) := by omega
  have b1 : ¬ (b.x2 - b.x1 + 1 < 0) := by omega
  have b2 : ¬ (b.y2 - b.y1 + 1 < 0) := by omega
  simp only [a1, a2, b1, b2, if_false]
  have c1 : ¬ (a.x1 > b.x2) := by omega
  have c2 : ¬ (b.x1 > a.x2) := by omega
  have c3 : ¬ (a.y1 > b.y2) := by omega
  have c4 : ¬ (b.y1 > a.y2) := by omega
  simp [c1, c2, c3, c4]

theorem united_containsPixel {a b : QRect} (ha : a.isValid = true) (hb : b.isValid = true)
    {x y : ℤ} (h : a.containsPixel x y ∨ b.containsPixel x y) :
    (a.united b).containsPixel x y := by
  rw [united_of_isValid ha (not_isNull_of_isValid hb)]
  rw [isValid_iff] at ha hb
  have b1 : ¬ (b.x2 - b.x1 + 1 < 0) := by omega
  have b2 : ¬ (b.y2 - b.y1 + 1 < 0) := by omega
  simp only [containsPixel, nl, nr, nt, nb, b1, b2, if_false] at h ⊢
  omega

end QRect

/-- One `updateDrawingLater` request whose viewport rectangle has a pixel in the widget: the
rectangle is merged into the pending one and a timer is started if nothing was pending. -/
theorem updateDrawingLater_step (s : MapWidget) (v : MapView) (map_rect : QRectF)
    (pixel_border : ℤ)
    (hi : (s.calculateViewportBoundingBox v map_rect pixel_border).sharesPixel s.rect) :
    (s.updateDrawingLater v map_rect pixel_border).width = s.width ∧
    (s.updateDrawingLater v map_rect pixel_border).height = s.height ∧
    (s.updateDrawingLater v map_rect pixel_border).drag_offset = s.drag_offset ∧
    (s.updateDrawingLater v map_rect pixel_border).updates = s.updates ∧
    (s.cached_update_rect.isValid = true →
      (s.updateDrawingLater v map_rect pixel_border).timers = s.timers ∧
      (s.updateDrawingLater v map_rect pixel_border).cached_update_rect
        = s.cached_update_rect.united (s.calculateViewportBoundingBox v map_rect pixel_border)) ∧
    (s.cached_update_rect.isValid = false →
      (s.updateDrawingLater v map_rect pixel_border).timers = s.timers + 1 ∧
      (s.updateDrawingLater v map_rect pixel_border).cached_update_rect
        = s.calculateViewportBoundingBox v map_rect pixel_border) := by
  have h := QRect.intersects_of_sharesPixel hi
  cases hv : s.cached_update_rect.isValid
  · simp [MapWidget.updateDrawingLater, h, hv, rectIncludeSafeQRect]
  · simp [MapWidget.updateDrawingLater, h, hv, rectIncludeSafeQRect]

/-- Requests issued while a rectangle is pending start no timer and only enlarge the pending
rectangle. -/
theorem updateDrawingLaterAll_pending (v : MapView) (requests : List (QRectF × ℤ)) :
    ∀ s : MapWidget, s.cached_update_rect.isValid = true →
      (∀ r ∈ requests, (s.calculateViewportBoundingBox v r.1 r.2).sharesPixel s.rect) →
      (updateDrawingLaterAll s v requests).timers = s.timers ∧
      (updateDrawingLaterAll s v requests).updates = s.updates ∧
      (updateDrawingLaterAll s v requests).cached_update_rect.isValid = true ∧
      (∀ x y, s.cached_update_rect.containsPixel x y →
        (updateDrawingLaterAll s v requests).cached_update_rect.containsPixel x y) ∧
      (∀ r ∈ requests, ∀ x y,
        (s.calculateViewportBoundingBox v r.1 r.2).containsPixel x y →
        (updateDrawingLaterAll s v requests).cached_update_rect.containsPixel x y) := by
  induction requests with
  | nil =>
    intro s hv _
    exact ⟨rfl, rfl, hv, fun _ _ h => h, fun r hr => absurd hr (List.not_mem_nil r)⟩
  | cons q rest ih =>
    intro s hv hall
    have hq := hall q (List.mem_cons_self q rest)
    obtain ⟨w1, w2, w3, w4, w5, -⟩ := updateDrawingLater_step s v q.1 q.2 hq
    obtain ⟨w5, w6⟩ := w5 hv
    have hqv : (s.calculateViewportBoundingBox v q.1 q.2).isValid = true := by
      obtain ⟨x, y, hx, -⟩ := hq
      exact QRect.isValid_of_containsPixel hx
    have hv1 : (s.updateDrawingLater v q.1 q.2).cached_update_rect.isValid = true := by
      rw [w6]; exact QRect.united_isValid hv (QRect.not_isNull_of_isValid hqv)
    have hbox : ∀ r : QRectF × ℤ,
        (s.updateDrawingLater v q.1 q.2).calculateViewportBoundingBox v r.1 r.2
          = s.calculateViewportBoundingBox v r.1 r.2 :=
      fun r => calculateViewportBoundingBox_congr s _ v r.1 r.2 w1 w2 w3
    have hrect : (s.updateDrawingLater v q.1 q.2).rect = s.rect := by
      simp only [MapWidget.rect, w1, w2]
    have hall1 : ∀ r ∈ rest,
        ((s.updateDrawingLater v q.1 q.2).calculateViewportBoundingBox v r.1 r.2).sharesPixel
          (s.updateDrawingLater v q.1 q.2).rect := by
      intro r hr
      rw [hbox r, hrect]
      exact hall r (List.mem_cons_of_mem q hr)
    obtain ⟨i1, i2, i3, i4, i5⟩ := ih (s.updateDrawingLater v q.1 q.2) hv1 hall1
    have hfold : updateDrawingLaterAll s v (q :: rest)
        = updateDrawingLaterAll (s.updateDrawingLater v q.1 q.2) v rest := rfl
    rw [hfold]
    refine ⟨i1.trans w5, i2.trans w4, i3, ?_, ?_⟩
    · intro x y hxy
      apply i4
      rw [w6]
      exact QRect.united_containsPixel hv hqv (Or.inl hxy)
    · intro r hr x y hxy
      rcases List.mem_cons.mp hr with rfl | hr
      · apply i4
        rw [w6]
        exact QRect.united_containsPixel hv hqv (Or.inr hxy)
      · apply i5 r hr
        rw [hbox r]
        exact hxy

theorem updateDrawingLaterSlot_fields (s : MapWidget) :
    s.updateDrawingLaterSlot.updates = s.updates ++ [UpdateRequest.rect s.cached_update_rect] ∧
    s.updateDrawingLaterSlot.cached_update_rect = QRect.null ∧
    s.updateDrawingLaterSlot.timers = s.timers :=
  ⟨rfl, rfl, rfl⟩

/-- C22: starting with nothing pending (as after construction or a flush), a sequence of one or
more `updateDrawingLater` requests whose viewport rectangles have a pixel in the widget starts
exactly one timer, with the first request; the pending rectangle is Valid and holds every
requested rectangle; no repaint is requested before the flush; `updateDrawingLaterSlot` then
requests a repaint of the pending rectangle, once, and resets it to the Invalid `QRect()`
without starting a timer. -/
theorem updateDrawingLater_coalesces (s : MapWidget) (v : MapView) (first : QRectF × ℤ)
    (rest : List (QRectF × ℤ)) (h0 : s.cached_update_rect.isValid = false)
    (hall : ∀ r ∈ first :: rest,
      (s.calculateViewportBoundingBox v r.1 r.2).sharesPixel s.rect) :
    (s.updateDrawingLater v first.1 first.2).timers = s.timers + 1 ∧
    (updateDrawingLaterAll s v (first :: rest)).timers = s.timers + 1 ∧
    (updateDrawingLaterAll s v (first :: rest)).updates = s.updates ∧
    (updateDrawingLaterAll s v (first :: rest)).cached_update_rect.isValid = true ∧
    (∀ r ∈ first :: rest, ∀ x y,
      (s.calculateViewportBoundingBox v r.1 r.2).containsPixel x y →
      (updateDrawingLaterAll s v (first :: rest)).cached_update_rect.containsPixel x y) ∧
    (updateDrawingLaterAll s v (first :: rest)).updateDrawingLaterSlot.updates
      = s.updates ++
        [UpdateRequest.rect (updateDrawingLaterAll s v (first :: rest)).cached_update_rect] ∧
    (updateDrawingLaterAll s v (first :: rest)).updateDrawingLaterSlot.cached_update_rect
      = QRect.null ∧
    (updateDrawingLaterAll s v (first :: rest)).updateDrawingLaterSlot.cached_update_rect.isValid
      = false ∧
    (updateDrawingLaterAll s v (first :: rest)).updateDrawingLaterSlot.timers
      = s.timers + 1 := by
  have hq := hall first (List.mem_cons_self first rest)
  obtain ⟨w1, w2, w3, w4, -, w5⟩ := updateDrawingLater_step s v first.1 first.2 hq
  obtain ⟨w5, w6⟩ := w5 h0
  have hqv : (s.calculateViewportBoundingBox v first.1 first.2).isValid = true := by
    obtain ⟨x, y, hx, -⟩ := hq
    exact QRect.isValid_of_containsPixel hx
  have hbox : ∀ r : QRectF × ℤ,
      (s.updateDrawingLater v first.1 first.2).calculateViewportBoundingBox v r.1 r.2
        = s.calculateViewportBoundingBox v r.1 r.2 :=
    fun r => calculateViewportBoundingBox_congr s _ v r.1 r.2 w1 w2 w3
  have hrect : (s.updateDrawingLater v first.1 first.2).rect = s.rect := by
    simp only [MapWidget.rect, w1, w2]
  have hall1 : ∀ r ∈ rest,
      ((s.updateDrawingLater v first.1 first.2).calculateViewportBoundingBox v r.1
        r.2).sharesPixel (s.updateDrawingLater v first.1 first.2).rect := by
    intro r hr
    rw [hbox r, hrect]
    exact hall r (List.mem_cons_of_mem first hr)
  obtain ⟨i1, i2, i3, i4, i5⟩ := updateDrawingLaterAll_pending v rest
    (s.updateDrawingLater v first.1 first.2) (by rw [w6]; exact hqv) hall1
  have hfold : updateDrawingLaterAll s v (first :: rest)
      = updateDrawingLaterAll (s.updateDrawingLater v first.1 first.2) v rest := rfl
  obtain ⟨u1, u2, u3⟩ :=
    updateDrawingLaterSlot_fields (updateDrawingLaterAll s v (first :: rest))
  rw [u1, u2, u3, hfold]
  refine ⟨w5, i1.trans w5, i2.trans w4, i3, ?_, by rw [i2, w4], rfl, rfl, i1.trans w5⟩
  intro r hr x y hxy
  rcases List.mem_cons.mp hr with rfl | hr
  · apply i4
    rw [w6]
    exact hxy
  · apply i5 r hr
    rw [hbox r]
    exact hxy

/-- Witness for C22: two requests for the map rectangle (0, 0, 10, 10) on the fresh widget. -/
theorem updateDrawingLater_coalesces_witness :
    freshWidget.cached_update_rect.isValid = false ∧
    (updateDrawingLaterAll freshWidget identityView [sampleRequest, sampleRequest]).timers
      = 1 ∧
    (updateDrawingLaterAll freshWidget identityView
        [sampleRequest, sampleRequest]).updateDrawingLaterSlot.updates
      = [UpdateRequest.rect (updateDrawingLaterAll freshWidget identityView
          [sampleRequest, sampleRequest]).cached_update_rect] := by
  have hall : ∀ r ∈ [sampleRequest, sampleRequest],
      (freshWidget.calculateViewportBoundingBox identityView r.1 r.2).sharesPixel
        freshWidget.rect := by
    intro r hr
    have hr : r = sampleRequest := by simpa using hr
    subst hr
    have e : freshWidget.calculateViewportBoundingBox identityView sampleRequest.1
        sampleRequest.2 = ⟨319, 239, 330, 250⟩ := sample_viewport_bounding_box
    rw [e]
    exact ⟨320, 240, by decide, by decide⟩
  have h := updateDrawingLater_coalesces freshWidget identityView sampleRequest
    [sampleRequest] (by decide) hall
  exact ⟨by decide, h.2.1, h.2.2.2.2.2.1⟩


/-! ## Integer bounding boxes -/

theorem truncToInt_le_of_nonneg {q : ℚ} (h : 0 ≤ q) :
    (truncToInt q : ℚ) ≤ q ∧ q < truncToInt q + 1 := by
  rw [truncToInt_eq_floor h]
  exact ⟨Int.floor_le q, Int.lt_floor_add_one q⟩

theorem truncToInt_bounds (q : ℚ) : q - 1 < truncToInt q ∧ (truncToInt q : ℚ) < q + 1 := by
  by_cases h : 0 ≤ q
  · obtain ⟨h1, h2⟩ := truncToInt_le_of_nonneg h
    constructor <;> linarith
  · rw [truncToInt_eq_ceil (not_le.mp h)]
    have h1 := Int.le_ceil q
    have h2 := Int.ceil_lt_add_one q
    constructor <;> linarith

/-- For a viewport rectangle of non-negative size and a non-negative border the integer
rectangle is Valid. -/
theorem integerRect_isValid (r : QRectF) (b : ℤ) (hw : 0 ≤ r.w) (hh : 0 ≤ r.h) (hb : 0 ≤ b) :
    (integerRect r b).isValid = true := by
  have hb' : (0 : ℚ) ≤ b := by exact_mod_cast hb
  have h1 : (2 : ℤ) ≤ truncToInt (r.width + 2 * (1 + b)) := by
    rw [truncToInt_eq_floor (by simp only [QRectF.width]; linarith)]
    exact Int.le_floor.mpr (by simp only [QRectF.width]; push_cast; linarith)
  have h2 : (2 : ℤ) ≤ truncToInt (r.height + 2 * (1 + b)) := by
    rw [truncToInt_eq_floor (by simp only [QRectF.height]; linarith)]
    exact Int.le_floor.mpr (by simp only [QRectF.height]; push_cast; linarith)
  rw [QRect.isValid_iff]
  simp only [integerRect, QRect.mk4]
  omega

/-- How far the integer rectangle reaches: its left and top edges lie at or beyond the edges of
the viewport rectangle enlarged by the border, and its right and bottom edges fall short of
the enlarged rectangle by less than one pixel. -/
theorem integerRect_edges (r : QRectF) (b : ℤ) (hw : 0 ≤ r.w) (hh : 0 ≤ r.h) (hb : 0 ≤ b) :
    ((integerRect r b).x1 : ℚ) ≤ r.left - b ∧
    ((integerRect r b).y1 : ℚ) ≤ r.top - b ∧
    r.right + b - 1 < (integerRect r b).x2 + 1 ∧
    r.bottom + b - 1 < (integerRect r b).y2 + 1 := by
  have hb' : (0 : ℚ) ≤ b := by exact_mod_cast hb
  obtain ⟨l1, l2⟩ := truncToInt_bounds (r.left - (1 + b))
  obtain ⟨t1, t2⟩ := truncToInt_bounds (r.top - (1 + b))
  obtain ⟨-, w2⟩ := truncToInt_le_of_nonneg
    (show (0 : ℚ) ≤ r.width + 2 * (1 + b) by simp only [QRectF.width]; linarith)
  obtain ⟨-, h2⟩ := truncToInt_le_of_nonneg
    (show (0 : ℚ) ≤ r.height + 2 * (1 + b) by simp only [QRectF.height]; linarith)
  simp only [integerRect, QRect.mk4, QRectF.right, QRectF.bottom, QRectF.left, QRectF.top,
    QRectF.width, QRectF.height] at *
  push_cast
  refine ⟨?_, ?_, ?_, ?_⟩ <;> linarith

theorem truncToInt_nine_tenths : truncToInt (9 / 10) = 0 := by
  rw [truncToInt_eq_floor (by norm_num), Int.floor_eq_iff]
  constructor <;> norm_num

theorem truncToInt_twentynine_tenths : truncToInt (29 / 10) = 2 := by
  rw [truncToInt_eq_floor (by norm_num), Int.floor_eq_iff]
  constructor <;> norm_num

/-- C24 at a failing input: on the 640x480 widget under the identity view, the map rectangle
`subPixelRect` with border 0 has the viewport rectangle (1.9, 1.9, 0.9, 0.9), which reaches to
2.8 on both axes, and `calculateViewportBoundingBox` returns `QRect(0, 0, 2, 2)`, the pixels 0
and 1 on both axes: the point (2.5, 2.5) of the viewport rectangle lies on pixel (2, 2),
outside the integer rectangle. -/
theorem calculateViewportBoundingBox_misses_right_edge :
    0 ≤ subPixelRect.w ∧ 0 ≤ subPixelRect.h ∧
    freshWidget.viewToViewportRect (identityView.calculateViewBoundingBox subPixelRect)
      = ⟨19 / 10, 19 / 10, 9 / 10, 9 / 10⟩ ∧
    freshWidget.calculateViewportBoundingBox identityView subPixelRect 0 = QRect.mk4 0 0 2 2 ∧
    QRectF.covers ⟨19 / 10, 19 / 10, 9 / 10, 9 / 10⟩ ⟨5 / 2, 5 / 2⟩ ∧
    ¬ (QRect.mk4 0 0 2 2).coversPoint ⟨5 / 2, 5 / 2⟩ ∧
    ¬ (QRect.mk4 0 0 2 2).containsPixel 2 2 := by
  have hv : freshWidget.viewToViewportRect (identityView.calculateViewBoundingBox subPixelRect)
      = ⟨19 / 10, 19 / 10, 9 / 10, 9 / 10⟩ := by
    simp only [MapWidget.viewToViewportRect, identityView, freshWidget, subPixelRect,
      QRectF.left, QRectF.top, QRectF.width, QRectF.height]
    norm_num
  refine ⟨by norm_num [subPixelRect], by norm_num [subPixelRect], hv, ?_, ?_, ?_, by decide⟩
  · have e : freshWidget.calculateViewportBoundingBox identityView subPixelRect 0
        = integerRect (freshWidget.viewToViewportRect
            (identityView.calculateViewBoundingBox subPixelRect)) 0 := rfl
    rw [e, hv]
    simp only [integerRect, QRectF.left, QRectF.top, QRectF.width, QRectF.height]
    norm_num [truncToInt_nine_tenths, truncToInt_twentynine_tenths]
  · simp only [QRectF.covers, QRectF.left, QRectF.top, QRectF.right, QRectF.bottom]
    norm_num
  · simp only [QRect.coversPoint, QRect.mk4]
    norm_num


/-! ## Pending dirty rectangles under `updateEverythingInRect` -/

theorem clip_of_redraws {op : PaintOp} {a b : ℤ} (h : op.redraws a b) :
    ∃ k, op.clipRect = some k ∧ k.containsPixel a b := by
  cases op <;> first | exact absurd h (fun h => h) | exact ⟨_, rfl, h⟩

/-- A pixel that lies under no clip of the further painting has not been redrawn. -/
theorem clip_of_redrawnAfter {before after : Option QImage} {extra : List PaintOp} {a b : ℤ}
    (h : bufferOps after = bufferOps before ++ extra)
    (hr : redrawnAfter before after a b) :
    ∃ op ∈ extra, ∃ k, op.clipRect = some k ∧ k.containsPixel a b := by
  obtain ⟨e, he, op, hop, hrd⟩ := hr
  have hee : e = extra := List.append_cancel_left (he.symm.trans h)
  subst hee
  exact ⟨op, hop, clip_of_redraws hrd⟩

/-- With a map cache buffer in place, `updateEverythingInRect(r)` for a Valid `r` paints into
the map cache only under the clip `r.intersected(rect())` and leaves the dirty rectangle of the
map cache Invalid, whatever it was before. -/
theorem updateEverythingInRect_map_cache (s : MapWidget) (v : MapView) (r : QRect) (c : QImage)
    (hc : s.map_cache = some c) (hr : r.isValid = true) :
    (s.updateEverythingInRect v r).map_cache_dirty_rect.isValid = false ∧
    ∃ extra, (s.updateEverythingInRect v r).map_cache
        = some ⟨c.size, c.ops ++ extra, c.format⟩ ∧
      ∀ op ∈ extra, op.clipRect = some (r.intersected s.rect) := by
  generalize ht1 : ({ s with
      below_template_cache_dirty_rect := r
      above_template_cache_dirty_rect := r
      map_cache_dirty_rect := r } : MapWidget) = t1
  have e0 : s.updateEverythingInRect v r = (t1.updateAllDirtyCaches v).update r := by
    subst ht1; rfl
  have g1 : t1.map_cache = some c := by subst ht1; exact hc
  have g2 : t1.map_cache_dirty_rect = r := by subst ht1; rfl
  have g3 : t1.rect = s.rect := by subst ht1; rfl
  obtain ⟨b1, -, -, b4, b5, -⟩ := updateBelowIfDirty_frame t1 v
  obtain ⟨a1, -, -, a4, a5, -⟩ := updateAboveIfDirty_frame (t1.updateBelowIfDirty v) v
  generalize hx : (t1.updateBelowIfDirty v).updateAboveIfDirty v = x at a1 a4 a5
  have x1 : x.map_cache = some c := by rw [a4, b4, g1]
  have x2 : x.map_cache_dirty_rect = r := by rw [a5, b5, g2]
  have x3 : x.rect = s.rect := by rw [a1, b1, g3]
  have hu : t1.updateAllDirtyCaches v = x.updateMapCache v false := by
    simp only [MapWidget.updateAllDirtyCaches, MapWidget.updateMapIfDirty, hx, x2, hr, if_true]
  have m1 : (s.updateEverythingInRect v r).map_cache_dirty_rect
      = (x.updateMapCache v false).map_cache_dirty_rect := by rw [e0, hu]; rfl
  have m2 : (s.updateEverythingInRect v r).map_cache = (x.updateMapCache v false).map_cache := by
    rw [e0, hu]; rfl
  refine ⟨?_, x.mapPainting v (r.intersected s.rect) false, ?_,
    (mapPainting_clip x v _ false).2⟩
  · rw [m1, updateMapCache_dirty]
    exact (QRect.setWidth_neg_one _).1
  · rw [m2]
    unfold MapWidget.updateMapCache
    rw [x1]
    simp only [x2, x3]

/-- What `updateEverythingInRect(r)` redraws in an allocated map cache lies in `r`. -/
theorem updateEverythingInRect_redrawn_in_clip (s : MapWidget) (v : MapView) (r : QRect)
    (c : QImage) (before : Option QImage) (shift : List PaintOp)
    (hc : s.map_cache = some c) (hb : c.ops = bufferOps before ++ shift)
    (hs : ∀ op ∈ shift, op.clipRect = none) (hr : r.isValid = true) (a b : ℤ)
    (h : redrawnAfter before (s.updateEverythingInRect v r).map_cache a b) :
    (r.intersected s.rect).containsPixel a b := by
  obtain ⟨-, extra, he, hclip⟩ := updateEverythingInRect_map_cache s v r c hc hr
  have hops : bufferOps (s.updateEverythingInRect v r).map_cache
      = bufferOps before ++ (shift ++ extra) := by
    rw [he]
    simp only [bufferOps, hb, List.append_assoc]
  obtain ⟨op, hop, k, hk, hin⟩ := clip_of_redrawnAfter hops h
  rcases List.mem_append.mp hop with hop | hop
  · rw [hs op hop] at hk; cases hk
  · rw [hclip op hop] at hk
    cases hk
    exact hin

/-- The branch of `panView` for a shift of 10 pixels to the left. -/
theorem panViewPartial_ten_left (t : MapWidget) (v : MapView) :
    t.panViewPartial v (-10) 0
      = MapWidget.updateEverythingInRect
          { t with
            below_template_cache := shiftCache (-10) 0 t.below_template_cache
            above_template_cache := shiftCache (-10) 0 t.above_template_cache
            map_cache := shiftCache (-10) 0 t.map_cache }
          v (QRect.mk4 (t.width + -10) 0 (- -10) (t.height - 0)) := rfl

/-- C23 at a failing input: the painted 640x480 widget has the part (100, 100, 50, 50) of its
map cache pending, inside the widget bounds. `panView(10, 0)` under the identity view takes the
shift-and-patch path and `updateEverythingInRect` overwrites the pending rectangle with the
exposed strip: afterwards the dirty rectangle of the map cache is Invalid, and everything the
pan has redrawn in the map cache lies in the strip at x >= 630. The same holds for a direct call
of `updateEverythingInRect` with that strip. -/
theorem panView_drops_pending_dirty_rect :
    staleWidget.map_cache_dirty_rect = QRect.mk4 100 100 50 50 ∧
    staleWidget.map_cache_dirty_rect.containsPixel 120 120 ∧
    staleWidget.rect.containsPixel 120 120 ∧
    panPartialRedraw staleWidget identityView 10 0 = true ∧
    (staleWidget.panView identityView 10 0).map_cache_dirty_rect.isValid = false ∧
    ¬ (staleWidget.panView identityView 10 0).map_cache_dirty_rect.containsPixel 120 120 ∧
    (∀ a b, redrawnAfter staleWidget.map_cache
        (staleWidget.panView identityView 10 0).map_cache a b → 630 ≤ a) ∧
    (staleWidget.updateEverythingInRect identityView
        (QRect.mk4 630 0 10 480)).map_cache_dirty_rect.isValid = false ∧
    (∀ a b, redrawnAfter staleWidget.map_cache
        (staleWidget.updateEverythingInRect identityView (QRect.mk4 630 0 10 480)).map_cache
        a b → 630 ≤ a) := by
  have hpart : panPartialRedraw staleWidget identityView 10 0 = true :=
    (panPartialRedraw_congr paintedWidget staleWidget identityView 10 0 rfl rfl rfl).trans
      sample_pan_shifts
  have hpan : staleWidget.panView identityView 10 0
      = MapWidget.updateEverythingInRect
          { staleWidget.panMoveDirtyRects 10 0 with
            below_template_cache :=
              shiftCache (-10) 0 (staleWidget.panMoveDirtyRects 10 0).below_template_cache
            above_template_cache :=
              shiftCache (-10) 0 (staleWidget.panMoveDirtyRects 10 0).above_template_cache
            map_cache := shiftCache (-10) 0 (staleWidget.panMoveDirtyRects 10 0).map_cache }
          identityView (QRect.mk4 630 0 10 480) := by
    rw [panView_on_shift_path staleWidget identityView 10 0 hpart, sample_pan_shift_values.1,
      sample_pan_shift_values.2, panViewPartial_ten_left]
    rfl
  obtain ⟨S, hS, hSc, hSr⟩ : ∃ S : MapWidget,
      staleWidget.panView identityView 10 0
        = S.updateEverythingInRect identityView (QRect.mk4 630 0 10 480) ∧
      S.map_cache = some ⟨⟨640, 480⟩, [PaintOp.drawImage CompositionMode.CompositionMode_Source (-10) 0], QImageFormat.Format_ARGB32_Premultiplied⟩ ∧
      S.rect = staleWidget.rect := ⟨_, hpan, rfl, rfl⟩
  have hstrip : ∀ a b : ℤ,
      ((QRect.mk4 630 0 10 480).intersected staleWidget.rect).containsPixel a b → 630 ≤ a := by
    intro a b h
    have e : (QRect.mk4 630 0 10 480).intersected staleWidget.rect = ⟨630, 0, 639, 479⟩ := by
      decide
    rw [e] at h
    exact h.1
  have hinv1 := (updateEverythingInRect_map_cache S identityView (QRect.mk4 630 0 10 480)
    ⟨⟨640, 480⟩, [PaintOp.drawImage CompositionMode.CompositionMode_Source (-10) 0], QImageFormat.Format_ARGB32_Premultiplied⟩ hSc (by decide)).1
  have hinv2 := (updateEverythingInRect_map_cache staleWidget identityView
    (QRect.mk4 630 0 10 480) ⟨⟨640, 480⟩, [], QImageFormat.Format_ARGB32_Premultiplied⟩ rfl (by decide)).1
  refine ⟨rfl, by decide, by decide, hpart, ?_, ?_, ?_, hinv2, ?_⟩
  · rw [hS]; exact hinv1
  · intro h
    have hv := QRect.isValid_of_containsPixel h
    rw [hS, hinv1] at hv
    cases hv
  · intro a b h
    rw [hS] at h
    have h1 := updateEverythingInRect_redrawn_in_clip S identityView _
      ⟨⟨640, 480⟩, [PaintOp.drawImage CompositionMode.CompositionMode_Source (-10) 0], QImageFormat.Format_ARGB32_Premultiplied⟩ staleWidget.map_cache [PaintOp.drawImage CompositionMode.CompositionMode_Source (-10) 0]
      hSc rfl (by intro op hop; rw [List.mem_singleton] at hop; subst hop; rfl) (by decide)
      a b h
    rw [hSr] at h1
    exact hstrip a b h1
  · intro a b h
    exact hstrip a b (updateEverythingInRect_redrawn_in_clip staleWidget identityView _
      ⟨⟨640, 480⟩, [], QImageFormat.Format_ARGB32_Premultiplied⟩ staleWidget.map_cache [] rfl rfl
      (by intro op hop; exact absurd hop (List.not_mem_nil op)) (by decide) a b h)

theorem QRect.united_containsPixel_left {a : QRect} (b : QRect) {x y : ℤ}
    (h : a.containsPixel x y) : (a.united b).containsPixel x y := by
  have hv := QRect.isValid_of_containsPixel h
  cases hb : b.isNull
  · rw [QRect.united_of_isValid hv hb]
    simp only [QRect.containsPixel] at h ⊢
    omega
  · have hna := QRect.not_isNull_of_isValid hv
    simp only [QRect.united, hna, hb, Bool.false_eq_true, if_false, if_true]
    exact h

/-- The operations that mark a cache dirty keep what was pending: every pixel of the old dirty
rectangle is in the new one, and `updateEverything` makes every widget pixel pending. -/
theorem marking_keeps_pending (s : MapWidget) (v : MapView) (map_rect view_rect : QRectF)
    (pixel_border a b : ℤ) :
    (s.map_cache_dirty_rect.containsPixel a b →
      (s.markObjectAreaDirty v map_rect).map_cache_dirty_rect.containsPixel a b) ∧
    (s.above_template_cache_dirty_rect.containsPixel a b →
      (s.markTemplateCacheDirty view_rect pixel_border true).above_template_cache_dirty_rect.containsPixel
        a b) ∧
    (s.below_template_cache_dirty_rect.containsPixel a b →
      (s.markTemplateCacheDirty view_rect pixel_border false).below_template_cache_dirty_rect.containsPixel
        a b) ∧
    (s.rect.containsPixel a b →
      s.updateEverything.map_cache_dirty_rect.containsPixel a b ∧
      s.updateEverything.above_template_cache_dirty_rect.containsPixel a b ∧
      s.updateEverything.below_template_cache_dirty_rect.containsPixel a b) := by
  refine ⟨fun h => ?_, fun h => ?_, fun h => ?_, fun h => ⟨h, h, h⟩⟩
  · rw [(markObjectAreaDirty_dirty_rect s v map_rect).1]
    split_ifs with h1 h2
    · exact h
    · exact QRect.united_containsPixel_left _ h
    · exact absurd (QRect.isValid_of_containsPixel h) h2
  · rw [(markTemplateCacheDirty_dirty_rect s view_rect pixel_border true).1]
    split_ifs with h1 h2
    · exact h
    · exact QRect.united_containsPixel_left _ h
    · exact absurd (QRect.isValid_of_containsPixel h) h2
  · rw [(markTemplateCacheDirty_dirty_rect s view_rect pixel_border false).2.1]
    split_ifs with h1 h2
    · exact h
    · exact QRect.united_containsPixel_left _ h
    · exact absurd (QRect.isValid_of_containsPixel h) h2


/-- For Valid rectangles `QRect::intersects` says that they have a pixel in common. -/
theorem QRect.sharesPixel_of_intersects {a b : QRect} (ha : a.isValid = true)
    (hb : b.isValid = true) (h : a.intersects b = true) : a.sharesPixel b := by
  have hna := QRect.not_isNull_of_isValid ha
  have hnb := QRect.not_isNull_of_isValid hb
  rw [QRect.isValid_iff] at ha hb
  have a1 : ¬ (a.x2 - a.x1 + 1 < 0) := by omega
  have a2 : ¬ (a.y2 - a.y1 + 1 < 0) := by omega
  have b1 : ¬ (b.x2 - b.x1 + 1 < 0) := by omega
  have b2 : ¬ (b.y2 - b.y1 + 1 < 0) := by omega
  simp only [QRect.intersects, hna, hnb, Bool.or_self, Bool.false_eq_true, if_false, QRect.nl,
    QRect.nr, QRect.nt, QRect.nb, a1, a2, b1, b2] at h
  have c1 : ¬ (a.x1 > b.x2) := by
    intro hc; simp [hc] at h
  have c2 : ¬ (b.x1 > a.x2) := by
    intro hc; simp [hc] at h
  have c3 : ¬ (a.y1 > b.y2) := by
    intro hc; simp [hc] at h
  have c4 : ¬ (b.y1 > a.y2) := by
    intro hc; simp [hc] at h
  refine ⟨max a.x1 b.x1, max a.y1 b.y1, ?_, ?_⟩ <;> simp only [QRect.containsPixel] <;> omega

/-- A request with a non-negative border for a view bounding box of non-negative size passes
the test `viewport_rect.intersects(rect())` of `updateDrawingLater` on a widget with Valid
bounds exactly when its viewport rectangle has a pixel in the widget. -/
theorem updateDrawingLater_guard (s : MapWidget) (v : MapView) (map_rect : QRectF)
    (pixel_border : ℤ) (hw : 0 ≤ (v.calculateViewBoundingBox map_rect).w)
    (hh : 0 ≤ (v.calculateViewBoundingBox map_rect).h) (hb : 0 ≤ pixel_border)
    (hs : s.rect.isValid = true) :
    (s.calculateViewportBoundingBox v map_rect pixel_border).isValid = true ∧
    ((s.calculateViewportBoundingBox v map_rect pixel_border).intersects s.rect = true ↔
      (s.calculateViewportBoundingBox v map_rect pixel_border).sharesPixel s.rect) := by
  have hv : (s.calculateViewportBoundingBox v map_rect pixel_border).isValid = true :=
    integerRect_isValid _ pixel_border hw hh hb
  exact ⟨hv, fun h => QRect.sharesPixel_of_intersects hv hs h,
    QRect.intersects_of_sharesPixel⟩


end MapWidgetModel
